import Mathlib

/-! Verification of smartwaker, controller side: Wake-on-LAN encoder, MAC parser, command
dispatch.

Shallow embedding of `internal/controller/wake.go`, `internal/controller/ping.go`,
`internal/controller/controller.go` and the parts of `internal/mqtt/client.go` and
`internal/config/config.go` they use.

Conventions of the embedding:
* a Go `string` or `[]byte` is a list of bytes, a byte being a natural number below 256;
* a Go `error` is represented by its message (the value of `err.Error()`);
* a function returning `(T, error)` returns `Except GoError T`;
* the network, the MQTT library and the clock are oracles passed as structures, and every
  call made to them is recorded, in order, in a list of `Effect`s.
-/

namespace SmartWaker

/-- A Go `string` / `[]byte`: a sequence of bytes. -/
abbrev Bytes := List Nat

/-- A Go `error`, identified with its message. -/
abbrev GoError := Bytes

deriving instance DecidableEq for Except

/-- The bytes of an ASCII string literal of the source. -/
def str (s : String) : Bytes := s.toList.map Char.toNat

/-- Go `%d` applied to an `int`: decimal digits, with a leading minus sign when negative. -/
def fmtInt (n : Int) : Bytes :=
  if n < 0 then 45 :: (Nat.toDigits 10 n.natAbs).map Char.toNat
  else (Nat.toDigits 10 n.natAbs).map Char.toNat

/-! ## wake.go: createMagicPacket -/

/-- Go `copy(dst[off:], src)`: overwrites `min (len dst - off) (len src)` bytes of `dst`,
starting at offset `off`, with the first bytes of `src`. -/
def copyAt (dst : Bytes) (off : Nat) (src : Bytes) : Bytes :=
  let n := min (dst.length - off) src.length
  dst.take off ++ src.take n ++ dst.drop (off + n)

/-- Embedding of `createMagicPacket` (wake.go:83-102). -/
def createMagicPacket (mac : Bytes) : Except GoError Bytes :=
  if mac.length != 6 then
    .error (str "invalid MAC address length: " ++ fmtInt mac.length ++ str " bytes")
  else
    -- packet := make([]byte, 102)
    let packet : Bytes := List.replicate 102 0
    -- for i := 0; i < 6; i++ { packet[i] = 0xFF }
    let packet := (List.range 6).foldl (fun p i => p.set i 0xFF) packet
    -- for i := 0; i < 16; i++ { copy(packet[6+(i*6):], mac) }
    let packet := (List.range 16).foldl (fun p i => copyAt p (6 + i * 6) mac) packet
    .ok packet

/-! ## wake.go: parseMACAddress, with the model of `encoding/hex` it relies on -/

/-- Go `strings.ReplaceAll(s, old, "")` for a one-byte `old`: every occurrence of that byte
is removed from `s`. -/
def replaceAllEmpty (s : Bytes) (old : Nat) : Bytes :=
  s.filter (fun c => c != old)

/-- Go `encoding/hex`, `fromHexChar`: the value of one hexadecimal digit, `none` for any
other byte. The byte ranges are '0'..'9', 'a'..'f' and 'A'..'F'. -/
def fromHexChar (c : Nat) : Option Nat :=
  if 48 ≤ c ∧ c ≤ 57 then some (c - 48)
  else if 97 ≤ c ∧ c ≤ 102 then some (c - 97 + 10)
  else if 65 ≤ c ∧ c ≤ 70 then some (c - 65 + 10)
  else none

/-- The two errors of Go `encoding/hex`. -/
inductive HexError where
  | InvalidByteError (b : Nat)
  | ErrLength
  deriving DecidableEq, Repr

/-- Go `hex.DecodeString`: decodes pairs of digits from left to right; returns the bytes
decoded so far together with the first error met, if any. An odd trailing byte is reported
as an invalid byte when it is not a digit and as `ErrLength` otherwise. -/
def hexDecodeString : Bytes → Bytes × Option HexError
  | [] => ([], none)
  | [p] =>
    if fromHexChar p = none then ([], some (.InvalidByteError p)) else ([], some .ErrLength)
  | p :: q :: rest =>
    match fromHexChar p, fromHexChar q with
    | none, _ => ([], some (.InvalidByteError p))
    | some _, none => ([], some (.InvalidByteError q))
    | some a, some b =>
      let r := hexDecodeString rest
      ((((a <<< 4) ||| b) % 256) :: r.1, r.2)

/-- One upper-case hexadecimal digit, as an ASCII byte. -/
def upperHexDigit (d : Nat) : Nat := if d < 10 then 48 + d else 55 + d

/-- Go `strconv.IsPrint` on a rune below 256 (its Latin-1 fast path). -/
def isPrintLatin1 (r : Nat) : Bool :=
  (0x20 ≤ r && r < 0x7F) || (0xA1 ≤ r && r ≤ 0xFF && r != 0xAD)

/-- UTF-8 encoding of a rune below 256. -/
def utf8Latin1 (r : Nat) : Bytes :=
  if r < 0x80 then [r] else [0xC0 ||| (r >>> 6), 0x80 ||| (r &&& 0x3F)]

/-- Go `%#U` applied to `rune(b)` for a byte `b`: `U+00XX`, followed by the quoted character
when it is printable. -/
def fmtSharpU (b : Nat) : Bytes :=
  str "U+00" ++ [upperHexDigit (b / 16 % 16), upperHexDigit (b % 16)] ++
    (if isPrintLatin1 b then str " '" ++ utf8Latin1 b ++ str "'" else [])

/-- The message of a `HexError` (`Error()` in `encoding/hex`). -/
def HexError.Error : HexError → GoError
  | .InvalidByteError b => str "encoding/hex: invalid byte: " ++ fmtSharpU b
  | .ErrLength => str "encoding/hex: odd length hex string"

/-- Embedding of `parseMACAddress` (wake.go:62-80). -/
def parseMACAddress (macAddr : Bytes) : Except GoError Bytes :=
  let macAddr := replaceAllEmpty macAddr 58   -- ":"
  let macAddr := replaceAllEmpty macAddr 45   -- "-"
  let macAddr := replaceAllEmpty macAddr 46   -- "."
  if macAddr.length != 12 then
    .error (str "invalid MAC address length: " ++ macAddr)
  else
    match hexDecodeString macAddr with
    | (_, some err) => .error (str "failed to decode MAC address: " ++ err.Error)
    | (mac, none) => .ok mac

/-! ## Effects and oracles -/

/-- Go `net.UDPAddr`. -/
structure UDPAddr where
  IP : Bytes
  Port : Int
  Zone : Bytes
  deriving DecidableEq, Repr

/-- The observable steps of a run, recorded in order. Calls into the network, the process
table and the MQTT library are effects; so are log lines, a run-time panic, and the entry into
the package functions `createMagicPacket`, `WakeOnLAN` and `PingHost` (with their arguments).
For the controlled agent the reads of the host (`hostQuery`, named by the library function,
and `diskUsage`) and its calls of the wrapper's `Publish` (`callPublish`) are recorded too;
`connect`, `subscribe` and `disconnect` are the calls of the wrapper into the underlying
client. -/
inductive Effect where
  | log (msg : Bytes)
  | panic
  | callCreateMagicPacket (mac : Bytes)
  | callWakeOnLAN (macAddr ipAddr : Bytes) (port : Int)
  | callPingHost (host : Bytes)
  | resolveUDPAddr (target : Bytes)
  | dialUDP (addr : UDPAddr)
  | connWrite (addr : UDPAddr) (b : Bytes)
  | connClose (addr : UDPAddr)
  | dialTimeout (address : Bytes)
  | tcpClose (address : Bytes)
  | combinedOutput (argv : List Bytes)
  | publish (topic : Bytes) (qos : Nat) (retained : Bool) (payload : Bytes)
  | connect
  | subscribe (topic : Bytes) (qos : Nat)
  | disconnect (quiesce : Nat)
  | callPublish (topic : Bytes) (qos : Nat) (retained : Bool) (payload : Bytes)
  | hostQuery (name : Bytes)
  | diskUsage (path : Bytes)
  deriving DecidableEq, Repr

/-- The outcomes of the calls the controller makes to the operating system and the Go library:
`none` in an error position means success. Durations are in nanoseconds. -/
structure Sys where
  /-- Go `runtime.GOOS`. -/
  GOOS : Bytes
  /-- Go `net.ResolveUDPAddr("udp", target)`. -/
  ResolveUDPAddr : Bytes → Except GoError UDPAddr
  /-- Go `net.DialUDP("udp", nil, addr)`: the error, if any. -/
  DialUDP : UDPAddr → Option GoError
  /-- Go `conn.Write(b)` on the connection to `addr`: the error, if any. -/
  Write : UDPAddr → Bytes → Option GoError
  /-- Go `net.DialTimeout("tcp", address, 3*time.Second)`: the error, if any. -/
  DialTimeout : Bytes → Option GoError
  /-- Go `time.Since(startTime)` after the TCP attempt to `address`. -/
  dialElapsed : Bytes → Int
  /-- Go `exec.Command(argv...).CombinedOutput()`: the output and the error, if any. -/
  CombinedOutput : List Bytes → Bytes × Option GoError
  /-- Go `time.Since(startTime)` after the command has run. -/
  cmdElapsed : List Bytes → Int
  /-- Go `time.Duration.String`, used by `%v`. -/
  DurationString : Int → Bytes

/-! ## wake.go: WakeOnLAN -/

/-- Embedding of `WakeOnLAN` (wake.go:11-59): the effects performed and the error returned
(`none` for `nil`). -/
def WakeOnLAN (sys : Sys) (macAddr ipAddr : Bytes) (port : Int) : List Effect × Option GoError :=
  let port := if port ≤ 0 then 9 else port
  match parseMACAddress macAddr with
  | .error err => ([], some (str "invalid MAC address: " ++ err))
  | .ok mac =>
    match createMagicPacket mac with
    | .error err =>
      ([.callCreateMagicPacket mac], some (str "failed to create magic packet: " ++ err))
    | .ok mp =>
      let target :=
        if ipAddr ≠ [] then ipAddr ++ str ":" ++ fmtInt port
        else str "255.255.255.255:" ++ fmtInt port
      match sys.ResolveUDPAddr target with
      | .error err =>
        ([.callCreateMagicPacket mac, .resolveUDPAddr target],
          some (str "failed to resolve target address: " ++ err))
      | .ok addr =>
        match sys.DialUDP addr with
        | some err =>
          ([.callCreateMagicPacket mac, .resolveUDPAddr target, .dialUDP addr],
            some (str "failed to create UDP connection: " ++ err))
        | none =>
          -- `defer conn.Close()` runs when the function returns, after the write
          match sys.Write addr mp with
          | some err =>
            ([.callCreateMagicPacket mac, .resolveUDPAddr target, .dialUDP addr,
                .connWrite addr mp, .connClose addr],
              some (str "failed to send magic packet: " ++ err))
          | none =>
            ([.callCreateMagicPacket mac, .resolveUDPAddr target, .dialUDP addr,
                .connWrite addr mp, .connClose addr], none)

/-! ## ping.go: PingHost -/

/-- Go `strings.Contains(s, substr)`. -/
def stringsContains (s substr : Bytes) : Bool := decide (substr <:+: s)

/-- Embedding of `PingHost` (ping.go:13-52): the effects performed and the triple
(reachable, round-trip time, error). -/
def PingHost (sys : Sys) (host : Bytes) : List Effect × (Bool × Int × Option GoError) :=
  let address := host ++ str ":80"
  match sys.DialTimeout address with
  | none => ([.dialTimeout address, .tcpClose address], (true, sys.dialElapsed address, none))
  | some _ =>
    let argv : List Bytes :=
      if sys.GOOS = str "windows" then [str "ping", str "-n", str "1", str "-w", str "3000", host]
      else [str "ping", str "-c", str "1", str "-W", str "3", host]
    let (output, err) := sys.CombinedOutput argv
    let pingDuration := sys.cmdElapsed argv
    match err with
    | some e =>
      if stringsContains output (str "timed out") ||
          stringsContains output (str "100% packet loss") ||
          stringsContains output (str "Destination Host Unreachable") then
        ([.dialTimeout address, .combinedOutput argv], (false, 0, none))
      else
        ([.dialTimeout address, .combinedOutput argv],
          (false, 0, some (str "ping error: " ++ e ++ str ", output: " ++ output)))
    | none => ([.dialTimeout address, .combinedOutput argv], (true, pingDuration, none))

/-! ## config.go and mqtt/client.go: the parts used by the controller -/

/-- Go `config.DeviceConfig`. -/
structure DeviceConfig where
  Name : Bytes
  MAC : Bytes
  IP : Bytes
  Port : Int
  deriving DecidableEq, Repr

/-- Go `config.MQTTConfig` (the `Auth` and `TLS` sections, which only feed the connection
options, are left out). -/
structure MQTTConfig where
  Broker : Bytes
  ClientID : Bytes
  Topic : Bytes
  Version : Int
  QoS : Int
  CleanSession : Bool
  KeepAlive : Int
  deriving DecidableEq, Repr

/-- Go `config.ControlledConfig`. -/
structure ControlledConfig where
  StatusTopic : Bytes
  StatusInterval : Int
  DeviceName : Bytes
  deriving DecidableEq, Repr

/-- Go `config.Config`. -/
structure Config where
  Mode : Bytes
  MQTT : MQTTConfig
  Devices : List DeviceConfig
  Controlled : ControlledConfig
  deriving DecidableEq, Repr

/-- Go conversion `byte(n)` of an `int`: the low eight bits. -/
def byteOfInt (n : Int) : Nat := (n % 256).toNat

/-- The underlying paho client, as an oracle: its connection state and the error, if any, of
the token returned by `Publish`, `Connect` and `Subscribe` once `Wait` has returned. -/
structure Paho where
  IsConnected : Bool
  Publish : Bytes → Nat → Bool → Bytes → Option GoError
  Connect : Option GoError := none
  Subscribe : Bytes → Nat → Option GoError := fun _ _ => none

/-- Go `mqtt.Client` of `internal/mqtt` (client.go:16-21): the underlying client (`none` for
`nil`) and the connected flag. -/
structure Client where
  client : Option Paho
  isConnected : Bool

/-- Embedding of `Client.IsConnected` (client.go:94-96); `none` is the nil dereference that
the call on a missing underlying client would be. -/
def Client.IsConnected (c : Client) : Option Bool :=
  if c.isConnected then
    match c.client with
    | some p => some p.IsConnected
    | none => none
  else some false

/-- Embedding of `Client.Publish` (client.go:71-82). -/
def Client.Publish (c : Client) (topic : Bytes) (qos : Nat) (retained : Bool) (payload : Bytes) :
    List Effect × Option GoError :=
  if !c.isConnected then ([], some (str "mqtt client not connected"))
  else
    match c.client with
    | none => ([.panic], none)
    | some p =>
      match p.Publish topic qos retained payload with
      | some e =>
        ([.publish topic qos retained payload],
          some (str "failed to publish to topic " ++ topic ++ str ": " ++ e))
      | none => ([.publish topic qos retained payload], none)

/-! ## controller.go -/

/-- Go `controller.Controller`. -/
structure Controller where
  config : Config
  mqtt : Client

/-- Embedding of `Controller.publishResponse` (controller.go:159-166). -/
def Controller.publishResponse (c : Controller) (message : Bytes) : List Effect :=
  match c.mqtt.IsConnected with
  | none => [.panic]
  | some false => []
  | some true =>
    let responseTopic := c.config.MQTT.Topic ++ str "/response"
    match c.mqtt.Publish responseTopic (byteOfInt c.config.MQTT.QoS) false message with
    | (t, some err) => t ++ [.log (str "Failed to publish response: " ++ err)]
    | (t, none) => t

/-- First loop of `listDevices` (controller.go:76-78), from index `i` on: one log line per
device. -/
def listLogLoop (i : Nat) : List DeviceConfig → List Effect
  | [] => []
  | device :: rest =>
    .log (str "[" ++ fmtInt ((i : Int) + 1) ++ str "] " ++ device.Name ++ str " (MAC: " ++
        device.MAC ++ str ", IP: " ++ device.IP ++ str ")") :: listLogLoop (i + 1) rest

/-- Second loop of `listDevices` (controller.go:83-85), from index `i` on: each device appends
its line to `response`. -/
def listResponseLoop (i : Nat) (response : Bytes) : List DeviceConfig → Bytes
  | [] => response
  | device :: rest =>
    listResponseLoop (i + 1)
      (response ++ (str "[" ++ fmtInt ((i : Int) + 1) ++ str "] " ++ device.Name ++
        str " (IP: " ++ device.IP ++ str ")\n")) rest

/-- Embedding of `Controller.listDevices` (controller.go:73-91). -/
def Controller.listDevices (c : Controller) : List Effect :=
  [.log (str "Listing all configured devices:")] ++ listLogLoop 0 c.config.Devices ++
    (match c.mqtt.IsConnected with
     | none => [.panic]
     | some false => []
     | some true =>
       let response := listResponseLoop 0 [] c.config.Devices
       match c.mqtt.Publish (c.config.MQTT.Topic ++ str "/response")
           (byteOfInt c.config.MQTT.QoS) false response with
       | (t, some err) => t ++ [.log (str "Failed to publish device list: " ++ err)]
       | (t, none) => t)

/-- The lookup loop of `wakeDevice` and `pingDevice` (controller.go:98-103, 129-134): the
devices are visited in order and the loop breaks at the first whose name is `deviceName`;
`none` is the `nil` target. -/
def findDevice (deviceName : Bytes) : List DeviceConfig → Option DeviceConfig
  | [] => none
  | device :: rest => if device.Name = deviceName then some device else findDevice deviceName rest

/-- Embedding of `Controller.wakeDevice` (controller.go:94-122). -/
def Controller.wakeDevice (c : Controller) (sys : Sys) (deviceName : Bytes) : List Effect :=
  match findDevice deviceName c.config.Devices with
  | none =>
    .log (str "Device not found: " ++ deviceName) ::
      c.publishResponse (str "Error: Device not found: " ++ deviceName)
  | some targetDevice =>
    [.log (str "Waking up device: " ++ targetDevice.Name ++ str " (MAC: " ++ targetDevice.MAC ++
        str ")"),
      .callWakeOnLAN targetDevice.MAC targetDevice.IP targetDevice.Port] ++
    (match WakeOnLAN sys targetDevice.MAC targetDevice.IP targetDevice.Port with
     | (t, some err) =>
       t ++ .log (str "Failed to wake device " ++ targetDevice.Name ++ str ": " ++ err) ::
         c.publishResponse (str "Error waking device " ++ targetDevice.Name ++ str ": " ++ err)
     | (t, none) =>
       t ++ .log (str "Wake-on-LAN packet sent to " ++ targetDevice.Name) ::
         c.publishResponse (str "Wake-on-LAN packet sent to " ++ targetDevice.Name))

/-- Embedding of `Controller.pingDevice` (controller.go:125-156). -/
def Controller.pingDevice (c : Controller) (sys : Sys) (deviceName : Bytes) : List Effect :=
  match findDevice deviceName c.config.Devices with
  | none =>
    .log (str "Device not found: " ++ deviceName) ::
      c.publishResponse (str "Error: Device not found: " ++ deviceName)
  | some targetDevice =>
    [.log (str "Pinging device: " ++ targetDevice.Name ++ str " (IP: " ++ targetDevice.IP ++
        str ")"),
      .callPingHost targetDevice.IP] ++
    (match PingHost sys targetDevice.IP with
     | (t, (_, _, some err)) =>
       t ++ .log (str "Failed to ping device " ++ targetDevice.Name ++ str ": " ++ err) ::
         c.publishResponse (str "Error pinging device " ++ targetDevice.Name ++ str ": " ++ err)
     | (t, (true, rtt, none)) =>
       t ++ .log (str "Device " ++ targetDevice.Name ++ str " is reachable, RTT: " ++
           sys.DurationString rtt) ::
         c.publishResponse (str "Device " ++ targetDevice.Name ++ str " is reachable, RTT: " ++
           sys.DurationString rtt)
     | (t, (false, _, none)) =>
       t ++ .log (str "Device " ++ targetDevice.Name ++ str " is not reachable") ::
         c.publishResponse (str "Device " ++ targetDevice.Name ++ str " is not reachable"))

/-- The command a payload selects: the branch of the `switch` in `handleMessage`. -/
inductive Command where
  | List
  | Wake (deviceName : Bytes)
  | Ping (deviceName : Bytes)
  | Unknown (raw : Bytes)
  deriving DecidableEq, Repr

/-- Go slice expression `s[:n]`; `none` is the out-of-range panic. -/
def sliceTo (s : Bytes) (n : Nat) : Option Bytes :=
  if n ≤ s.length then some (s.take n) else none

/-- Go slice expression `s[n:]`; `none` is the out-of-range panic. -/
def sliceFrom (s : Bytes) (n : Nat) : Option Bytes :=
  if n ≤ s.length then some (s.drop n) else none

/-- A guard `len(command) >= 5 && command[:5] == lit` of the `switch` in `handleMessage`:
`&&` evaluates the slice only when the length test holds. -/
def prefixGuard (command lit : Bytes) : Option Bool :=
  if command.length ≥ 5 then (sliceTo command 5).map (fun p => p == lit) else some false

/-- The `switch` of `handleMessage` (controller.go:58-69), as the function from the payload to
the branch taken; `none` is an out-of-range slice. The cases are tried in order. -/
def parseCommand (command : Bytes) : Option Command :=
  if command = str "list" then some .List
  else
    match prefixGuard command (str "wake:") with
    | none => none
    | some true => (sliceFrom command 5).map .Wake
    | some false =>
      match prefixGuard command (str "ping:") with
      | none => none
      | some true => (sliceFrom command 5).map .Ping
      | some false => some (.Unknown command)

/-- The body of the branch of `handleMessage` selected by a command. -/
def Controller.dispatch (c : Controller) (sys : Sys) : Command → List Effect
  | .List => c.listDevices
  | .Wake deviceName => c.wakeDevice sys deviceName
  | .Ping deviceName => c.pingDevice sys deviceName
  | .Unknown command => [.log (str "Unknown command: " ++ command)]

/-- Embedding of `Controller.handleMessage` (controller.go:50-70); `topic` and `payload` are
`msg.Topic()` and `msg.Payload()`. -/
def Controller.handleMessage (c : Controller) (sys : Sys) (topic payload : Bytes) : List Effect :=
  let command := payload
  .log (str "Received message on topic " ++ topic ++ str ": " ++ payload) ::
    (match parseCommand command with
     | none => [.panic]
     | some cmd => c.dispatch sys cmd)

/-! ## Vocabulary of the claims about addresses -/

/-- The separator characters ':', '-' and '.'. -/
def isSeparator (c : Nat) : Bool := c == 58 || c == 45 || c == 46

/-- A hexadecimal digit, upper or lower case: '0'..'9', 'a'..'f', 'A'..'F'. -/
def isHexDigit (c : Nat) : Bool :=
  (48 ≤ c && c ≤ 57) || (97 ≤ c && c ≤ 102) || (65 ≤ c && c ≤ 70)

/-- ASCII lower-casing of one byte. -/
def toLowerASCII (c : Nat) : Nat := if 65 ≤ c ∧ c ≤ 90 then c + 32 else c

/-- The value of a hexadecimal digit, read without regard to letter case. -/
def hexDigitValue (c : Nat) : Nat :=
  if toLowerASCII c ≤ 57 then toLowerASCII c - 48 else toLowerASCII c - 87

/-- The string `s` with every ':', '-' and '.' removed. -/
def removeSeparators (s : Bytes) : Bytes := s.filter (fun c => !isSeparator c)

/-- Whether `t` is obtained from `s` by inserting separator characters at any positions: `t` is
read from the left, and each byte is either an inserted separator or the next byte of `s`. -/
def sepInserted : Bytes → Bytes → Bool
  | s, [] => s.isEmpty
  | s, c :: t =>
    (isSeparator c && sepInserted s t) ||
      (match s with
       | d :: r => d == c && sepInserted r t
       | [] => false)

/-- The bytes denoted by a string of hexadecimal digits, two digits per byte. -/
def pairValues : Bytes → Bytes
  | p :: q :: rest => (16 * hexDigitValue p + hexDigitValue q) :: pairValues rest
  | _ => []

/-! ## Vocabulary of the claims about the controller -/

/-- The destination the wake packet is addressed to: "<ip>:<p>", or "255.255.255.255:<p>" for
an empty `ip`, where `p` is the port when positive and 9 otherwise. -/
def wakeTarget (ipAddr : Bytes) (port : Int) : Bytes :=
  (if ipAddr = [] then str "255.255.255.255" else ipAddr) ++ str ":" ++
    fmtInt (if 0 < port then port else 9)

/-- An oracle in which every network call succeeds, the TCP probe is refused and the echo
command succeeds. -/
def sampleSys : Sys where
  GOOS := str "linux"
  ResolveUDPAddr := fun _ => .ok ⟨[192, 168, 1, 100], 9, []⟩
  DialUDP := fun _ => none
  Write := fun _ _ => none
  DialTimeout := fun _ => some (str "connect: connection refused")
  dialElapsed := fun _ => 0
  CombinedOutput := fun _ => ([], none)
  cmdElapsed := fun _ => 1000000
  DurationString := fun _ => str "1ms"

/-- Whether an effect is a log line. -/
def Effect.isLog : Effect → Bool
  | .log _ => true
  | _ => false

/-- Whether an effect is a publish on the bus. -/
def Effect.isPublish : Effect → Bool
  | .publish _ _ _ _ => true
  | _ => false

/-- The arguments of the calls to `WakeOnLAN` in a run, in order. -/
def wakeCalls : List Effect → List (Bytes × Bytes × Int)
  | [] => []
  | .callWakeOnLAN macAddr ipAddr port :: rest => (macAddr, ipAddr, port) :: wakeCalls rest
  | _ :: rest => wakeCalls rest

/-- The arguments of the calls to `PingHost` in a run, in order. -/
def probeCalls : List Effect → List Bytes
  | [] => []
  | .callPingHost host :: rest => host :: probeCalls rest
  | _ :: rest => probeCalls rest

/-- The line of the device list for the device `d` at the 1-based position `index`:
"[index] name (IP: ip)" and a newline. -/
def deviceLine (index : Nat) (d : DeviceConfig) : Bytes :=
  str "[" ++ fmtInt index ++ str "] " ++ d.Name ++ str " (IP: " ++ d.IP ++ str ")\n"

/-- A paho client that is connected and whose publishes succeed. -/
def samplePaho : Paho where
  IsConnected := true
  Publish := fun _ _ _ _ => none

/-- A registry in which the name "nas1" is carried by two devices. -/
def sampleDevices : List DeviceConfig :=
  [⟨str "pc", str "aa:bb:cc:dd:ee:ff", str "192.168.1.50", 0⟩,
   ⟨str "nas1", str "00:11:22:33:44:55", str "192.168.1.100", 9⟩,
   ⟨str "nas1", str "00-11-22-33-44-66", str "", 7⟩]

/-- A controller over `sampleDevices`, connected to the bus, with command topic
"home/wake" and QoS 1. -/
def sampleController : Controller where
  config :=
    { Mode := str "controller"
      MQTT :=
        { Broker := str "tcp://localhost:1883", ClientID := str "ctl", Topic := str "home/wake",
          Version := 4, QoS := 1, CleanSession := true, KeepAlive := 60 }
      Devices := sampleDevices
      Controlled := ⟨[], 0, []⟩ }
  mqtt := ⟨some samplePaho, true⟩

/-! ## ping.go: IsPortOpen -/

/-- Embedding of `IsPortOpen` (ping.go:55-72): the effects performed and the pair
(open, error). -/
def IsPortOpen (sys : Sys) (host : Bytes) (port : Int) : List Effect × (Bool × Option GoError) :=
  let address := host ++ str ":" ++ fmtInt port
  match sys.DialTimeout address with
  | some err =>
    if stringsContains err (str "timeout") || stringsContains err (str "refused") then
      ([.dialTimeout address], (false, none))
    else ([.dialTimeout address], (false, some err))
  | none => ([.dialTimeout address, .tcpClose address], (true, none))

/-! ## controlled.go: the ticker interval of statusReportLoop -/

/-- Two's-complement wrap-around of an integer into the range of Go `int64`. -/
def wrapInt64 (x : Int) : Int := (x + 2 ^ 63) % 2 ^ 64 - 2 ^ 63

/-- Go `time.Second`, in nanoseconds. -/
def Second : Int := 1000000000

/-- The `interval` that `statusReportLoop` passes to `time.NewTicker` (controlled.go:119-125),
in nanoseconds, for the configured `StatusInterval`: the product with `time.Second` is an
`int64` multiplication and wraps around; a result below five seconds is replaced by five
seconds. -/
def tickerInterval (statusInterval : Int) : Int :=
  let interval := wrapInt64 (statusInterval * Second)
  if interval < 5 * Second then 5 * Second else interval

/-! ## Vocabulary of the claims about responses and probes -/

/-- Whether the output of the echo command reports a host that does not answer. -/
def reportsNoAnswer (output : Bytes) : Bool :=
  stringsContains output (str "timed out") || stringsContains output (str "100% packet loss") ||
    stringsContains output (str "Destination Host Unreachable")

/-- The command line of the echo command for a host, by operating system. -/
def pingArgv (goos host : Bytes) : List Bytes :=
  if goos = str "windows" then [str "ping", str "-n", str "1", str "-w", str "3000", host]
  else [str "ping", str "-c", str "1", str "-W", str "3", host]

/-- Whether an effect is a call to the network or the process table, or the entry into
`createMagicPacket`: the effects that `WakeOnLAN` and `PingHost` are made of. -/
def Effect.isNet : Effect → Bool
  | .callCreateMagicPacket _ => true
  | .resolveUDPAddr _ => true
  | .dialUDP _ => true
  | .connWrite _ _ => true
  | .connClose _ => true
  | .dialTimeout _ => true
  | .tcpClose _ => true
  | .combinedOutput _ => true
  | _ => false

/-- The sample controller with the connected flag cleared: the bus is reported as not
established. -/
def sampleControllerOffline : Controller where
  config := sampleController.config
  mqtt := ⟨some samplePaho, false⟩

/-- An oracle for a host that does not answer: the TCP attempt times out and the echo command
exits with status 1 after reporting full packet loss. -/
def unreachableSys : Sys where
  GOOS := str "linux"
  ResolveUDPAddr := fun _ => .ok ⟨[10, 255, 255, 1], 9, []⟩
  DialUDP := fun _ => none
  Write := fun _ _ => none
  DialTimeout := fun address => some (str "dial tcp " ++ address ++ str ": i/o timeout")
  dialElapsed := fun _ => 3000000000
  CombinedOutput := fun _ =>
    (str "1 packets transmitted, 0 received, 100% packet loss, time 0ms\n",
      some (str "exit status 1"))
  cmdElapsed := fun _ => 3000000000
  DurationString := fun _ => str "3s"

/-- An oracle for a host name that does not exist, as on Linux: the TCP attempt fails in the
name lookup, and the echo command exits with status 2 after reporting that the name is not
known. -/
def noSuchHostSys : Sys where
  GOOS := str "linux"
  ResolveUDPAddr := fun _ => .error (str "no such host")
  DialUDP := fun _ => none
  Write := fun _ _ => none
  DialTimeout := fun _ =>
    some (str "dial tcp: lookup invalid.host.name.that.does.not.exist: no such host")
  dialElapsed := fun _ => 0
  CombinedOutput := fun _ =>
    (str "ping: invalid.host.name.that.does.not.exist: Name or service not known\n",
      some (str "exit status 2"))
  cmdElapsed := fun _ => 10000000
  DurationString := fun _ => str "10ms"

/-- An oracle in which the TCP attempt is rejected for its port. -/
def invalidPortSys : Sys where
  GOOS := str "linux"
  ResolveUDPAddr := fun _ => .error (str "invalid port")
  DialUDP := fun _ => none
  Write := fun _ _ => none
  DialTimeout := fun _ => some (str "dial tcp: address -1: invalid port")
  dialElapsed := fun _ => 0
  CombinedOutput := fun _ => ([], none)
  cmdElapsed := fun _ => 0
  DurationString := fun _ => str "0s"

/-- An oracle for the host name "refused.invalid", which does not exist: the TCP attempt fails
in the name lookup, which is neither a timeout nor a refused connection. -/
def refusedNameSys : Sys :=
  { noSuchHostSys with
    DialTimeout := fun _ => some (str "dial tcp: lookup refused.invalid: no such host") }

/-- An oracle for a host that does not answer, on a system that gives up the connect before
the deadline of the dial: the failure is the timeout of the operating system (`ETIMEDOUT`). -/
def osTimeoutSys : Sys :=
  { unreachableSys with
    DialTimeout := fun address =>
      some (str "dial tcp " ++ address ++ str ": connect: connection timed out") }

/-! ## mqtt/client.go: the life cycle of the wrapper -/

/-- Embedding of `NewClient` (client.go:24-29): no underlying client, flag cleared. -/
def NewClient : Client := ⟨none, false⟩

/-- Embedding of `Client.Connect` (client.go:32-48): the effects, the error and the wrapper
afterwards. `fresh` is the client that `mqtt.NewClient(opts)` returns; the options built from
the configuration are not modelled. -/
def Client.Connect (c : Client) (cfg : MQTTConfig) (fresh : Paho) :
    List Effect × Option GoError × Client :=
  match fresh.Connect with
  | some e => ([.connect], some (str "failed to connect to MQTT broker: " ++ e), c)
  | none =>
    ([.connect, .log (str "Connected to MQTT broker: " ++ cfg.Broker)], none, ⟨some fresh, true⟩)

/-- Embedding of `Client.Subscribe` (client.go:51-68). -/
def Client.Subscribe (c : Client) (topic : Bytes) (qos : Nat) : List Effect × Option GoError :=
  if !c.isConnected then ([], some (str "mqtt client not connected"))
  else
    match c.client with
    | none => ([.panic], none)
    | some p =>
      match p.Subscribe topic qos with
      | some e =>
        ([.subscribe topic qos],
          some (str "failed to subscribe to topic " ++ topic ++ str ": " ++ e))
      | none => ([.subscribe topic qos, .log (str "Subscribed to topic: " ++ topic)], none)

/-- Embedding of `Client.Disconnect` (client.go:85-91): the effects and the wrapper
afterwards. -/
def Client.Disconnect (c : Client) : List Effect × Client :=
  if c.client.isSome && c.isConnected then
    ([.disconnect 250, .log (str "Disconnected from MQTT broker")], ⟨c.client, false⟩)
  else ([], c)

/-- Embedding of `Client.onConnect` (client.go:183-185). -/
def Client.onConnect (c : Client) : List Effect × Client :=
  ([.log (str "Connected to MQTT broker")], c)

/-- Embedding of `Client.onConnectionLost` (client.go:188-191). -/
def Client.onConnectionLost (c : Client) (err : GoError) : List Effect × Client :=
  ([.log (str "Connection to MQTT broker lost: " ++ err)], ⟨c.client, false⟩)

/-- One thing that happens to the wrapper: a method call or a callback from the library. -/
inductive ClientOp where
  | connect (fresh : Paho)
  | disconnect
  | connectionLost (err : GoError)
  | onConnect
  | publish (topic : Bytes) (qos : Nat) (retained : Bool) (payload : Bytes)
  | subscribe (topic : Bytes) (qos : Nat)

/-- The wrapper after one operation. -/
def Client.step (cfg : MQTTConfig) (c : Client) : ClientOp → Client
  | .connect fresh => (c.Connect cfg fresh).2.2
  | .disconnect => c.Disconnect.2
  | .connectionLost err => (c.onConnectionLost err).2
  | .onConnect => c.onConnect.2
  | .publish _ _ _ _ => c
  | .subscribe _ _ => c

/-- The wrapper after a sequence of operations on a new client. -/
def Client.after (cfg : MQTTConfig) (ops : List ClientOp) : Client :=
  ops.foldl (Client.step cfg) NewClient

/-! ## config.go: validateConfig -/

/-- Embedding of `validateConfig` (config.go:93-120): the error, `none` for `nil`. -/
def validateConfig (config : Config) : Option GoError :=
  if config.Mode ≠ str "controller" ∧ config.Mode ≠ str "controlled" then
    some (str "invalid mode: " ++ config.Mode ++ str ", must be 'controller' or 'controlled'")
  else if config.MQTT.Broker = [] then
    some (str "MQTT broker cannot be empty")
  else if config.Mode = str "controller" ∧ config.Devices.length = 0 then
    some (str "no devices configured for controller mode")
  else if config.MQTT.Version ≠ 3 ∧ config.MQTT.Version ≠ 4 ∧ config.MQTT.Version ≠ 5 then
    some (str "invalid MQTT version: " ++ fmtInt config.MQTT.Version ++ str ", must be 3, 4, or 5")
  else if config.MQTT.QoS < 0 ∨ config.MQTT.QoS > 2 then
    some (str "invalid QoS level: " ++ fmtInt config.MQTT.QoS ++ str ", must be 0, 1, or 2")
  else none

/-! ## controlled.go: data and oracles -/

/-- A Go `float64`, as far as the agent is concerned: a finite value, given by its bits, or
one of the three values that `encoding/json` refuses to encode. -/
inductive Float64 where
  | finite (bits : Nat)
  | nan
  | posInf
  | negInf
  deriving DecidableEq, Repr

/-- Go `controlled.DeviceInfo` (controlled.go:30-38). -/
structure DeviceInfo where
  Name : Bytes
  Hostname : Bytes
  IPAddress : Bytes
  OS : Bytes
  CPUCores : Int
  TotalRAM : Nat
  TotalDisk : Nat
  deriving DecidableEq, Repr

/-- Go `controlled.StatusInfo` (controlled.go:41-49). -/
structure StatusInfo where
  Timestamp : Int
  Uptime : Nat
  CPUUsage : Float64
  MemoryUsage : Float64
  DiskUsage : Float64
  MemoryFree : Nat
  DiskFree : Nat
  deriving DecidableEq, Repr

/-- A Go `net.IP` held by an interface address: what `getLocalIPAddress` asks of it. -/
structure IP where
  IsLoopback : Bool
  /-- Whether `To4()` is not nil. -/
  IsV4 : Bool
  String : Bytes

/-- A Go `net.Interface`: the two flags tested and the result of `Addrs()`, each address being
its IP (`none` for an address of another type, or a nil IP). -/
structure NetInterface where
  FlagLoopback : Bool
  FlagUp : Bool
  Addrs : Except GoError (List (Option IP))

/-- The part of gopsutil `disk.PartitionStat` that is read. -/
structure PartitionStat where
  Mountpoint : Bytes
  deriving DecidableEq, Repr

/-- The part of gopsutil `disk.UsageStat` that is read. -/
structure UsageStat where
  Total : Nat
  Free : Nat
  UsedPercent : Float64

/-- The part of gopsutil `mem.VirtualMemoryStat` that is read. -/
structure VirtualMemoryStat where
  Total : Nat
  Free : Nat
  UsedPercent : Float64

/-- The state of the machine as one collection sees it: the outcomes of the calls to the
operating system, the Go runtime and gopsutil. -/
structure Host where
  /-- Go `runtime.GOOS`. -/
  GOOS : Bytes
  /-- Go `os.Hostname()`. -/
  Hostname : Except GoError Bytes
  /-- Go `net.Interfaces()`. -/
  Interfaces : Except GoError (List NetInterface)
  /-- Go `runtime.NumCPU()`. -/
  NumCPU : Int
  /-- The result of `mem.VirtualMemory()`. -/
  VirtualMemory : Except GoError VirtualMemoryStat
  /-- The result of `disk.Partitions(false)`. -/
  Partitions : Except GoError (List PartitionStat)
  /-- The result of `disk.Usage(path)`. -/
  Usage : Bytes → Except GoError UsageStat
  /-- The `Uptime` of `host.Info()`. -/
  Uptime : Except GoError Nat
  /-- The result of `cpu.Percent(500*time.Millisecond, false)`. -/
  CPUPercent : Except GoError (List Float64)
  /-- Go `time.Now().Unix()`. -/
  NowUnix : Int

/-- The two value encoders of `encoding/json` that are not modelled: the quoted form of a
string and the digits of a finite float. -/
structure JSONEnc where
  String : Bytes → Bytes
  Float : Nat → Bytes

/-! ## controlled.go: JSON encoding by struct tags -/

/-- Go `encoding/json` on a struct: the members `"key":value` in field order, separated by
commas, between braces. -/
def jsonObject (fields : List (Bytes × Bytes)) : Bytes :=
  str "\x7b" ++ (str ",").intercalate (fields.map (fun f => str "\"" ++ f.1 ++ str "\":" ++ f.2)) ++
    str "\x7d"

/-- The members of the JSON object of a `DeviceInfo`: the keys are the `json` tags of
controlled.go:31-37. -/
def DeviceInfo.jsonFields (enc : JSONEnc) (d : DeviceInfo) : List (Bytes × Bytes) :=
  [(str "name", enc.String d.Name), (str "hostname", enc.String d.Hostname),
   (str "ip_address", enc.String d.IPAddress), (str "os", enc.String d.OS),
   (str "cpu_cores", fmtInt d.CPUCores), (str "total_ram", fmtInt d.TotalRAM),
   (str "total_disk", fmtInt d.TotalDisk)]

/-- Go `json.Marshal` of a `*DeviceInfo`: strings and integers always encode. -/
def jsonMarshalDeviceInfo (enc : JSONEnc) (d : DeviceInfo) : Except GoError Bytes :=
  .ok (jsonObject (d.jsonFields enc))

/-- Go `encoding/json` on a `float64`: NaN and the infinities are an `UnsupportedValueError`. -/
def jsonFloat (enc : JSONEnc) : Float64 → Except GoError Bytes
  | .finite bits => .ok (enc.Float bits)
  | .nan => .error (str "json: unsupported value: NaN")
  | .posInf => .error (str "json: unsupported value: +Inf")
  | .negInf => .error (str "json: unsupported value: -Inf")

/-- Go `json.Marshal` of a `*StatusInfo`: the keys are the `json` tags of controlled.go:42-48,
in field order; the first float that cannot be encoded is the error. -/
def jsonMarshalStatusInfo (enc : JSONEnc) (s : StatusInfo) : Except GoError Bytes :=
  match jsonFloat enc s.CPUUsage with
  | .error err => .error err
  | .ok cpu =>
    match jsonFloat enc s.MemoryUsage with
    | .error err => .error err
    | .ok mem =>
      match jsonFloat enc s.DiskUsage with
      | .error err => .error err
      | .ok disk =>
        .ok (jsonObject
          [(str "timestamp", fmtInt s.Timestamp), (str "uptime", fmtInt s.Uptime),
           (str "cpu_usage", cpu), (str "memory_usage", mem), (str "disk_usage", disk),
           (str "memory_free", fmtInt s.MemoryFree), (str "disk_free", fmtInt s.DiskFree)])

/-! ## controlled.go: collection -/

/-- Go `controlled.Controlled` (controlled.go:22-27); `deviceInfo` is the value stored by
`Start`, and the stop channel is the end of the list of events of a run. -/
structure Controlled where
  config : Config
  mqtt : Client
  deviceInfo : DeviceInfo

/-- The inner loop of `getLocalIPAddress` (controlled.go:347-363): the strings of the
addresses that have an IP which is neither a loopback address nor an IPv6 address. -/
def addrLoop : List (Option IP) → List Bytes
  | [] => []
  | none :: rest => addrLoop rest
  | some ip :: rest =>
    if ip.IsLoopback || !ip.IsV4 then addrLoop rest else ip.String :: addrLoop rest

/-- The outer loop of `getLocalIPAddress` (controlled.go:336-364): loopback and inactive
interfaces, and interfaces whose addresses cannot be read, are skipped. -/
def ifaceLoop : List NetInterface → List Bytes
  | [] => []
  | iface :: rest =>
    if iface.FlagLoopback || !iface.FlagUp then ifaceLoop rest
    else
      match iface.Addrs with
      | .error _ => ifaceLoop rest
      | .ok addrs => addrLoop addrs ++ ifaceLoop rest

/-- Embedding of `getLocalIPAddress` (controlled.go:328-367). -/
def getLocalIPAddress (h : Host) : List Effect × Except GoError (List Bytes) :=
  match h.Interfaces with
  | .error err => ([.hostQuery (str "net.Interfaces")], .error err)
  | .ok ifaces => ([.hostQuery (str "net.Interfaces")], .ok (ifaceLoop ifaces))

/-- The loop that looks for the root partition (controlled.go:192-198 and 259-265): the mount
point of the first partition mounted at `rootPath`, the empty string when there is none. -/
def rootLoop (rootPath : Bytes) : List PartitionStat → Bytes
  | [] => []
  | part :: rest => if part.Mountpoint = rootPath then part.Mountpoint else rootLoop rootPath rest

/-- The choice of the partition (controlled.go:187-202 and 254-269, the same lines in
`collectDeviceInfo` and `collectStatusInfo`): the root path by operating system, the loop, and
the fall-back to `parts[0]`. -/
def usedPartition (goos : Bytes) (parts : List PartitionStat) : Bytes :=
  let rootPath := if goos = str "windows" then str "C:" ++ [92] else str "/"
  let usedPartition := rootLoop rootPath parts
  if usedPartition = [] ∧ parts.length > 0 then
    match parts with
    | part :: _ => part.Mountpoint
    | [] => usedPartition
  else usedPartition

/-- The disk block of `collectDeviceInfo` (controlled.go:181-212). -/
def deviceDiskBlock (h : Host) (info : DeviceInfo) : List Effect × DeviceInfo :=
  match h.Partitions with
  | .error err =>
    ([.hostQuery (str "disk.Partitions"),
      .log (str "Warning: Failed to get disk partitions: " ++ err)], info)
  | .ok parts =>
    if parts.length > 0 then
      let used := usedPartition h.GOOS parts
      if used ≠ [] then
        match h.Usage used with
        | .error err =>
          ([.hostQuery (str "disk.Partitions"), .diskUsage used,
            .log (str "Warning: Failed to get disk usage: " ++ err)], info)
        | .ok diskInfo =>
          ([.hostQuery (str "disk.Partitions"), .diskUsage used],
            { info with TotalDisk := diskInfo.Total })
      else ([.hostQuery (str "disk.Partitions")], info)
    else ([.hostQuery (str "disk.Partitions")], info)

/-- Embedding of `collectDeviceInfo` (controlled.go:146-215). -/
def Controlled.collectDeviceInfo (c : Controlled) (h : Host) :
    List Effect × Except GoError DeviceInfo :=
  let info : DeviceInfo :=
    { Name := c.config.Controlled.DeviceName, Hostname := [], IPAddress := [], OS := [],
      CPUCores := 0, TotalRAM := 0, TotalDisk := 0 }
  match h.Hostname with
  | .error err => ([.hostQuery (str "os.Hostname")], .error (str "failed to get hostname: " ++ err))
  | .ok hostname =>
    let info := { info with Hostname := hostname }
    let ipStep : List Effect × DeviceInfo :=
      match getLocalIPAddress h with
      | (t, .error err) => (t ++ [.log (str "Warning: Failed to get IP address: " ++ err)], info)
      | (t, .ok addrs) =>
        match addrs with
        | first :: _ => (t, { info with IPAddress := first })
        | [] => (t, info)
    let info := { ipStep.2 with OS := h.GOOS, CPUCores := h.NumCPU }
    let memStep : List Effect × DeviceInfo :=
      match h.VirtualMemory with
      | .error err =>
        ([.hostQuery (str "mem.VirtualMemory"),
          .log (str "Warning: Failed to get memory info: " ++ err)], info)
      | .ok memInfo => ([.hostQuery (str "mem.VirtualMemory")], { info with TotalRAM := memInfo.Total })
    let diskStep := deviceDiskBlock h memStep.2
    ([.hostQuery (str "os.Hostname")] ++ ipStep.1 ++ memStep.1 ++ diskStep.1, .ok diskStep.2)

/-- The disk block of `collectStatusInfo` (controlled.go:248-280). -/
def statusDiskBlock (h : Host) (status : StatusInfo) : List Effect × StatusInfo :=
  match h.Partitions with
  | .error err =>
    ([.hostQuery (str "disk.Partitions"),
      .log (str "Warning: Failed to get disk partitions: " ++ err)], status)
  | .ok parts =>
    if parts.length > 0 then
      let used := usedPartition h.GOOS parts
      if used ≠ [] then
        match h.Usage used with
        | .error err =>
          ([.hostQuery (str "disk.Partitions"), .diskUsage used,
            .log (str "Warning: Failed to get disk usage: " ++ err)], status)
        | .ok diskInfo =>
          ([.hostQuery (str "disk.Partitions"), .diskUsage used],
            { status with DiskUsage := diskInfo.UsedPercent, DiskFree := diskInfo.Free })
      else ([.hostQuery (str "disk.Partitions")], status)
    else ([.hostQuery (str "disk.Partitions")], status)

/-- Embedding of `collectStatusInfo` (controlled.go:218-283); the error returned is always
`nil`. -/
def collectStatusInfo (h : Host) : List Effect × Except GoError StatusInfo :=
  let status : StatusInfo :=
    { Timestamp := h.NowUnix, Uptime := 0, CPUUsage := .finite 0, MemoryUsage := .finite 0,
      DiskUsage := .finite 0, MemoryFree := 0, DiskFree := 0 }
  let hostStep : List Effect × StatusInfo :=
    match h.Uptime with
    | .error err =>
      ([.hostQuery (str "host.Info"), .log (str "Warning: Failed to get host info: " ++ err)],
        status)
    | .ok uptime => ([.hostQuery (str "host.Info")], { status with Uptime := uptime })
  let cpuStep : List Effect × StatusInfo :=
    match h.CPUPercent with
    | .error err =>
      ([.hostQuery (str "cpu.Percent"), .log (str "Warning: Failed to get CPU usage: " ++ err)],
        hostStep.2)
    | .ok (first :: _) => ([.hostQuery (str "cpu.Percent")], { hostStep.2 with CPUUsage := first })
    | .ok [] => ([.hostQuery (str "cpu.Percent")], hostStep.2)
  let memStep : List Effect × StatusInfo :=
    match h.VirtualMemory with
    | .error err =>
      ([.hostQuery (str "mem.VirtualMemory"),
        .log (str "Warning: Failed to get memory info: " ++ err)], cpuStep.2)
    | .ok memInfo =>
      ([.hostQuery (str "mem.VirtualMemory")],
        { cpuStep.2 with MemoryUsage := memInfo.UsedPercent, MemoryFree := memInfo.Free })
  let diskStep := statusDiskBlock h memStep.2
  ([.hostQuery (str "time.Now")] ++ hostStep.1 ++ cpuStep.1 ++ memStep.1 ++ diskStep.1,
    .ok diskStep.2)

/-! ## controlled.go: reporting -/

/-- Embedding of `sendStatusReport` (controlled.go:286-307). -/
def Controlled.sendStatusReport (c : Controlled) (enc : JSONEnc) (h : Host) : List Effect :=
  match collectStatusInfo h with
  | (t, .error err) => t ++ [.log (str "Failed to collect status info: " ++ err)]
  | (t, .ok status) =>
    match jsonMarshalStatusInfo enc status with
    | .error err => t ++ [.log (str "Failed to marshal status: " ++ err)]
    | .ok statusJSON =>
      let topic := c.config.Controlled.StatusTopic
      match c.mqtt.Publish topic (byteOfInt c.config.MQTT.QoS) false statusJSON with
      | (tp, some err) =>
        t ++ .callPublish topic (byteOfInt c.config.MQTT.QoS) false statusJSON :: tp ++
          [.log (str "Failed to publish status: " ++ err)]
      | (tp, none) =>
        t ++ .callPublish topic (byteOfInt c.config.MQTT.QoS) false statusJSON :: tp ++
          [.log (str "Status published to " ++ topic)]

/-- Embedding of `sendDeviceInfo` (controlled.go:310-325). -/
def Controlled.sendDeviceInfo (c : Controlled) (enc : JSONEnc) : List Effect :=
  match jsonMarshalDeviceInfo enc c.deviceInfo with
  | .error err => [.log (str "Failed to marshal device info: " ++ err)]
  | .ok infoJSON =>
    let topic := c.config.Controlled.StatusTopic ++ str "/info"
    match c.mqtt.Publish topic (byteOfInt c.config.MQTT.QoS) true infoJSON with
    | (tp, some err) =>
      .callPublish topic (byteOfInt c.config.MQTT.QoS) true infoJSON :: tp ++
        [.log (str "Failed to publish device info: " ++ err)]
    | (tp, none) =>
      .callPublish topic (byteOfInt c.config.MQTT.QoS) true infoJSON :: tp ++
        [.log (str "Device info published to " ++ topic)]

/-- A run ends at a panic: the effects up to and including the first panic. -/
def untilPanic : List Effect → List Effect
  | [] => []
  | .panic :: _ => [.panic]
  | e :: rest => e :: untilPanic rest

/-- The body of `Controlled.handleMessage` (controlled.go:98-114), panics not yet taken into
account; `h` is the host as the handler sees it. -/
def Controlled.handleMessageSteps (c : Controlled) (enc : JSONEnc) (h : Host)
    (topic payload : Bytes) : List Effect :=
  let command := payload
  .log (str "Received message on topic " ++ topic ++ str ": " ++ payload) ::
    (if command = str "status" then c.sendStatusReport enc h
     else if command = str "info" then c.sendDeviceInfo enc
     else [.log (str "Unknown command: " ++ command)])

/-- Embedding of `Controlled.handleMessage` (controlled.go:98-114). -/
def Controlled.handleMessage (c : Controlled) (enc : JSONEnc) (h : Host)
    (topic payload : Bytes) : List Effect :=
  untilPanic (c.handleMessageSteps enc h topic payload)

/-- What the agent reacts to between its start and the stop signal: a tick of the timer or a
message on the command topic. -/
inductive AgentEvent where
  | tick
  | message (topic payload : Bytes)
  deriving DecidableEq, Repr

/-- The `for`/`select` loop of `statusReportLoop` (controlled.go:133-142) together with the
handler calls made meanwhile, in the order in which they happen; the event number `n` sees the
host `hosts n`, and the end of the list is the stop signal. -/
def Controlled.loopSteps (c : Controlled) (enc : JSONEnc) (hosts : Nat → Host) :
    Nat → List AgentEvent → List Effect
  | _, [] => []
  | n, .tick :: rest => c.sendStatusReport enc (hosts n) ++ c.loopSteps enc hosts (n + 1) rest
  | n, .message topic payload :: rest =>
    c.handleMessageSteps enc (hosts n) topic payload ++ c.loopSteps enc hosts (n + 1) rest

/-- A run of the agent from the start of `statusReportLoop` (controlled.go:117-143) to the
stop signal: the two initial reports, seeing the host `hosts 0`, then the events. -/
def Controlled.run (c : Controlled) (enc : JSONEnc) (hosts : Nat → Host)
    (events : List AgentEvent) : List Effect :=
  untilPanic (c.sendStatusReport enc (hosts 0) ++ c.sendDeviceInfo enc ++
    c.loopSteps enc hosts 1 events)

/-! ## Vocabulary of the claims about the controlled agent -/

/-- The calls of the wrapper's `Publish` made in a run, in order: topic, QoS, retained flag
and payload of each. -/
def publishCalls : List Effect → List (Bytes × Nat × Bool × Bytes)
  | [] => []
  | .callPublish topic qos retained payload :: rest =>
    (topic, qos, retained, payload) :: publishCalls rest
  | _ :: rest => publishCalls rest

/-- Whether an effect is a log line or a read of the host: what collecting is made of. -/
def Effect.isQuiet : Effect → Bool
  | .log _ => true
  | .hostQuery _ => true
  | .diskUsage _ => true
  | _ => false

/-- The JSON text of the StatusInfo collected on a host, or the error of collecting or
encoding it. -/
def statusJSON (enc : JSONEnc) (h : Host) : Except GoError Bytes :=
  match (collectStatusInfo h).2 with
  | .error err => .error err
  | .ok status => jsonMarshalStatusInfo enc status

/-- A StatusInfo publish: on the status topic, not retained. -/
def isStatusCall (c : Controlled) (p : Bytes × Nat × Bool × Bytes) : Bool :=
  p.1 == c.config.Controlled.StatusTopic && !p.2.2.1

/-- A DeviceInfo publish: on the status topic followed by "/info", retained. -/
def isInfoCall (c : Controlled) (p : Bytes × Nat × Bool × Bytes) : Bool :=
  p.1 == c.config.Controlled.StatusTopic ++ str "/info" && p.2.2.1

/-- Whether an event is the command `lit` received on the command topic. -/
def AgentEvent.isCommand (lit : Bytes) : AgentEvent → Bool
  | .message _ payload => payload == lit
  | .tick => false

/-- The publish that an effect hands to the underlying client, if it is one. -/
def Effect.published : Effect → Option (Bytes × Nat × Bool × Bytes)
  | .publish topic qos retained payload => some (topic, qos, retained, payload)
  | _ => none

/-- The publishes handed to the underlying client in a run, in order. -/
def publishes (l : List Effect) : List (Bytes × Nat × Bool × Bytes) :=
  l.filterMap Effect.published

/-- The JSON text of the DeviceInfo stored by the agent. -/
def deviceJSON (enc : JSONEnc) (c : Controlled) : Bytes :=
  jsonObject (c.deviceInfo.jsonFields enc)

/-- Stand-in encoders for the examples: a string between quotes, a float as the decimal
number of its bits. -/
def sampleEnc : JSONEnc where
  String := fun s => str "\"" ++ s ++ str "\""
  Float := fun bits => fmtInt bits

/-- A host on which every read succeeds with finite figures; its second partition is mounted
at the root. -/
def sampleHost : Host where
  GOOS := str "linux"
  Hostname := .ok (str "nas1")
  Interfaces := .ok [⟨false, true, .ok [some ⟨false, true, str "192.168.1.100"⟩]⟩]
  NumCPU := 4
  VirtualMemory := .ok ⟨8000000000, 4000000000, .finite 50⟩
  Partitions := .ok [⟨str "/boot"⟩, ⟨str "/"⟩]
  Usage := fun _ => .ok ⟨100000000000, 60000000000, .finite 40⟩
  Uptime := .ok 3600
  CPUPercent := .ok [.finite 12]
  NowUnix := 1700000000

/-- The sample host with a memory report whose used percentage is not a number (a total of
zero divided by zero). -/
def nanHost : Host :=
  { sampleHost with VirtualMemory := .ok ⟨0, 0, .nan⟩ }

/-- An agent named "nas1", connected to the bus, reporting on "home/nas1/status" with
QoS 1. -/
def sampleAgent : Controlled where
  config :=
    { Mode := str "controlled"
      MQTT :=
        { Broker := str "tcp://localhost:1883", ClientID := str "nas1", Topic := str "home/nas1",
          Version := 4, QoS := 1, CleanSession := true, KeepAlive := 60 }
      Devices := []
      Controlled := ⟨str "home/nas1/status", 60, str "nas1"⟩ }
  mqtt := ⟨some samplePaho, true⟩
  deviceInfo :=
    ⟨str "nas1", str "nas1", str "192.168.1.100", str "linux", 4, 8000000000, 100000000000⟩

/-- Whether an event is a tick of the timer. -/
def AgentEvent.isTick : AgentEvent → Bool
  | .tick => true
  | .message _ _ => false

/-! ## Sample configurations (the fixtures of tests/config) -/

/-- The `mqtt` section shared by the fixtures of config_test.go, with the given broker, version
and QoS; absent keys have the zero value. -/
def fixtureMQTT (broker : Bytes) (version qos : Int) : MQTTConfig where
  Broker := broker
  ClientID := str "smartwaker-test"
  Topic := str "smartwaker/test"
  Version := version
  QoS := qos
  CleanSession := false
  KeepAlive := 0

/-- The device of the fixtures of config_test.go, with the given hardware address. -/
def fixtureDevice (mac : Bytes) : DeviceConfig where
  Name := str "test-device"
  MAC := mac
  IP := str "192.168.1.100"
  Port := 0

/-- The `validControllerConfig` of config_test.go:19-37. -/
def validControllerConfig : Config where
  Mode := str "controller"
  MQTT := { fixtureMQTT (str "tcp://test.mosquitto.org:1883") 4 1 with
    ClientID := str "smartwaker-controller-test", CleanSession := true, KeepAlive := 60 }
  Devices := [{ fixtureDevice (str "00:11:22:33:44:55") with Port := 9 }]
  Controlled := ⟨[], 0, []⟩

/-- The `validControlledConfig` of config_test.go:40-58. -/
def validControlledConfig : Config where
  Mode := str "controlled"
  MQTT := { fixtureMQTT (str "tcp://test.mosquitto.org:1883") 4 1 with
    ClientID := str "smartwaker-controlled-test", CleanSession := true, KeepAlive := 60 }
  Devices := []
  Controlled := ⟨str "smartwaker/test/status", 60, str "test-device"⟩

/-- The `missingBrokerConfig` of config_test.go:70-79: a controller with neither broker nor
version. -/
def missingBrokerConfig : Config where
  Mode := str "controller"
  MQTT := fixtureMQTT [] 0 0
  Devices := [fixtureDevice (str "00:11:22:33:44:55")]
  Controlled := ⟨[], 0, []⟩

/-- The `noDevicesConfig` of config_test.go:82-88: a controller with a broker, no device and no
version. -/
def noDevicesConfig : Config where
  Mode := str "controller"
  MQTT := fixtureMQTT (str "tcp://test.mosquitto.org:1883") 0 0
  Devices := []
  Controlled := ⟨[], 0, []⟩

/-- The `invalidQoSConfig` of qos_test.go:19-31. -/
def invalidQoSConfig : Config where
  Mode := str "controller"
  MQTT := fixtureMQTT (str "tcp://test.mosquitto.org:1883") 3 3
  Devices := [fixtureDevice (str "00:11:22:33:44:55")]
  Controlled := ⟨[], 0, []⟩

/-- The valid controller fixture with the hardware address of its device cut to five groups. -/
def badMACConfig : Config :=
  { validControllerConfig with Devices := [{ fixtureDevice (str "00:11:22:33:44") with Port := 9 }] }

/-- A controller started on `badMACConfig`, connected to the bus. -/
def badMACController : Controller where
  config := badMACConfig
  mqtt := ⟨some samplePaho, true⟩


/-! ## Vocabulary of the claims about the life cycle of the MQTT wrapper -/

/-- Whether an operation is a `Disconnect` or a connection-lost notification. -/
def ClientOp.isDrop : ClientOp → Bool
  | .disconnect => true
  | .connectionLost _ => true
  | _ => false

/-- Whether an operation is a `Connect` that succeeds. -/
def ClientOp.isConnectOK : ClientOp → Bool
  | .connect fresh => fresh.Connect.isNone
  | _ => false

/-! ## Vocabulary of the claims about the disk figures -/

/-- The root path by operating system (controlled.go:187-190 and 254-257). -/
def rootPath (goos : Bytes) : Bytes :=
  if goos = str "windows" then str "C:" ++ [92] else str "/"

/-- The paths of the calls to `disk.Usage` in a run, in order. -/
def diskQueries : List Effect → List Bytes
  | [] => []
  | .diskUsage path :: rest => path :: diskQueries rest
  | _ :: rest => diskQueries rest

/-- The sample host with disk figures that depend on the path: those of the root differ from
those of every other mount point. -/
def twoDiskHost : Host :=
  { sampleHost with
    Usage := fun path =>
      if path = str "/" then .ok ⟨100000000000, 60000000000, .finite 40⟩
      else .ok ⟨1000000000, 500000000, .finite 50⟩ }

/-- The host `twoDiskHost` with no partition mounted at the root. -/
def noRootHost : Host :=
  { twoDiskHost with Partitions := .ok [⟨str "/boot"⟩, ⟨str "/data"⟩] }

/-! ## Theorems -/

/-- A list of length six is made of six explicit elements. -/
theorem length_eq_six {α : Type} (l : List α) (h : l.length = 6) :
    ∃ a b c d e f, l = [a, b, c, d, e, f] := by
  match l, h with
  | [a, b, c, d, e, f], _ => exact ⟨a, b, c, d, e, f, rfl⟩

/-- The packet built for an explicit six-byte address: six `0xFF`, then the address sixteen
times. -/
theorem createMagicPacket_six (a b c d e f : Nat) :
    createMagicPacket [a, b, c, d, e, f] =
      .ok (List.replicate 6 0xFF ++ (List.replicate 16 [a, b, c, d, e, f]).flatten) := by
  simp [createMagicPacket, copyAt, List.range, List.range.loop, List.replicate]

/-- C1: for every 6-byte address `mac`, `createMagicPacket mac` succeeds with a packet of
exactly 102 bytes whose bytes 0..5 are `0xFF` and whose byte `6+6i+j` is `mac[j]` for every
`i < 16` and `j < 6`. -/
theorem createMagicPacket_layout (mac : Bytes) (h : mac.length = 6) :
    ∃ p, createMagicPacket mac = .ok p ∧ p.length = 102 ∧
      (∀ i, i < 6 → p.get? i = some 0xFF) ∧
      (∀ i j, i < 16 → j < 6 → p.get? (6 + 6 * i + j) = mac.get? j) := by
  obtain ⟨a, b, c, d, e, f, rfl⟩ := length_eq_six mac h
  refine ⟨_, createMagicPacket_six a b c d e f, by simp, ?_, ?_⟩
  · intro i hi
    interval_cases i <;> rfl
  · intro i j hi hj
    interval_cases i <;> interval_cases j <;> rfl

/-- C1, witness: the address 00 11 22 33 44 55. -/
theorem createMagicPacket_layout_witness :
    ([0x00, 0x11, 0x22, 0x33, 0x44, 0x55] : Bytes).length = 6 ∧
    ∃ p, createMagicPacket [0x00, 0x11, 0x22, 0x33, 0x44, 0x55] = .ok p ∧ p.length = 102 ∧
      (∀ i, i < 6 → p.get? i = some 0xFF) ∧
      (∀ i j, i < 16 → j < 6 →
        p.get? (6 + 6 * i + j) = ([0x00, 0x11, 0x22, 0x33, 0x44, 0x55] : Bytes).get? j) :=
  ⟨by decide, createMagicPacket_layout [0x00, 0x11, 0x22, 0x33, 0x44, 0x55] (by decide)⟩

theorem fromHexChar_of_isHexDigit (c : Nat) (h : isHexDigit c = true) :
    fromHexChar c = some (hexDigitValue c) := by
  simp only [isHexDigit, Bool.or_eq_true, Bool.and_eq_true, decide_eq_true_eq] at h
  unfold fromHexChar hexDigitValue toLowerASCII
  split_ifs <;> first | omega | (simp only [Option.some.injEq] <;> omega)

theorem fromHexChar_eq_none (c : Nat) : fromHexChar c = none ↔ isHexDigit c = false := by
  unfold fromHexChar isHexDigit
  split_ifs <;> simp <;> omega

theorem hexDigitValue_lt (c : Nat) (h : isHexDigit c = true) : hexDigitValue c < 16 := by
  simp only [isHexDigit, Bool.or_eq_true, Bool.and_eq_true, decide_eq_true_eq] at h
  unfold hexDigitValue toLowerASCII
  split_ifs <;> omega

theorem shift_or_eq (a b : Nat) (ha : a < 16) (hb : b < 16) :
    ((a <<< 4) ||| b) % 256 = 16 * a + b := by
  interval_cases a <;> interval_cases b <;> rfl

theorem clean_eq_removeSeparators (s : Bytes) :
    replaceAllEmpty (replaceAllEmpty (replaceAllEmpty s 58) 45) 46 = removeSeparators s := by
  simp only [replaceAllEmpty, removeSeparators, List.filter_filter]
  congr 1
  funext c
  simp only [isSeparator, bne]
  cases (c == 58) <;> cases (c == 45) <;> cases (c == 46) <;> rfl

theorem isSeparator_of_isHexDigit (c : Nat) (h : isHexDigit c = true) :
    isSeparator c = false := by
  simp only [isHexDigit, Bool.or_eq_true, Bool.and_eq_true, decide_eq_true_eq] at h
  simp only [isSeparator, Bool.or_eq_false_iff, beq_eq_false_iff_ne, ne_eq]
  omega

theorem hexDecodeString_ok :
    ∀ s : Bytes, (∀ c ∈ s, isHexDigit c = true) → s.length % 2 = 0 →
      hexDecodeString s = (pairValues s, none)
  | [], _, _ => rfl
  | [p], _, hl => by simp at hl
  | p :: q :: rest, hh, hl => by
    have hp : isHexDigit p = true := hh p (by simp)
    have hq : isHexDigit q = true := hh q (by simp)
    have ih := hexDecodeString_ok rest (fun c hc => hh c (by simp [hc]))
      (by simp only [List.length_cons] at hl; omega)
    simp only [hexDecodeString, fromHexChar_of_isHexDigit p hp, fromHexChar_of_isHexDigit q hq,
      ih, pairValues, shift_or_eq _ _ (hexDigitValue_lt p hp) (hexDigitValue_lt q hq)]

theorem hexDecodeString_err :
    ∀ s : Bytes, (∃ c ∈ s, isHexDigit c = false) → (hexDecodeString s).2 ≠ none
  | [], h => by simp at h
  | [p], h => by
    simp only [hexDecodeString]
    split_ifs <;> simp
  | p :: q :: rest, h => by
    simp only [hexDecodeString]
    cases hp : fromHexChar p with
    | none => simp
    | some a =>
      cases hq : fromHexChar q with
      | none => simp
      | some b =>
        simp only
        apply hexDecodeString_err rest
        obtain ⟨c, hc, hcx⟩ := h
        simp only [List.mem_cons] at hc
        rcases hc with rfl | rfl | hc
        · rw [(fromHexChar_eq_none c).2 hcx] at hp; cases hp
        · rw [(fromHexChar_eq_none c).2 hcx] at hq; cases hq
        · exact ⟨c, hc, hcx⟩

theorem removeSeparators_of_sepInserted :
    ∀ (t s : Bytes), sepInserted s t = true → (∀ c ∈ s, isSeparator c = false) →
      removeSeparators t = s
  | [], s, h, _ => by
    cases s with
    | nil => rfl
    | cons d r => simp [sepInserted] at h
  | c :: t, s, h, hs => by
    simp only [sepInserted, Bool.or_eq_true, Bool.and_eq_true] at h
    rcases h with ⟨hc, h⟩ | h
    · have ih := removeSeparators_of_sepInserted t s h hs
      simp only [removeSeparators] at ih ⊢
      simp [List.filter_cons, hc, ih]
    · cases s with
      | nil => simp at h
      | cons d r =>
        simp only [Bool.and_eq_true, beq_iff_eq] at h
        obtain ⟨rfl, h⟩ := h
        have hd : isSeparator d = false := hs d (by simp)
        have ih := removeSeparators_of_sepInserted t r h (fun c hc => hs c (by simp [hc]))
        simp only [removeSeparators] at ih ⊢
        simp [List.filter_cons, hd, ih]

theorem parseMACAddress_eq (s : Bytes) :
    parseMACAddress s =
      if (removeSeparators s).length ≠ 12 then
        .error (str "invalid MAC address length: " ++ removeSeparators s)
      else
        match hexDecodeString (removeSeparators s) with
        | (_, some err) => .error (str "failed to decode MAC address: " ++ err.Error)
        | (mac, none) => .ok mac := by
  simp only [parseMACAddress, clean_eq_removeSeparators, bne_iff_ne, ne_eq, ite_not]

theorem parseMACAddress_of_hex (s t : Bytes) (hlen : s.length = 12)
    (hhex : ∀ c ∈ s, isHexDigit c = true) (hins : sepInserted s t = true) :
    parseMACAddress t = .ok (pairValues s) := by
  have hclean : removeSeparators t = s :=
    removeSeparators_of_sepInserted t s hins (fun c hc => isSeparator_of_isHexDigit c (hhex c hc))
  rw [parseMACAddress_eq, hclean, hexDecodeString_ok s hhex (by omega)]
  simp [hlen]

theorem length_eq_twelve {α : Type} (l : List α) (h : l.length = 12) :
    ∃ a b c d e f g i j k m n, l = [a, b, c, d, e, f, g, i, j, k, m, n] := by
  match l, h with
  | [a, b, c, d, e, f, g, i, j, k, m, n], _ => exact ⟨a, b, c, d, e, f, g, i, j, k, m, n, rfl⟩

theorem toLowerASCII_idem (c : Nat) : toLowerASCII (toLowerASCII c) = toLowerASCII c := by
  unfold toLowerASCII
  split_ifs <;> omega

theorem hexDigitValue_toLower (c : Nat) : hexDigitValue (toLowerASCII c) = hexDigitValue c := by
  simp only [hexDigitValue, toLowerASCII_idem]

theorem pairValues_map_toLower :
    ∀ s : Bytes, pairValues (s.map toLowerASCII) = pairValues s
  | [] => rfl
  | [_] => rfl
  | p :: q :: rest => by
    simp only [List.map_cons, pairValues, hexDigitValue_toLower, pairValues_map_toLower rest]

theorem isHexDigit_of_toLower_eq (c d : Nat) (h : toLowerASCII d = toLowerASCII c)
    (hc : isHexDigit c = true) : isHexDigit d = true := by
  simp only [isHexDigit, Bool.or_eq_true, Bool.and_eq_true, decide_eq_true_eq] at hc ⊢
  unfold toLowerASCII at h
  split_ifs at h <;> omega

/-- C2: for every string `s` of exactly 12 hexadecimal digits (either case) and every `t`
obtained from `s` by inserting ':', '-' and '.' at any positions, `parseMACAddress t` succeeds
with 6 bytes, the `k`-th being the value of digits `2k` and `2k+1` of `s`; the same bytes are
returned for any other placement of separators and any other letter case of the digits. -/
theorem parseMACAddress_separators (s t : Bytes) (hlen : s.length = 12)
    (hhex : ∀ c ∈ s, isHexDigit c = true) (hins : sepInserted s t = true) :
    ∃ mac, parseMACAddress t = .ok mac ∧ mac.length = 6 ∧
      (∀ k, k < 6 → mac.get? k =
        some (16 * hexDigitValue (s.getD (2 * k) 0) + hexDigitValue (s.getD (2 * k + 1) 0))) ∧
      (∀ s2 t2 : Bytes, s2.map toLowerASCII = s.map toLowerASCII → sepInserted s2 t2 = true →
        parseMACAddress t2 = .ok mac) := by
  refine ⟨pairValues s, parseMACAddress_of_hex s t hlen hhex hins, ?_, ?_, ?_⟩
  · obtain ⟨a, b, c, d, e, f, g, i, j, k, m, n, rfl⟩ := length_eq_twelve s hlen
    rfl
  · obtain ⟨a, b, c, d, e, f, g, i, j, k, m, n, rfl⟩ := length_eq_twelve s hlen
    intro k hk
    interval_cases k <;> rfl
  · intro s2 t2 hmap hins2
    have hlen2 : s2.length = 12 := by
      have := congrArg List.length hmap
      simpa [hlen] using this
    have hhex2 : ∀ c ∈ s2, isHexDigit c = true := by
      intro c hc
      have hmem : toLowerASCII c ∈ s.map toLowerASCII := by
        rw [← hmap]
        exact List.mem_map_of_mem _ hc
      obtain ⟨d, hd, hdc⟩ := List.mem_map.1 hmem
      exact isHexDigit_of_toLower_eq d c hdc.symm (hhex d hd)
    rw [parseMACAddress_of_hex s2 t2 hlen2 hhex2 hins2, ← pairValues_map_toLower s2, hmap,
      pairValues_map_toLower]

/-- C2, witness: the digits "001122334455" with mixed separators. -/
theorem parseMACAddress_separators_witness :
    (str "001122334455").length = 12 ∧ (∀ c ∈ str "001122334455", isHexDigit c = true) ∧
    sepInserted (str "001122334455") (str "00:11-22.33:44-55") = true ∧
    ∃ mac, parseMACAddress (str "00:11-22.33:44-55") = .ok mac ∧ mac.length = 6 ∧
      (∀ k, k < 6 → mac.get? k =
        some (16 * hexDigitValue ((str "001122334455").getD (2 * k) 0) +
          hexDigitValue ((str "001122334455").getD (2 * k + 1) 0))) ∧
      (∀ s2 t2 : Bytes, s2.map toLowerASCII = (str "001122334455").map toLowerASCII →
        sepInserted s2 t2 = true → parseMACAddress t2 = .ok mac) :=
  ⟨by decide, by decide, by decide,
    parseMACAddress_separators (str "001122334455") (str "00:11-22.33:44-55")
      (by decide) (by decide) (by decide)⟩


/-- C3: `parseMACAddress s` fails exactly when `s` with every ':', '-' and '.' removed does not
have length 12 or contains a byte that is not a hexadecimal digit; "00:11:22:33:44",
"00:11:22:33:44:55:66" and "00:11:22:33:44:ZZ" are rejected. -/
theorem parseMACAddress_fails_iff :
    (∀ s : Bytes, (∃ e, parseMACAddress s = .error e) ↔
      ((removeSeparators s).length ≠ 12 ∨ ∃ c ∈ removeSeparators s, isHexDigit c = false)) ∧
    (∃ e, parseMACAddress (str "00:11:22:33:44") = .error e) ∧
    (∃ e, parseMACAddress (str "00:11:22:33:44:55:66") = .error e) ∧
    (∃ e, parseMACAddress (str "00:11:22:33:44:ZZ") = .error e) := by
  refine ⟨?_, ⟨str "invalid MAC address length: 0011223344", by decide⟩,
    ⟨str "invalid MAC address length: 00112233445566", by decide⟩,
    ⟨str "failed to decode MAC address: encoding/hex: invalid byte: U+005A 'Z'", by decide⟩⟩
  intro s
  rw [parseMACAddress_eq]
  by_cases hlen : (removeSeparators s).length = 12
  · by_cases hhex : ∀ c ∈ removeSeparators s, isHexDigit c = true
    · rw [hexDecodeString_ok _ hhex (by omega)]
      simp only [hlen, ne_eq, not_true_eq_false, ite_false, false_or]
      constructor
      · rintro ⟨e, he⟩
        cases he
      · rintro ⟨c, hc, hcx⟩
        rw [hhex c hc] at hcx
        cases hcx
    · have hbad : ∃ c ∈ removeSeparators s, isHexDigit c = false := by
        by_contra hcon
        apply hhex
        intro c hc
        by_contra hne
        exact hcon ⟨c, hc, by simpa using hne⟩
      have herr := hexDecodeString_err _ hbad
      simp only [hlen, ne_eq, not_true_eq_false, ite_false, false_or]
      constructor
      · intro _
        exact hbad
      · intro _
        cases hd : hexDecodeString (removeSeparators s) with
        | mk mac err =>
          cases err with
          | none => rw [hd] at herr; exact absurd rfl herr
          | some err => exact ⟨_, rfl⟩
  · simp only [ne_eq, hlen, not_false_eq_true, ite_true, true_or, iff_true]
    exact ⟨_, rfl⟩

/-- C4: `createMagicPacket mac` returns an error exactly when `mac` is not 6 bytes long and a
packet exactly when it is; the empty address and a 7-byte address fail. -/
theorem createMagicPacket_error_iff :
    (∀ mac : Bytes, (∃ e, createMagicPacket mac = .error e) ↔ mac.length ≠ 6) ∧
    (∀ mac : Bytes, (∃ p, createMagicPacket mac = .ok p) ↔ mac.length = 6) ∧
    createMagicPacket [] = .error (str "invalid MAC address length: 0 bytes") ∧
    createMagicPacket [1, 2, 3, 4, 5, 6, 7] =
      .error (str "invalid MAC address length: 7 bytes") := by
  refine ⟨?_, ?_, by decide, by decide⟩
  · intro mac
    by_cases h : mac.length = 6
    · obtain ⟨a, b, c, d, e, f, rfl⟩ := length_eq_six mac h
      simp [createMagicPacket_six]
    · simp [createMagicPacket, h]
  · intro mac
    by_cases h : mac.length = 6
    · obtain ⟨a, b, c, d, e, f, rfl⟩ := length_eq_six mac h
      simp [createMagicPacket_six]
    · simp [createMagicPacket, h]

/-- C5: when `parseMACAddress` rejects the MAC string, `WakeOnLAN` performs no effect at all
(no packet is built, no address resolved, nothing sent) and returns the error
"invalid MAC address: " followed by the parser's message, for every ip and port. -/
theorem WakeOnLAN_rejected (sys : Sys) (macAddr ipAddr : Bytes) (port : Int) (e : GoError)
    (h : parseMACAddress macAddr = .error e) :
    WakeOnLAN sys macAddr ipAddr port = ([], some (str "invalid MAC address: " ++ e)) ∧
    str "invalid MAC address" <:+: str "invalid MAC address: " ++ e := by
  constructor
  · simp only [WakeOnLAN, h]
  · exact ⟨[], str ": " ++ e, by simp [str]⟩

/-- C5, witness: the five-group address "00:11:22:33:44". -/
theorem WakeOnLAN_rejected_witness :
    parseMACAddress (str "00:11:22:33:44") =
      .error (str "invalid MAC address length: 0011223344") ∧
    (WakeOnLAN sampleSys (str "00:11:22:33:44") (str "0.0.0.0") (-1) =
        ([], some (str "invalid MAC address: " ++ str "invalid MAC address length: 0011223344")) ∧
      str "invalid MAC address" <:+:
        str "invalid MAC address: " ++ str "invalid MAC address length: 0011223344") :=
  ⟨by decide, WakeOnLAN_rejected sampleSys (str "00:11:22:33:44") (str "0.0.0.0") (-1)
    (str "invalid MAC address length: 0011223344") (by decide)⟩

theorem parseMACAddress_length (s mac : Bytes) (h : parseMACAddress s = .ok mac) :
    mac.length = 6 := by
  rw [parseMACAddress_eq] at h
  by_cases hlen : (removeSeparators s).length = 12
  · simp only [hlen, ne_eq, not_true_eq_false, ite_false] at h
    by_cases hhex : ∀ c ∈ removeSeparators s, isHexDigit c = true
    · rw [hexDecodeString_ok _ hhex (by omega)] at h
      simp only [Except.ok.injEq] at h
      obtain ⟨a, b, c, d, e, f, g, i, j, k, m, n, hs⟩ := length_eq_twelve _ hlen
      rw [← h, hs]
      rfl
    · have hbad : ∃ c ∈ removeSeparators s, isHexDigit c = false := by
        by_contra hcon
        apply hhex
        intro c hc
        by_contra hne
        exact hcon ⟨c, hc, by simpa using hne⟩
      have herr := hexDecodeString_err _ hbad
      cases hd : hexDecodeString (removeSeparators s) with
      | mk r err =>
        cases err with
        | none => rw [hd] at herr; exact absurd rfl herr
        | some err => rw [hd] at h; cases h
  · simp [hlen] at h

theorem wakeTarget_eq (ipAddr : Bytes) (port : Int) :
    (if ipAddr ≠ [] then ipAddr ++ str ":" ++ fmtInt (if port ≤ 0 then 9 else port)
      else str "255.255.255.255:" ++ fmtInt (if port ≤ 0 then 9 else port)) =
      wakeTarget ipAddr port := by
  have hp : (if port ≤ 0 then (9 : Int) else port) = (if 0 < port then port else 9) := by
    split_ifs <;> omega
  rw [hp]
  unfold wakeTarget
  by_cases h : ipAddr = []
  · simp [h, str]
  · simp [h]

theorem WakeOnLAN_of_ok (sys : Sys) (macAddr ipAddr : Bytes) (port : Int) (mac mp : Bytes)
    (h : parseMACAddress macAddr = .ok mac) (hmp : createMagicPacket mac = .ok mp) :
    WakeOnLAN sys macAddr ipAddr port =
      match sys.ResolveUDPAddr (wakeTarget ipAddr port) with
      | .error err =>
        ([.callCreateMagicPacket mac, .resolveUDPAddr (wakeTarget ipAddr port)],
          some (str "failed to resolve target address: " ++ err))
      | .ok addr =>
        match sys.DialUDP addr with
        | some err =>
          ([.callCreateMagicPacket mac, .resolveUDPAddr (wakeTarget ipAddr port), .dialUDP addr],
            some (str "failed to create UDP connection: " ++ err))
        | none =>
          ([.callCreateMagicPacket mac, .resolveUDPAddr (wakeTarget ipAddr port), .dialUDP addr,
              .connWrite addr mp, .connClose addr],
            (sys.Write addr mp).map (fun err => str "failed to send magic packet: " ++ err)) := by
  simp only [WakeOnLAN, h, hmp, wakeTarget_eq]
  cases sys.ResolveUDPAddr (wakeTarget ipAddr port) with
  | error err => rfl
  | ok addr =>
    dsimp only
    cases sys.DialUDP addr with
    | some err => rfl
    | none =>
      dsimp only
      cases sys.Write addr mp <;> rfl

/-- C6: for a MAC string that parses to `mac`, the packet `mp` of `createMagicPacket mac`
exists; `WakeOnLAN` first builds it and resolves the target "<ip>:<p>" (or
"255.255.255.255:<p>" for an empty ip, `p` being the port if positive and 9 otherwise); it
resolves no other target, every write it performs is of `mp` on the connection to the address
that target resolved to, and when resolution and dialling succeed it writes `mp` exactly once. -/
theorem WakeOnLAN_target (sys : Sys) (macAddr ipAddr : Bytes) (port : Int) (mac : Bytes)
    (h : parseMACAddress macAddr = .ok mac) :
    ∃ mp, createMagicPacket mac = .ok mp ∧
      (WakeOnLAN sys macAddr ipAddr port).1.take 2 =
        [.callCreateMagicPacket mac, .resolveUDPAddr (wakeTarget ipAddr port)] ∧
      (∀ t, Effect.resolveUDPAddr t ∈ (WakeOnLAN sys macAddr ipAddr port).1 →
        t = wakeTarget ipAddr port) ∧
      (∀ addr b, Effect.connWrite addr b ∈ (WakeOnLAN sys macAddr ipAddr port).1 →
        sys.ResolveUDPAddr (wakeTarget ipAddr port) = .ok addr ∧ b = mp) ∧
      (∀ addr, sys.ResolveUDPAddr (wakeTarget ipAddr port) = .ok addr → sys.DialUDP addr = none →
        (WakeOnLAN sys macAddr ipAddr port).1 =
          [.callCreateMagicPacket mac, .resolveUDPAddr (wakeTarget ipAddr port), .dialUDP addr,
            .connWrite addr mp, .connClose addr]) := by
  obtain ⟨a, b, c, d, e, f, hmac⟩ := length_eq_six mac (parseMACAddress_length macAddr mac h)
  obtain ⟨mp, hmp⟩ : ∃ mp, createMagicPacket mac = .ok mp :=
    ⟨_, hmac ▸ createMagicPacket_six a b c d e f⟩
  refine ⟨mp, hmp, ?_⟩
  rw [WakeOnLAN_of_ok sys macAddr ipAddr port mac mp h hmp]
  cases hr : sys.ResolveUDPAddr (wakeTarget ipAddr port) with
  | error err => simp
  | ok addr =>
    cases hd : sys.DialUDP addr with
    | some err => simp [hd]
    | none =>
      cases hw : sys.Write addr mp with
      | some err => simp [hd, hw]
      | none => simp [hd, hw]

/-- C6, witness: "00:11:22:33:44:55" sent to 192.168.1.100 with port 0. -/
theorem WakeOnLAN_target_witness :
    parseMACAddress (str "00:11:22:33:44:55") = .ok [0x00, 0x11, 0x22, 0x33, 0x44, 0x55] ∧
    ∃ mp, createMagicPacket [0x00, 0x11, 0x22, 0x33, 0x44, 0x55] = .ok mp ∧
      (WakeOnLAN sampleSys (str "00:11:22:33:44:55") (str "192.168.1.100") 0).1.take 2 =
        [.callCreateMagicPacket [0x00, 0x11, 0x22, 0x33, 0x44, 0x55],
          .resolveUDPAddr (wakeTarget (str "192.168.1.100") 0)] ∧
      (∀ t, Effect.resolveUDPAddr t ∈
          (WakeOnLAN sampleSys (str "00:11:22:33:44:55") (str "192.168.1.100") 0).1 →
        t = wakeTarget (str "192.168.1.100") 0) ∧
      (∀ addr b, Effect.connWrite addr b ∈
          (WakeOnLAN sampleSys (str "00:11:22:33:44:55") (str "192.168.1.100") 0).1 →
        sampleSys.ResolveUDPAddr (wakeTarget (str "192.168.1.100") 0) = .ok addr ∧ b = mp) ∧
      (∀ addr, sampleSys.ResolveUDPAddr (wakeTarget (str "192.168.1.100") 0) = .ok addr →
        sampleSys.DialUDP addr = none →
        (WakeOnLAN sampleSys (str "00:11:22:33:44:55") (str "192.168.1.100") 0).1 =
          [.callCreateMagicPacket [0x00, 0x11, 0x22, 0x33, 0x44, 0x55],
            .resolveUDPAddr (wakeTarget (str "192.168.1.100") 0), .dialUDP addr,
            .connWrite addr mp, .connClose addr]) :=
  ⟨by decide, WakeOnLAN_target sampleSys (str "00:11:22:33:44:55") (str "192.168.1.100") 0
    [0x00, 0x11, 0x22, 0x33, 0x44, 0x55] (by decide)⟩


theorem prefix_split_iff (c lit n : Bytes) (hl : lit.length = 5) :
    (5 ≤ c.length ∧ c.take 5 = lit ∧ c.drop 5 = n) ↔ c = lit ++ n := by
  constructor
  · rintro ⟨_, h1, h2⟩
    rw [← h1, ← h2, List.take_append_drop]
  · rintro rfl
    refine ⟨by simp [hl], ?_, ?_⟩
    · rw [← hl, List.take_left]
    · rw [← hl, List.drop_left]

theorem parseCommand_eq (c : Bytes) :
    parseCommand c =
      if c = str "list" then some .List
      else if 5 ≤ c.length ∧ c.take 5 = str "wake:" then some (.Wake (c.drop 5))
      else if 5 ≤ c.length ∧ c.take 5 = str "ping:" then some (.Ping (c.drop 5))
      else some (.Unknown c) := by
  by_cases h0 : c = str "list"
  · simp [parseCommand, h0]
  · by_cases hlen : 5 ≤ c.length
    · by_cases hw : c.take 5 = str "wake:"
      · simp [parseCommand, prefixGuard, sliceTo, sliceFrom, h0, hlen, hw]
      · have hwb : (c.take 5 == str "wake:") = false := beq_eq_false_iff_ne.2 hw
        by_cases hp : c.take 5 = str "ping:"
        · rw [hp] at hw hwb
          simp [parseCommand, prefixGuard, sliceTo, sliceFrom, h0, hlen, hw, hwb, hp]
        · have hpb : (c.take 5 == str "ping:") = false := beq_eq_false_iff_ne.2 hp
          simp [parseCommand, prefixGuard, sliceTo, sliceFrom, h0, hlen, hw, hp, hwb, hpb]
    · simp [parseCommand, prefixGuard, h0, hlen]

theorem wake_prefix_iff (c n : Bytes) :
    (5 ≤ c.length ∧ c.take 5 = str "wake:" ∧ c.drop 5 = n) ↔ c = str "wake:" ++ n :=
  prefix_split_iff c (str "wake:") n (by decide)

theorem ping_prefix_iff (c n : Bytes) :
    (5 ≤ c.length ∧ c.take 5 = str "ping:" ∧ c.drop 5 = n) ↔ c = str "ping:" ++ n :=
  prefix_split_iff c (str "ping:") n (by decide)

/-- C7: the `switch` of `handleMessage` never slices out of range and selects, for every
payload `c`: List iff `c` is "list"; Wake `n` iff `c` is "wake:" followed by `n`; Ping `n` iff
`c` is "ping:" followed by `n`; Unknown `c` in every other case; `handleMessage` then runs the
branch selected. Matching is exact and case-sensitive. -/
theorem parseCommand_classifies :
    (∀ c : Bytes, ∃ cmd, parseCommand c = some cmd) ∧
    (∀ c : Bytes, parseCommand c = some .List ↔ c = str "list") ∧
    (∀ c n : Bytes, parseCommand c = some (.Wake n) ↔ c = str "wake:" ++ n) ∧
    (∀ c n : Bytes, parseCommand c = some (.Ping n) ↔ c = str "ping:" ++ n) ∧
    (∀ c r : Bytes, parseCommand c = some (.Unknown r) ↔
      (r = c ∧ c ≠ str "list" ∧ (∀ n, c ≠ str "wake:" ++ n) ∧ (∀ n, c ≠ str "ping:" ++ n))) ∧
    (∀ (ctrl : Controller) (sys : Sys) (topic c : Bytes), ∃ cmd, parseCommand c = some cmd ∧
      ctrl.handleMessage sys topic c =
        .log (str "Received message on topic " ++ topic ++ str ": " ++ c) ::
          ctrl.dispatch sys cmd) ∧
    parseCommand (str "wake:nas1") = some (.Wake (str "nas1")) ∧
    parseCommand (str "ping:") = some (.Ping (str "")) ∧
    parseCommand (str "list") = some .List ∧
    parseCommand (str "reboot") = some (.Unknown (str "reboot")) ∧
    parseCommand (str "wake:a:b") = some (.Wake (str "a:b")) ∧
    parseCommand (str "LIST") = some (.Unknown (str "LIST")) ∧
    parseCommand (str "Wake:nas1") = some (.Unknown (str "Wake:nas1")) ∧
    parseCommand (str "wake") = some (.Unknown (str "wake")) := by
  have str_wake : str "wake:" = [119, 97, 107, 101, 58] := by decide
  have str_ping : str "ping:" = [112, 105, 110, 103, 58] := by decide
  have str_list : str "list" = [108, 105, 115, 116] := by decide
  have hwl : ∀ n : Bytes, str "wake:" ++ n ≠ str "list" := by
    intro n h
    simp only [str_wake, str_ping, str_list] at h
    simp at h
  have hpl : ∀ n : Bytes, str "ping:" ++ n ≠ str "list" := by
    intro n h
    simp only [str_wake, str_ping, str_list] at h
    simp at h
  have hpw : ∀ n m : Bytes, str "ping:" ++ n ≠ str "wake:" ++ m := by
    intro n m h
    simp only [str_wake, str_ping] at h
    simp at h
  have hall : ∀ c : Bytes, ∃ cmd, parseCommand c = some cmd := by
    intro c
    rw [parseCommand_eq]
    split_ifs <;> exact ⟨_, rfl⟩
  refine ⟨hall, ?_, ?_, ?_, ?_, ?_, by decide, by decide, by decide, by decide, by decide,
    by decide, by decide, by decide⟩
  · intro c
    rw [parseCommand_eq]
    split_ifs with h0 h1 h2 <;> simp [h0]
  · intro c n
    rw [parseCommand_eq, ← wake_prefix_iff]
    split_ifs with h0 h1 h2
    · simp only [Option.some.injEq, reduceCtorEq, false_iff]
      rintro ⟨h3, _⟩
      rw [h0] at h3
      revert h3
      decide
    · simp [h1]
    · simp only [Option.some.injEq, reduceCtorEq, false_iff]
      rintro ⟨h3, h4, _⟩
      exact h1 ⟨h3, h4⟩
    · simp only [Option.some.injEq, reduceCtorEq, false_iff]
      rintro ⟨h3, h4, _⟩
      exact h1 ⟨h3, h4⟩
  · intro c n
    rw [parseCommand_eq, ← ping_prefix_iff]
    split_ifs with h0 h1 h2
    · simp only [Option.some.injEq, reduceCtorEq, false_iff]
      rintro ⟨h3, _⟩
      rw [h0] at h3
      revert h3
      decide
    · simp only [Option.some.injEq, reduceCtorEq, false_iff]
      rintro ⟨_, h4, _⟩
      rw [h1.2] at h4
      revert h4
      decide
    · simp [h2]
    · simp only [Option.some.injEq, reduceCtorEq, false_iff]
      rintro ⟨h3, h4, _⟩
      exact h2 ⟨h3, h4⟩
  · intro c r
    rw [parseCommand_eq]
    split_ifs with h0 h1 h2
    · simp [h0]
    · simp only [Option.some.injEq, reduceCtorEq, false_iff]
      rintro ⟨_, _, hw, _⟩
      exact hw (c.drop 5) ((wake_prefix_iff c _).1 ⟨h1.1, h1.2, rfl⟩)
    · simp only [Option.some.injEq, reduceCtorEq, false_iff]
      rintro ⟨_, _, _, hp⟩
      exact hp (c.drop 5) ((ping_prefix_iff c _).1 ⟨h2.1, h2.2, rfl⟩)
    · simp only [Option.some.injEq, Command.Unknown.injEq]
      constructor
      · intro h
        refine ⟨h.symm, h0, ?_, ?_⟩
        · intro n hn
          have := (wake_prefix_iff c n).2 hn
          exact h1 ⟨this.1, this.2.1⟩
        · intro n hn
          have := (ping_prefix_iff c n).2 hn
          exact h2 ⟨this.1, this.2.1⟩
      · intro h
        exact h.1.symm
  · intro ctrl sys topic c
    obtain ⟨cmd, hcmd⟩ := hall c
    exact ⟨cmd, hcmd, by simp only [Controller.handleMessage, hcmd]⟩

theorem listLogLoop_filter (devs : List DeviceConfig) :
    ∀ i, (listLogLoop i devs).filter (fun e => !e.isLog) = [] := by
  induction devs with
  | nil => intro i; rfl
  | cons d rest ih =>
    intro i
    rw [listLogLoop, List.filter_cons]
    simp only [Effect.isLog, Bool.not_true, Bool.false_eq_true, if_false]
    exact ih _

theorem listResponseLoop_eq (devs : List DeviceConfig) :
    ∀ (i : Nat) (response : Bytes), listResponseLoop i response devs =
      response ++ ((devs.enumFrom (i + 1)).map (fun p => deviceLine p.1 p.2)).flatten := by
  induction devs with
  | nil => intro i response; simp [listResponseLoop]
  | cons d rest ih =>
    intro i response
    simp only [listResponseLoop, ih, List.enumFrom_cons, List.map_cons, List.flatten_cons,
      deviceLine, List.append_assoc, Nat.cast_add, Nat.cast_one]

theorem client_of_isConnected (m : Client) (h : m.IsConnected = some true) :
    m.isConnected = true ∧ ∃ p, m.client = some p := by
  unfold Client.IsConnected at h
  cases hc : m.isConnected with
  | false => simp [hc] at h
  | true =>
    cases hp : m.client with
    | none => simp [hc, hp] at h
    | some p => exact ⟨rfl, p, rfl⟩

theorem publish_of_isConnected (m : Client) (h : m.IsConnected = some true) (topic : Bytes)
    (qos : Nat) (retained : Bool) (payload : Bytes) :
    ∃ r, m.Publish topic qos retained payload = ([.publish topic qos retained payload], r) := by
  obtain ⟨hc, p, hp⟩ := client_of_isConnected m h
  simp only [Client.Publish, hc, hp]
  cases p.Publish topic qos retained payload with
  | none => exact ⟨_, rfl⟩
  | some e => exact ⟨_, rfl⟩

theorem publishResponse_filter (c : Controller) (h : c.mqtt.IsConnected = some true)
    (message : Bytes) :
    (c.publishResponse message).filter (fun e => !e.isLog) =
      [.publish (c.config.MQTT.Topic ++ str "/response") (byteOfInt c.config.MQTT.QoS) false
        message] := by
  obtain ⟨r, hr⟩ := publish_of_isConnected c.mqtt h (c.config.MQTT.Topic ++ str "/response")
    (byteOfInt c.config.MQTT.QoS) false message
  simp only [Controller.publishResponse, h, hr]
  cases r <;> simp [Effect.isLog]

theorem listDevices_filter (c : Controller) (h : c.mqtt.IsConnected = some true) :
    c.listDevices.filter (fun e => !e.isLog) =
      [.publish (c.config.MQTT.Topic ++ str "/response") (byteOfInt c.config.MQTT.QoS) false
        ((c.config.Devices.enumFrom 1).map (fun p => deviceLine p.1 p.2)).flatten] := by
  obtain ⟨r, hr⟩ := publish_of_isConnected c.mqtt h (c.config.MQTT.Topic ++ str "/response")
    (byteOfInt c.config.MQTT.QoS) false
    ((c.config.Devices.enumFrom 1).map (fun p => deviceLine p.1 p.2)).flatten
  simp only [Controller.listDevices, h, List.filter_append, listLogLoop_filter,
    listResponseLoop_eq, List.nil_append, Nat.zero_add, hr]
  cases r <;> simp [Effect.isLog]

/-- C8: on a connected bus the only effect of the List command besides log lines is one
publish, to `<topic>/response`, whose payload is the concatenation in configuration order of
the lines "[i] name (IP: ip)\n" of the devices, `i` counting from 1; this holds of the branch
that the command selects and of the handler on the payload "list". -/
theorem listDevices_publishes (c : Controller) (sys : Sys) (topic : Bytes)
    (h : c.mqtt.IsConnected = some true) :
    parseCommand (str "list") = some .List ∧
    (c.dispatch sys .List).filter (fun e => !e.isLog) =
      [.publish (c.config.MQTT.Topic ++ str "/response") (byteOfInt c.config.MQTT.QoS) false
        ((c.config.Devices.enumFrom 1).map (fun p => deviceLine p.1 p.2)).flatten] ∧
    (c.handleMessage sys topic (str "list")).filter (fun e => !e.isLog) =
      [.publish (c.config.MQTT.Topic ++ str "/response") (byteOfInt c.config.MQTT.QoS) false
        ((c.config.Devices.enumFrom 1).map (fun p => deviceLine p.1 p.2)).flatten] := by
  have hparse : parseCommand (str "list") = some .List := by decide
  refine ⟨hparse, ?_, ?_⟩
  · simp only [Controller.dispatch]
    exact listDevices_filter c h
  · simp only [Controller.handleMessage, hparse, Controller.dispatch, List.filter_cons,
      Effect.isLog, Bool.not_true, Bool.false_eq_true, if_false]
    exact listDevices_filter c h

/-- C8, witness: the sample controller with its three devices. -/
theorem listDevices_publishes_witness :
    sampleController.mqtt.IsConnected = some true ∧
    (parseCommand (str "list") = some .List ∧
    (sampleController.dispatch sampleSys .List).filter (fun e => !e.isLog) =
      [.publish (sampleController.config.MQTT.Topic ++ str "/response")
        (byteOfInt sampleController.config.MQTT.QoS) false
        ((sampleController.config.Devices.enumFrom 1).map
          (fun p => deviceLine p.1 p.2)).flatten] ∧
    (sampleController.handleMessage sampleSys (str "home/wake") (str "list")).filter
        (fun e => !e.isLog) =
      [.publish (sampleController.config.MQTT.Topic ++ str "/response")
        (byteOfInt sampleController.config.MQTT.QoS) false
        ((sampleController.config.Devices.enumFrom 1).map
          (fun p => deviceLine p.1 p.2)).flatten]) :=
  ⟨by decide,
    listDevices_publishes sampleController sampleSys (str "home/wake") (by decide)⟩

theorem findDevice_none (name : Bytes) (devs : List DeviceConfig)
    (h : ∀ d ∈ devs, d.Name ≠ name) : findDevice name devs = none := by
  induction devs with
  | nil => rfl
  | cons d rest ih =>
    have hd : d.Name ≠ name := h d (by simp)
    simp only [findDevice, hd, if_false]
    exact ih (fun x hx => h x (by simp [hx]))

theorem findDevice_first (name : Bytes) (devs : List DeviceConfig) :
    ∀ (i : Nat) (d : DeviceConfig), devs.get? i = some d → d.Name = name →
      (∀ j e, j < i → devs.get? j = some e → e.Name ≠ name) → findDevice name devs = some d := by
  induction devs with
  | nil => intro i d hd; simp at hd
  | cons x rest ih =>
    intro i d hd hname hfirst
    cases i with
    | zero =>
      simp only [List.get?_cons_zero, Option.some.injEq] at hd
      subst hd
      simp [findDevice, hname]
    | succ k =>
      have hx : x.Name ≠ name := hfirst 0 x (by omega) rfl
      simp only [findDevice, hx, if_false]
      exact ih k d (by simpa using hd) hname
        (fun j e hj he => hfirst (j + 1) e (by omega) (by simpa using he))

/-- C9: when no configured device has the requested name, dispatching Wake or Ping of that
name on a connected bus has, besides log lines, the single effect of publishing
"Error: Device not found: <name>": no packet is built, nothing is sent, no probe is made. -/
theorem dispatch_deviceNotFound (c : Controller) (sys : Sys) (name : Bytes)
    (hname : ∀ d ∈ c.config.Devices, d.Name ≠ name) (hconn : c.mqtt.IsConnected = some true) :
    (c.dispatch sys (.Wake name)).filter (fun e => !e.isLog) =
      [.publish (c.config.MQTT.Topic ++ str "/response") (byteOfInt c.config.MQTT.QoS) false
        (str "Error: Device not found: " ++ name)] ∧
    (c.dispatch sys (.Ping name)).filter (fun e => !e.isLog) =
      [.publish (c.config.MQTT.Topic ++ str "/response") (byteOfInt c.config.MQTT.QoS) false
        (str "Error: Device not found: " ++ name)] := by
  have hfind := findDevice_none name c.config.Devices hname
  constructor
  · simp only [Controller.dispatch, Controller.wakeDevice, hfind, List.filter_cons, Effect.isLog,
      Bool.not_true, Bool.false_eq_true, if_false]
    exact publishResponse_filter c hconn _
  · simp only [Controller.dispatch, Controller.pingDevice, hfind, List.filter_cons, Effect.isLog,
      Bool.not_true, Bool.false_eq_true, if_false]
    exact publishResponse_filter c hconn _

/-- C9, witness: the name "missing" against the sample registry. -/
theorem dispatch_deviceNotFound_witness :
    (∀ d ∈ sampleController.config.Devices, d.Name ≠ str "missing") ∧
    sampleController.mqtt.IsConnected = some true ∧
    ((sampleController.dispatch sampleSys (.Wake (str "missing"))).filter (fun e => !e.isLog) =
      [.publish (sampleController.config.MQTT.Topic ++ str "/response")
        (byteOfInt sampleController.config.MQTT.QoS) false
        (str "Error: Device not found: " ++ str "missing")] ∧
    (sampleController.dispatch sampleSys (.Ping (str "missing"))).filter (fun e => !e.isLog) =
      [.publish (sampleController.config.MQTT.Topic ++ str "/response")
        (byteOfInt sampleController.config.MQTT.QoS) false
        (str "Error: Device not found: " ++ str "missing")]) :=
  ⟨by decide, by decide,
    dispatch_deviceNotFound sampleController sampleSys (str "missing") (by decide) (by decide)⟩

theorem wakeCalls_append (l1 l2 : List Effect) :
    wakeCalls (l1 ++ l2) = wakeCalls l1 ++ wakeCalls l2 := by
  induction l1 with
  | nil => rfl
  | cons e rest ih => cases e <;> simp [wakeCalls, ih]

theorem probeCalls_append (l1 l2 : List Effect) :
    probeCalls (l1 ++ l2) = probeCalls l1 ++ probeCalls l2 := by
  induction l1 with
  | nil => rfl
  | cons e rest ih => cases e <;> simp [probeCalls, ih]

theorem WakeOnLAN_calls (sys : Sys) (macAddr ipAddr : Bytes) (port : Int) :
    wakeCalls (WakeOnLAN sys macAddr ipAddr port).1 = [] ∧
    probeCalls (WakeOnLAN sys macAddr ipAddr port).1 = [] := by
  unfold WakeOnLAN
  dsimp only
  split
  · exact ⟨rfl, rfl⟩
  · split
    · exact ⟨rfl, rfl⟩
    · split
      · exact ⟨rfl, rfl⟩
      · split
        · exact ⟨rfl, rfl⟩
        · split <;> exact ⟨rfl, rfl⟩

theorem PingHost_calls (sys : Sys) (host : Bytes) :
    wakeCalls (PingHost sys host).1 = [] ∧ probeCalls (PingHost sys host).1 = [] := by
  unfold PingHost
  dsimp only
  split <;> (try split) <;> (try split) <;> (try split) <;> exact ⟨rfl, rfl⟩

theorem Client_Publish_calls (m : Client) (topic : Bytes) (qos : Nat) (retained : Bool)
    (payload : Bytes) :
    wakeCalls (m.Publish topic qos retained payload).1 = [] ∧
    probeCalls (m.Publish topic qos retained payload).1 = [] := by
  unfold Client.Publish
  split <;> (try split) <;> (try split) <;> exact ⟨rfl, rfl⟩

theorem publishResponse_calls (c : Controller) (message : Bytes) :
    wakeCalls (c.publishResponse message) = [] ∧ probeCalls (c.publishResponse message) = [] := by
  unfold Controller.publishResponse
  split
  · exact ⟨rfl, rfl⟩
  · exact ⟨rfl, rfl⟩
  · have hpub := Client_Publish_calls c.mqtt (c.config.MQTT.Topic ++ str "/response")
      (byteOfInt c.config.MQTT.QoS) false message
    dsimp only
    cases hr : c.mqtt.Publish (c.config.MQTT.Topic ++ str "/response")
        (byteOfInt c.config.MQTT.QoS) false message with
    | mk t r =>
      rw [hr] at hpub
      cases r <;> simp [wakeCalls_append, probeCalls_append, hpub.1, hpub.2, wakeCalls, probeCalls]

/-- C10: when the device at position `i` carries the requested name and no earlier device
does, Wake of that name calls `WakeOnLAN` exactly once, with the MAC, IP and port of that
device, and Ping calls `PingHost` exactly once, with its IP; no other device is passed to
either function. -/
theorem dispatch_firstMatch (c : Controller) (sys : Sys) (name : Bytes) (i : Nat)
    (d : DeviceConfig) (hd : c.config.Devices.get? i = some d) (hname : d.Name = name)
    (hfirst : ∀ j e, j < i → c.config.Devices.get? j = some e → e.Name ≠ name) :
    wakeCalls (c.dispatch sys (.Wake name)) = [(d.MAC, d.IP, d.Port)] ∧
    probeCalls (c.dispatch sys (.Wake name)) = [] ∧
    probeCalls (c.dispatch sys (.Ping name)) = [d.IP] ∧
    wakeCalls (c.dispatch sys (.Ping name)) = [] := by
  have hfind := findDevice_first name c.config.Devices i d hd hname hfirst
  have hw := WakeOnLAN_calls sys d.MAC d.IP d.Port
  have hp := PingHost_calls sys d.IP
  simp only [Controller.dispatch, Controller.wakeDevice, Controller.pingDevice, hfind]
  refine ⟨?_, ?_, ?_, ?_⟩
  · split <;> rename_i heq <;> rw [heq] at hw <;>
      simp [wakeCalls, wakeCalls_append, hw.1, (publishResponse_calls c _).1]
  · split <;> rename_i heq <;> rw [heq] at hw <;>
      simp [probeCalls, probeCalls_append, hw.2, (publishResponse_calls c _).2]
  · split <;> rename_i heq <;> rw [heq] at hp <;>
      simp [probeCalls, probeCalls_append, hp.2, (publishResponse_calls c _).2]
  · split <;> rename_i heq <;> rw [heq] at hp <;>
      simp [wakeCalls, wakeCalls_append, hp.1, (publishResponse_calls c _).1]

/-- C10, witness: "nas1" is carried by the devices at positions 1 and 2 of the sample
registry; the one at position 1 is used. -/
theorem dispatch_firstMatch_witness :
    sampleController.config.Devices.get? 1 =
      some ⟨str "nas1", str "00:11:22:33:44:55", str "192.168.1.100", 9⟩ ∧
    (∀ j e, j < 1 → sampleController.config.Devices.get? j = some e → e.Name ≠ str "nas1") ∧
    (wakeCalls (sampleController.dispatch sampleSys (.Wake (str "nas1"))) =
        [(str "00:11:22:33:44:55", str "192.168.1.100", 9)] ∧
      probeCalls (sampleController.dispatch sampleSys (.Wake (str "nas1"))) = [] ∧
      probeCalls (sampleController.dispatch sampleSys (.Ping (str "nas1"))) =
        [str "192.168.1.100"] ∧
      wakeCalls (sampleController.dispatch sampleSys (.Ping (str "nas1"))) = []) :=
  have hfirst : ∀ j e, j < 1 → sampleController.config.Devices.get? j = some e →
      e.Name ≠ str "nas1" := by
    intro j e hj he
    have hj0 : j = 0 := by omega
    subst hj0
    have : e = ⟨str "pc", str "aa:bb:cc:dd:ee:ff", str "192.168.1.50", 0⟩ := by
      have h0 : sampleController.config.Devices.get? 0 =
          some ⟨str "pc", str "aa:bb:cc:dd:ee:ff", str "192.168.1.50", 0⟩ := rfl
      rw [h0] at he
      exact (Option.some.inj he).symm
    subst this
    decide
  ⟨rfl, hfirst,
    dispatch_firstMatch sampleController sampleSys (str "nas1") 1
      ⟨str "nas1", str "00:11:22:33:44:55", str "192.168.1.100", 9⟩ rfl rfl hfirst⟩

theorem str_wake_eq : str "wake:" = [119, 97, 107, 101, 58] := by decide

theorem str_ping_eq : str "ping:" = [112, 105, 110, 103, 58] := by decide

theorem parseCommand_unknown (c : Bytes) (h0 : c ≠ str "list")
    (hw : ∀ n, c ≠ str "wake:" ++ n) (hp : ∀ n, c ≠ str "ping:" ++ n) :
    parseCommand c = some (.Unknown c) := by
  rw [parseCommand_eq]
  have h1 : ¬(5 ≤ c.length ∧ c.take 5 = str "wake:") := fun h =>
    hw (c.drop 5) ((wake_prefix_iff c _).1 ⟨h.1, h.2, rfl⟩)
  have h2 : ¬(5 ≤ c.length ∧ c.take 5 = str "ping:") := fun h =>
    hp (c.drop 5) ((ping_prefix_iff c _).1 ⟨h.1, h.2, rfl⟩)
  simp only [h0, h1, h2, if_false]

/-- C11: for a payload that is not "list" and does not start with "wake:" or "ping:", the
handler only writes two log lines: it publishes nothing and calls neither `WakeOnLAN` nor
`PingHost`, whatever the connection state and the registry. -/
theorem handleMessage_unknown (c : Controller) (sys : Sys) (topic payload : Bytes)
    (h0 : payload ≠ str "list") (hw : ∀ n, payload ≠ str "wake:" ++ n)
    (hp : ∀ n, payload ≠ str "ping:" ++ n) :
    c.handleMessage sys topic payload =
      [.log (str "Received message on topic " ++ topic ++ str ": " ++ payload),
        .log (str "Unknown command: " ++ payload)] ∧
    (c.handleMessage sys topic payload).filter Effect.isPublish = [] ∧
    wakeCalls (c.handleMessage sys topic payload) = [] ∧
    probeCalls (c.handleMessage sys topic payload) = [] := by
  have h : c.handleMessage sys topic payload =
      [.log (str "Received message on topic " ++ topic ++ str ": " ++ payload),
        .log (str "Unknown command: " ++ payload)] := by
    simp only [Controller.handleMessage, parseCommand_unknown payload h0 hw hp,
      Controller.dispatch]
  rw [h]
  exact ⟨rfl, rfl, rfl, rfl⟩

/-- C11, witness: the payload "reboot" on the sample controller. -/
theorem handleMessage_unknown_witness :
    str "reboot" ≠ str "list" ∧ (∀ n, str "reboot" ≠ str "wake:" ++ n) ∧
    (∀ n, str "reboot" ≠ str "ping:" ++ n) ∧
    (sampleController.handleMessage sampleSys (str "home/wake") (str "reboot") =
      [.log (str "Received message on topic " ++ str "home/wake" ++ str ": " ++ str "reboot"),
        .log (str "Unknown command: " ++ str "reboot")] ∧
    (sampleController.handleMessage sampleSys (str "home/wake") (str "reboot")).filter
      Effect.isPublish = [] ∧
    wakeCalls (sampleController.handleMessage sampleSys (str "home/wake") (str "reboot")) = [] ∧
    probeCalls (sampleController.handleMessage sampleSys (str "home/wake") (str "reboot")) = []) :=
  have hr : str "reboot" = [114, 101, 98, 111, 111, 116] := by decide
  have hw : ∀ n, str "reboot" ≠ str "wake:" ++ n := by
    intro n h
    rw [hr, str_wake_eq] at h
    simp at h
  have hp : ∀ n, str "reboot" ≠ str "ping:" ++ n := by
    intro n h
    rw [hr, str_ping_eq] at h
    simp at h
  ⟨by decide, hw, hp,
    handleMessage_unknown sampleController sampleSys (str "home/wake") (str "reboot")
      (by decide) hw hp⟩

theorem WakeOnLAN_isNet (sys : Sys) (macAddr ipAddr : Bytes) (port : Int) :
    ∀ e ∈ (WakeOnLAN sys macAddr ipAddr port).1, e.isNet = true := by
  unfold WakeOnLAN
  dsimp only
  split <;> (try split) <;> (try split) <;> (try split) <;> (try split) <;> simp [Effect.isNet]

theorem PingHost_isNet (sys : Sys) (host : Bytes) :
    ∀ e ∈ (PingHost sys host).1, e.isNet = true := by
  unfold PingHost
  dsimp only
  split <;> (try split) <;> (try split) <;> (try split) <;> simp [Effect.isNet]

theorem filter_isPublish_of_isNet (l : List Effect) (h : ∀ e ∈ l, e.isNet = true) :
    l.filter Effect.isPublish = [] := by
  rw [List.filter_eq_nil_iff]
  intro e he
  have := h e he
  cases e <;> simp_all [Effect.isNet, Effect.isPublish]

theorem not_panic_of_isNet (l : List Effect) (h : ∀ e ∈ l, e.isNet = true) :
    Effect.panic ∉ l := by
  intro hp
  have := h _ hp
  simp [Effect.isNet] at this

theorem listLogLoop_isLog (devs : List DeviceConfig) :
    ∀ i, ∀ e ∈ listLogLoop i devs, e.isLog = true := by
  induction devs with
  | nil => intro i e he; simp [listLogLoop] at he
  | cons d rest ih =>
    intro i e he
    simp only [listLogLoop, List.mem_cons] at he
    rcases he with rfl | he
    · rfl
    · exact ih _ e he

theorem parseCommand_total (c : Bytes) : ∃ cmd, parseCommand c = some cmd := by
  rw [parseCommand_eq]
  split_ifs <;> exact ⟨_, rfl⟩

theorem publishResponse_not_connected (c : Controller) (h : c.mqtt.IsConnected = some false)
    (message : Bytes) : c.publishResponse message = [] := by
  simp only [Controller.publishResponse, h]

theorem publishResponse_connected (c : Controller) (h : c.mqtt.IsConnected = some true)
    (message : Bytes) :
    ∃ r, c.publishResponse message =
        .publish (c.config.MQTT.Topic ++ str "/response") (byteOfInt c.config.MQTT.QoS) false
          message :: r ∧ ∀ e ∈ r, e.isLog = true := by
  obtain ⟨r, hr⟩ := publish_of_isConnected c.mqtt h (c.config.MQTT.Topic ++ str "/response")
    (byteOfInt c.config.MQTT.QoS) false message
  simp only [Controller.publishResponse, h, hr]
  cases r with
  | none => exact ⟨[], rfl, by simp⟩
  | some err => exact ⟨[.log (str "Failed to publish response: " ++ err)], rfl, by simp [Effect.isLog]⟩

theorem wakeDevice_found (c : Controller) (sys : Sys) (name : Bytes) (d : DeviceConfig)
    (h : findDevice name c.config.Devices = some d) :
    ∃ msg, c.wakeDevice sys name =
      [.log (str "Waking up device: " ++ d.Name ++ str " (MAC: " ++ d.MAC ++ str ")"),
        .callWakeOnLAN d.MAC d.IP d.Port] ++
      ((WakeOnLAN sys d.MAC d.IP d.Port).1 ++ .log msg ::
        c.publishResponse
          (match (WakeOnLAN sys d.MAC d.IP d.Port).2 with
           | some err => str "Error waking device " ++ d.Name ++ str ": " ++ err
           | none => str "Wake-on-LAN packet sent to " ++ d.Name)) := by
  simp only [Controller.wakeDevice, h]
  cases hr : WakeOnLAN sys d.MAC d.IP d.Port with
  | mk t r =>
    cases r with
    | none => exact ⟨_, rfl⟩
    | some err => exact ⟨_, rfl⟩

theorem pingDevice_found (c : Controller) (sys : Sys) (name : Bytes) (d : DeviceConfig)
    (h : findDevice name c.config.Devices = some d) :
    ∃ msg, c.pingDevice sys name =
      [.log (str "Pinging device: " ++ d.Name ++ str " (IP: " ++ d.IP ++ str ")"),
        .callPingHost d.IP] ++
      ((PingHost sys d.IP).1 ++ .log msg ::
        c.publishResponse
          (match (PingHost sys d.IP).2 with
           | (_, _, some err) => str "Error pinging device " ++ d.Name ++ str ": " ++ err
           | (true, rtt, none) =>
             str "Device " ++ d.Name ++ str " is reachable, RTT: " ++ sys.DurationString rtt
           | (false, _, none) => str "Device " ++ d.Name ++ str " is not reachable")) := by
  simp only [Controller.pingDevice, h]
  cases hr : PingHost sys d.IP with
  | mk t r =>
    obtain ⟨ok, rtt, err⟩ := r
    cases ok <;> cases err <;> exact ⟨_, rfl⟩

theorem filter_isPublish_of_isLog (l : List Effect) (h : ∀ e ∈ l, e.isLog = true) :
    l.filter Effect.isPublish = [] := by
  rw [List.filter_eq_nil_iff]
  intro e he
  have := h e he
  cases e <;> simp_all [Effect.isLog, Effect.isPublish]

theorem dispatch_filter_not_connected (c : Controller) (sys : Sys)
    (h : c.mqtt.IsConnected = some false) (cmd : Command) :
    (c.dispatch sys cmd).filter Effect.isPublish = [] := by
  cases cmd with
  | List =>
    simp only [Controller.dispatch, Controller.listDevices, h, List.filter_append,
      filter_isPublish_of_isLog _ (listLogLoop_isLog _ 0), List.append_nil]
    rfl
  | Wake name =>
    cases hf : findDevice name c.config.Devices with
    | none =>
      simp only [Controller.dispatch, Controller.wakeDevice, hf,
        publishResponse_not_connected c h]
      rfl
    | some d =>
      obtain ⟨msg, hm⟩ := wakeDevice_found c sys name d hf
      simp only [Controller.dispatch, hm, publishResponse_not_connected c h, List.filter_append,
        filter_isPublish_of_isNet _ (WakeOnLAN_isNet sys d.MAC d.IP d.Port)]
      rfl
  | Ping name =>
    cases hf : findDevice name c.config.Devices with
    | none =>
      simp only [Controller.dispatch, Controller.pingDevice, hf,
        publishResponse_not_connected c h]
      rfl
    | some d =>
      obtain ⟨msg, hm⟩ := pingDevice_found c sys name d hf
      simp only [Controller.dispatch, hm, publishResponse_not_connected c h, List.filter_append,
        filter_isPublish_of_isNet _ (PingHost_isNet sys d.IP)]
      rfl
  | Unknown raw => rfl

/-- C12: when the bus connection is reported as not established, no command (List, Wake or
Ping, device found or not) and no payload handed to the handler results in a publish call. -/
theorem dispatch_not_connected (c : Controller) (sys : Sys)
    (h : c.mqtt.IsConnected = some false) :
    (∀ cmd, (c.dispatch sys cmd).filter Effect.isPublish = []) ∧
    (∀ topic payload, (c.handleMessage sys topic payload).filter Effect.isPublish = []) := by
  refine ⟨dispatch_filter_not_connected c sys h, ?_⟩
  intro topic payload
  obtain ⟨cmd, hcmd⟩ := parseCommand_total payload
  simp only [Controller.handleMessage, hcmd, List.filter_cons, Effect.isPublish,
    Bool.false_eq_true, if_false]
  exact dispatch_filter_not_connected c sys h cmd

/-- C12, witness: the sample controller with the connected flag cleared. -/
theorem dispatch_not_connected_witness :
    sampleControllerOffline.mqtt.IsConnected = some false ∧
    ((∀ cmd, (sampleControllerOffline.dispatch sampleSys cmd).filter Effect.isPublish = []) ∧
    (∀ topic payload,
      (sampleControllerOffline.handleMessage sampleSys topic payload).filter
        Effect.isPublish = [])) :=
  ⟨by decide, dispatch_not_connected sampleControllerOffline sampleSys (by decide)⟩

theorem Client_Publish_mem (m : Client) (topic : Bytes) (qos : Nat) (retained : Bool)
    (payload : Bytes) :
    ∀ e ∈ (m.Publish topic qos retained payload).1,
      e = .panic ∨ e = .publish topic qos retained payload := by
  unfold Client.Publish
  split <;> (try split) <;> (try split) <;> simp

theorem publishResponse_mem (c : Controller) (message : Bytes) :
    ∀ e ∈ c.publishResponse message, e.isPublish = true →
      e = .publish (c.config.MQTT.Topic ++ str "/response") (byteOfInt c.config.MQTT.QoS) false
        message := by
  intro e he hp
  unfold Controller.publishResponse at he
  split at he
  · simp only [List.mem_singleton] at he
    subst he
    simp [Effect.isPublish] at hp
  · simp at he
  · have hmem := Client_Publish_mem c.mqtt (c.config.MQTT.Topic ++ str "/response")
      (byteOfInt c.config.MQTT.QoS) false message
    dsimp only at he
    cases hr : c.mqtt.Publish (c.config.MQTT.Topic ++ str "/response")
        (byteOfInt c.config.MQTT.QoS) false message with
    | mk t r =>
      rw [hr] at he hmem
      have ht : e ∈ t := by
        cases r with
        | none => exact he
        | some err =>
          simp only [List.mem_append, List.mem_singleton] at he
          rcases he with he | he
          · exact he
          · subst he
            simp [Effect.isPublish] at hp
      rcases hmem e ht with rfl | rfl
      · simp [Effect.isPublish] at hp
      · rfl

theorem listDevices_mem (c : Controller) :
    ∀ e ∈ c.listDevices, e.isPublish = true →
      ∃ body, e = .publish (c.config.MQTT.Topic ++ str "/response")
        (byteOfInt c.config.MQTT.QoS) false body := by
  intro e he hp
  unfold Controller.listDevices at he
  simp only [List.mem_append, List.mem_singleton] at he
  rcases he with (rfl | he) | he
  · simp [Effect.isPublish] at hp
  · have := listLogLoop_isLog _ 0 e he
    cases e <;> simp_all [Effect.isLog, Effect.isPublish]
  · split at he
    · simp only [List.mem_singleton] at he
      subst he
      simp [Effect.isPublish] at hp
    · simp at he
    · have hmem := Client_Publish_mem c.mqtt (c.config.MQTT.Topic ++ str "/response")
        (byteOfInt c.config.MQTT.QoS) false (listResponseLoop 0 [] c.config.Devices)
      cases hr : c.mqtt.Publish (c.config.MQTT.Topic ++ str "/response")
          (byteOfInt c.config.MQTT.QoS) false (listResponseLoop 0 [] c.config.Devices) with
      | mk t r =>
        rw [hr] at he hmem
        have ht : e ∈ t := by
          cases r with
          | none => exact he
          | some err =>
            simp only [List.mem_append, List.mem_singleton] at he
            rcases he with he | he
            · exact he
            · subst he
              simp [Effect.isPublish] at hp
        rcases hmem e ht with rfl | rfl
        · simp [Effect.isPublish] at hp
        · exact ⟨_, rfl⟩

theorem isPublish_of_isNet (e : Effect) (h : e.isNet = true) : e.isPublish = false := by
  cases e <;> simp_all [Effect.isNet, Effect.isPublish]

theorem dispatch_mem (c : Controller) (sys : Sys) (cmd : Command) :
    ∀ e ∈ c.dispatch sys cmd, e.isPublish = true →
      ∃ body, e = .publish (c.config.MQTT.Topic ++ str "/response")
        (byteOfInt c.config.MQTT.QoS) false body := by
  intro e he hp
  cases cmd with
  | List => exact listDevices_mem c e he hp
  | Wake name =>
    simp only [Controller.dispatch] at he
    cases hf : findDevice name c.config.Devices with
    | none =>
      simp only [Controller.wakeDevice, hf, List.mem_cons] at he
      rcases he with rfl | he
      · simp [Effect.isPublish] at hp
      · exact ⟨_, publishResponse_mem c _ e he hp⟩
    | some d =>
      obtain ⟨msg, hm⟩ := wakeDevice_found c sys name d hf
      rw [hm] at he
      simp only [List.mem_append, List.mem_cons, List.mem_singleton, List.not_mem_nil,
        or_false] at he
      rcases he with (rfl | rfl) | he | rfl | he
      · simp [Effect.isPublish] at hp
      · simp [Effect.isPublish] at hp
      · rw [isPublish_of_isNet e (WakeOnLAN_isNet sys d.MAC d.IP d.Port e he)] at hp
        cases hp
      · simp [Effect.isPublish] at hp
      · exact ⟨_, publishResponse_mem c _ e he hp⟩
  | Ping name =>
    simp only [Controller.dispatch] at he
    cases hf : findDevice name c.config.Devices with
    | none =>
      simp only [Controller.pingDevice, hf, List.mem_cons] at he
      rcases he with rfl | he
      · simp [Effect.isPublish] at hp
      · exact ⟨_, publishResponse_mem c _ e he hp⟩
    | some d =>
      obtain ⟨msg, hm⟩ := pingDevice_found c sys name d hf
      rw [hm] at he
      simp only [List.mem_append, List.mem_cons, List.mem_singleton, List.not_mem_nil,
        or_false] at he
      rcases he with (rfl | rfl) | he | rfl | he
      · simp [Effect.isPublish] at hp
      · simp [Effect.isPublish] at hp
      · rw [isPublish_of_isNet e (PingHost_isNet sys d.IP e he)] at hp
        cases hp
      · simp [Effect.isPublish] at hp
      · exact ⟨_, publishResponse_mem c _ e he hp⟩
  | Unknown raw =>
    simp only [Controller.dispatch, List.mem_singleton] at he
    subst he
    simp [Effect.isPublish] at hp

theorem byteOfInt_eq (n : Int) (h0 : 0 ≤ n) (h1 : n ≤ 255) : ((byteOfInt n : Nat) : Int) = n := by
  unfold byteOfInt
  omega

/-- C13: every publish in a run of the handler, for every payload, registry and outcome, is
addressed to the command topic followed by "/response", is not retained, and carries the
configured QoS converted by `byte(...)`: the configured QoS itself whenever that lies in
0..255, as it does (0..2) in every validated configuration. -/
theorem handleMessage_publish_form (c : Controller) (sys : Sys) (topic payload : Bytes)
    (e : Effect) (he : e ∈ c.handleMessage sys topic payload) (hp : e.isPublish = true) :
    ∃ body, e = .publish (c.config.MQTT.Topic ++ str "/response")
        (byteOfInt c.config.MQTT.QoS) false body ∧
      (0 ≤ c.config.MQTT.QoS → c.config.MQTT.QoS ≤ 255 →
        ((byteOfInt c.config.MQTT.QoS : Nat) : Int) = c.config.MQTT.QoS) := by
  obtain ⟨cmd, hcmd⟩ := parseCommand_total payload
  simp only [Controller.handleMessage, hcmd, List.mem_cons] at he
  rcases he with rfl | he
  · simp [Effect.isPublish] at hp
  · obtain ⟨body, hb⟩ := dispatch_mem c sys cmd e he hp
    exact ⟨body, hb, byteOfInt_eq _⟩

/-- C13, witness: the response to "wake:missing" on the sample controller (topic
"home/wake", QoS 1). -/
theorem handleMessage_publish_form_witness :
    Effect.publish (str "home/wake/response") 1 false (str "Error: Device not found: missing") ∈
      sampleController.handleMessage sampleSys (str "home/wake") (str "wake:missing") ∧
    (Effect.publish (str "home/wake/response") 1 false
      (str "Error: Device not found: missing")).isPublish = true ∧
    ∃ body, Effect.publish (str "home/wake/response") 1 false
        (str "Error: Device not found: missing") =
        .publish (sampleController.config.MQTT.Topic ++ str "/response")
          (byteOfInt sampleController.config.MQTT.QoS) false body ∧
      (0 ≤ sampleController.config.MQTT.QoS → sampleController.config.MQTT.QoS ≤ 255 →
        ((byteOfInt sampleController.config.MQTT.QoS : Nat) : Int) =
          sampleController.config.MQTT.QoS) :=
  ⟨by decide, rfl,
    handleMessage_publish_form sampleController sampleSys (str "home/wake") (str "wake:missing")
      (.publish (str "home/wake/response") 1 false (str "Error: Device not found: missing"))
      (by decide) rfl⟩

theorem sample_first_nas1 : ∀ j e, j < 1 → sampleController.config.Devices.get? j = some e →
    e.Name ≠ str "nas1" := by
  intro j e hj he
  have hj0 : j = 0 := by omega
  subst hj0
  have h0 : sampleController.config.Devices.get? 0 =
      some ⟨str "pc", str "aa:bb:cc:dd:ee:ff", str "192.168.1.50", 0⟩ := rfl
  rw [h0] at he
  have : e = ⟨str "pc", str "aa:bb:cc:dd:ee:ff", str "192.168.1.50", 0⟩ :=
    (Option.some.inj he).symm
  subst this
  decide

theorem filter_isPublish_found (c : Controller) (h : c.mqtt.IsConnected = some true)
    (pre t : List Effect) (msg message : Bytes) (hpre : ∀ e ∈ pre, e.isPublish = false)
    (ht : ∀ e ∈ t, e.isNet = true) :
    (pre ++ (t ++ .log msg :: c.publishResponse message)).filter Effect.isPublish =
      [.publish (c.config.MQTT.Topic ++ str "/response") (byteOfInt c.config.MQTT.QoS) false
        message] := by
  obtain ⟨r, hr, hlog⟩ := publishResponse_connected c h message
  have hpre2 : pre.filter Effect.isPublish = [] := by
    rw [List.filter_eq_nil_iff]
    intro e he
    simp [hpre e he]
  rw [hr]
  simp only [List.filter_append, hpre2, filter_isPublish_of_isNet t ht, List.nil_append,
    List.filter_cons, Effect.isPublish, Bool.false_eq_true, if_false, if_true,
    filter_isPublish_of_isLog r hlog]

theorem not_panic_found (c : Controller) (h : c.mqtt.IsConnected = some true)
    (pre t : List Effect) (msg message : Bytes) (hpre : Effect.panic ∉ pre)
    (ht : ∀ e ∈ t, e.isNet = true) :
    Effect.panic ∉ pre ++ (t ++ .log msg :: c.publishResponse message) := by
  obtain ⟨r, hr, hlog⟩ := publishResponse_connected c h message
  rw [hr]
  simp only [List.mem_append, List.mem_cons, not_or]
  refine ⟨hpre, not_panic_of_isNet t ht, by simp, by simp, ?_⟩
  intro hp
  have := hlog _ hp
  simp [Effect.isLog] at this

/-- C14: for a Wake command whose device is found, on a connected bus, the handler does not
panic and publishes exactly one response: "Wake-on-LAN packet sent to <name>" when `WakeOnLAN`
returns no error, "Error waking device <name>: <e>" when it returns the error `e`; for a
configured MAC that does not parse, `e` is "invalid MAC address: " and the parser's message. -/
theorem wakeDevice_response (c : Controller) (sys : Sys) (name : Bytes) (i : Nat)
    (d : DeviceConfig) (hd : c.config.Devices.get? i = some d) (hname : d.Name = name)
    (hfirst : ∀ j e, j < i → c.config.Devices.get? j = some e → e.Name ≠ name)
    (hconn : c.mqtt.IsConnected = some true) :
    Effect.panic ∉ c.dispatch sys (.Wake name) ∧
    ((WakeOnLAN sys d.MAC d.IP d.Port).2 = none →
      (c.dispatch sys (.Wake name)).filter Effect.isPublish =
        [.publish (c.config.MQTT.Topic ++ str "/response") (byteOfInt c.config.MQTT.QoS) false
          (str "Wake-on-LAN packet sent to " ++ name)]) ∧
    (∀ e, (WakeOnLAN sys d.MAC d.IP d.Port).2 = some e →
      (c.dispatch sys (.Wake name)).filter Effect.isPublish =
        [.publish (c.config.MQTT.Topic ++ str "/response") (byteOfInt c.config.MQTT.QoS) false
          (str "Error waking device " ++ name ++ str ": " ++ e)]) ∧
    (∀ pe, parseMACAddress d.MAC = .error pe →
      (c.dispatch sys (.Wake name)).filter Effect.isPublish =
        [.publish (c.config.MQTT.Topic ++ str "/response") (byteOfInt c.config.MQTT.QoS) false
          (str "Error waking device " ++ name ++ str ": " ++
            (str "invalid MAC address: " ++ pe))]) := by
  have hfind := findDevice_first name c.config.Devices i d hd hname hfirst
  obtain ⟨msg, hm⟩ := wakeDevice_found c sys name d hfind
  have hnet := WakeOnLAN_isNet sys d.MAC d.IP d.Port
  have hpre : ∀ e ∈ [Effect.log (str "Waking up device: " ++ d.Name ++ str " (MAC: " ++ d.MAC ++
      str ")"), Effect.callWakeOnLAN d.MAC d.IP d.Port], e.isPublish = false := by
    simp [Effect.isPublish]
  have hfil := filter_isPublish_found c hconn _ _ msg
    (match (WakeOnLAN sys d.MAC d.IP d.Port).2 with
      | some err => str "Error waking device " ++ d.Name ++ str ": " ++ err
      | none => str "Wake-on-LAN packet sent to " ++ d.Name) hpre hnet
  have herr : ∀ e, (WakeOnLAN sys d.MAC d.IP d.Port).2 = some e →
      (c.dispatch sys (.Wake name)).filter Effect.isPublish =
        [.publish (c.config.MQTT.Topic ++ str "/response") (byteOfInt c.config.MQTT.QoS) false
          (str "Error waking device " ++ name ++ str ": " ++ e)] := by
    intro e he
    rw [he] at hfil
    simpa only [Controller.dispatch, hm, hname, he] using hfil
  refine ⟨?_, ?_, herr, ?_⟩
  · simp only [Controller.dispatch, hm]
    exact not_panic_found c hconn _ _ _ _ (by simp) hnet
  · intro hok
    rw [hok] at hfil
    simpa only [Controller.dispatch, hm, hname, hok] using hfil
  · intro pe hpe
    exact herr _ (by simp only [WakeOnLAN, hpe])

/-- C14, witness: "nas1" on the sample controller. -/
theorem wakeDevice_response_witness :
    sampleController.config.Devices.get? 1 =
      some ⟨str "nas1", str "00:11:22:33:44:55", str "192.168.1.100", 9⟩ ∧
    sampleController.mqtt.IsConnected = some true ∧
    (sampleController.dispatch sampleSys (.Wake (str "nas1"))).filter Effect.isPublish =
      [.publish (str "home/wake/response") 1 false (str "Wake-on-LAN packet sent to nas1")] ∧
    (Effect.panic ∉ sampleController.dispatch sampleSys (.Wake (str "nas1")) ∧
    ((WakeOnLAN sampleSys (str "00:11:22:33:44:55") (str "192.168.1.100") 9).2 = none →
      (sampleController.dispatch sampleSys (.Wake (str "nas1"))).filter Effect.isPublish =
        [.publish (sampleController.config.MQTT.Topic ++ str "/response")
          (byteOfInt sampleController.config.MQTT.QoS) false
          (str "Wake-on-LAN packet sent to " ++ str "nas1")]) ∧
    (∀ e, (WakeOnLAN sampleSys (str "00:11:22:33:44:55") (str "192.168.1.100") 9).2 = some e →
      (sampleController.dispatch sampleSys (.Wake (str "nas1"))).filter Effect.isPublish =
        [.publish (sampleController.config.MQTT.Topic ++ str "/response")
          (byteOfInt sampleController.config.MQTT.QoS) false
          (str "Error waking device " ++ str "nas1" ++ str ": " ++ e)]) ∧
    (∀ pe, parseMACAddress (str "00:11:22:33:44:55") = .error pe →
      (sampleController.dispatch sampleSys (.Wake (str "nas1"))).filter Effect.isPublish =
        [.publish (sampleController.config.MQTT.Topic ++ str "/response")
          (byteOfInt sampleController.config.MQTT.QoS) false
          (str "Error waking device " ++ str "nas1" ++ str ": " ++
            (str "invalid MAC address: " ++ pe))])) :=
  ⟨rfl, by decide, by decide,
    wakeDevice_response sampleController sampleSys (str "nas1") 1
      ⟨str "nas1", str "00:11:22:33:44:55", str "192.168.1.100", 9⟩ rfl rfl sample_first_nas1
      (by decide)⟩

/-- C15: for a Ping command whose device is found, on a connected bus, `PingHost` is called
once, on that device's IP, and exactly one response is published: "Error pinging device
<name>: <e>" when the prober returns the error `e`; otherwise "Device <name> is reachable,
RTT: <rtt>" when it reports reachable; otherwise "Device <name> is not reachable". -/
theorem pingDevice_response (c : Controller) (sys : Sys) (name : Bytes) (i : Nat)
    (d : DeviceConfig) (hd : c.config.Devices.get? i = some d) (hname : d.Name = name)
    (hfirst : ∀ j e, j < i → c.config.Devices.get? j = some e → e.Name ≠ name)
    (hconn : c.mqtt.IsConnected = some true) :
    probeCalls (c.dispatch sys (.Ping name)) = [d.IP] ∧
    ∃ body, (c.dispatch sys (.Ping name)).filter Effect.isPublish =
        [.publish (c.config.MQTT.Topic ++ str "/response") (byteOfInt c.config.MQTT.QoS) false
          body] ∧
      ((∃ e, (PingHost sys d.IP).2.2.2 = some e ∧
          body = str "Error pinging device " ++ name ++ str ": " ++ e) ∨
        ((PingHost sys d.IP).2.2.2 = none ∧ (PingHost sys d.IP).2.1 = true ∧
          body = str "Device " ++ name ++ str " is reachable, RTT: " ++
            sys.DurationString (PingHost sys d.IP).2.2.1) ∨
        ((PingHost sys d.IP).2.2.2 = none ∧ (PingHost sys d.IP).2.1 = false ∧
          body = str "Device " ++ name ++ str " is not reachable")) := by
  have hfind := findDevice_first name c.config.Devices i d hd hname hfirst
  obtain ⟨msg, hm⟩ := pingDevice_found c sys name d hfind
  have hnet := PingHost_isNet sys d.IP
  have hpre : ∀ e ∈ [Effect.log (str "Pinging device: " ++ d.Name ++ str " (IP: " ++ d.IP ++
      str ")"), Effect.callPingHost d.IP], e.isPublish = false := by
    simp [Effect.isPublish]
  constructor
  · simp only [Controller.dispatch, hm, probeCalls_append, (PingHost_calls sys d.IP).2,
      probeCalls, (publishResponse_calls c _).2, List.append_nil, List.nil_append]
  · refine ⟨(match (PingHost sys d.IP).2 with
        | (_, _, some err) => str "Error pinging device " ++ d.Name ++ str ": " ++ err
        | (true, rtt, none) =>
          str "Device " ++ d.Name ++ str " is reachable, RTT: " ++ sys.DurationString rtt
        | (false, _, none) => str "Device " ++ d.Name ++ str " is not reachable"), ?_, ?_⟩
    · simp only [Controller.dispatch, hm]
      exact filter_isPublish_found c hconn _ _ msg _ hpre hnet
    · rw [hname]
      cases hr : PingHost sys d.IP with
      | mk t r =>
        obtain ⟨ok, rtt, err⟩ := r
        cases ok <;> cases err <;> simp

/-- C15, witness: "nas1" on the sample controller, whose echo command succeeds. -/
theorem pingDevice_response_witness :
    sampleController.config.Devices.get? 1 =
      some ⟨str "nas1", str "00:11:22:33:44:55", str "192.168.1.100", 9⟩ ∧
    sampleController.mqtt.IsConnected = some true ∧
    (sampleController.dispatch sampleSys (.Ping (str "nas1"))).filter Effect.isPublish =
      [.publish (str "home/wake/response") 1 false (str "Device nas1 is reachable, RTT: 1ms")] ∧
    (probeCalls (sampleController.dispatch sampleSys (.Ping (str "nas1"))) =
      [str "192.168.1.100"] ∧
    ∃ body, (sampleController.dispatch sampleSys (.Ping (str "nas1"))).filter Effect.isPublish =
        [.publish (sampleController.config.MQTT.Topic ++ str "/response")
          (byteOfInt sampleController.config.MQTT.QoS) false body] ∧
      ((∃ e, (PingHost sampleSys (str "192.168.1.100")).2.2.2 = some e ∧
          body = str "Error pinging device " ++ str "nas1" ++ str ": " ++ e) ∨
        ((PingHost sampleSys (str "192.168.1.100")).2.2.2 = none ∧
          (PingHost sampleSys (str "192.168.1.100")).2.1 = true ∧
          body = str "Device " ++ str "nas1" ++ str " is reachable, RTT: " ++
            sampleSys.DurationString (PingHost sampleSys (str "192.168.1.100")).2.2.1) ∨
        ((PingHost sampleSys (str "192.168.1.100")).2.2.2 = none ∧
          (PingHost sampleSys (str "192.168.1.100")).2.1 = false ∧
          body = str "Device " ++ str "nas1" ++ str " is not reachable"))) :=
  ⟨rfl, by decide, by decide,
    pingDevice_response sampleController sampleSys (str "nas1") 1
      ⟨str "nas1", str "00:11:22:33:44:55", str "192.168.1.100", 9⟩ rfl rfl sample_first_nas1
      (by decide)⟩

theorem PingHost_fallback (sys : Sys) (host e0 : Bytes)
    (h : sys.DialTimeout (host ++ str ":80") = some e0) :
    PingHost sys host =
      ([.dialTimeout (host ++ str ":80"), .combinedOutput (pingArgv sys.GOOS host)],
        match (sys.CombinedOutput (pingArgv sys.GOOS host)).2 with
        | none => (true, sys.cmdElapsed (pingArgv sys.GOOS host), none)
        | some e =>
          if reportsNoAnswer (sys.CombinedOutput (pingArgv sys.GOOS host)).1 then (false, 0, none)
          else (false, 0, some (str "ping error: " ++ e ++ str ", output: " ++
            (sys.CombinedOutput (pingArgv sys.GOOS host)).1))) := by
  obtain ⟨goos, res, dial, wr, dt, de, co, ce, ds⟩ := sys
  simp only at h
  simp only [PingHost, h, pingArgv, reportsNoAnswer]
  by_cases hg : goos = str "windows"
  · simp only [hg, if_true]
    cases hc : co [str "ping", str "-n", str "1", str "-w", str "3000", host] with
    | mk out err =>
      cases err with
      | none => rfl
      | some e => dsimp only; split_ifs <;> rfl
  · simp only [hg, if_false]
    cases hc : co [str "ping", str "-c", str "1", str "-W", str "3", host] with
    | mk out err =>
      cases err with
      | none => rfl
      | some e => dsimp only; split_ifs <;> rfl

set_option maxRecDepth 100000 in
/-- C16: the result of `PingHost` is fixed by its two probes. If the TCP connect to port 80
succeeds: (reachable, elapsed time, no error), and the echo command is not run. Otherwise the
echo command is run once and: if it exits successfully, (reachable, duration of the command,
no error); if it fails and its output contains "timed out", "100% packet loss" or
"Destination Host Unreachable", (not reachable, 0, no error); for every other failure,
(not reachable, 0, error), the error carrying the command's output. -/
theorem PingHost_result :
    (∀ (sys : Sys) (host : Bytes), sys.DialTimeout (host ++ str ":80") = none →
      (PingHost sys host).2 = (true, sys.dialElapsed (host ++ str ":80"), none) ∧
      ∀ argv, Effect.combinedOutput argv ∉ (PingHost sys host).1) ∧
    (∀ (sys : Sys) (host e0 : Bytes), sys.DialTimeout (host ++ str ":80") = some e0 →
      (PingHost sys host).1 =
        [.dialTimeout (host ++ str ":80"), .combinedOutput (pingArgv sys.GOOS host)]) ∧
    (∀ (sys : Sys) (host e0 out : Bytes), sys.DialTimeout (host ++ str ":80") = some e0 →
      sys.CombinedOutput (pingArgv sys.GOOS host) = (out, none) →
      (PingHost sys host).2 = (true, sys.cmdElapsed (pingArgv sys.GOOS host), none)) ∧
    (∀ (sys : Sys) (host e0 out e : Bytes), sys.DialTimeout (host ++ str ":80") = some e0 →
      sys.CombinedOutput (pingArgv sys.GOOS host) = (out, some e) →
      reportsNoAnswer out = true → (PingHost sys host).2 = (false, 0, none)) ∧
    (∀ (sys : Sys) (host e0 out e : Bytes), sys.DialTimeout (host ++ str ":80") = some e0 →
      sys.CombinedOutput (pingArgv sys.GOOS host) = (out, some e) →
      reportsNoAnswer out = false →
      (PingHost sys host).2 =
          (false, 0, some (str "ping error: " ++ e ++ str ", output: " ++ out)) ∧
        out <:+: str "ping error: " ++ e ++ str ", output: " ++ out) ∧
    PingHost sampleSys (str "192.168.1.100") =
      ([.dialTimeout (str "192.168.1.100:80"),
          .combinedOutput [str "ping", str "-c", str "1", str "-W", str "3",
            str "192.168.1.100"]],
        (true, 1000000, none)) ∧
    (PingHost unreachableSys (str "10.255.255.1")).2 = (false, 0, none) := by
  refine ⟨?_, ?_, ?_, ?_, ?_, by decide, by decide⟩
  · intro sys host h
    simp [PingHost, h]
  · intro sys host e0 h
    rw [PingHost_fallback sys host e0 h]
  · intro sys host e0 out h hc
    rw [PingHost_fallback sys host e0 h, hc]
  · intro sys host e0 out e h hc hr
    rw [PingHost_fallback sys host e0 h, hc]
    simp only [hr, if_true]
  · intro sys host e0 out e h hc hr
    rw [PingHost_fallback sys host e0 h, hc]
    refine ⟨by simp [hr], ?_⟩
    exact ⟨str "ping error: " ++ e ++ str ", output: ", [], by simp⟩

set_option maxRecDepth 100000 in
/-- C17: on a host name that does not exist (the test's own
"invalid.host.name.that.does.not.exist": the TCP attempt fails in the name lookup and the echo
command exits with status 2 reporting an unknown name), `PingHost` returns not reachable with
a non-nil error, and `IsPortOpen` returns closed with the non-nil lookup error. -/
theorem PingHost_IsPortOpen_unknown_host :
    (PingHost noSuchHostSys (str "invalid.host.name.that.does.not.exist")).2 =
      (false, 0, some (str ("ping error: exit status 2, output: " ++
        "ping: invalid.host.name.that.does.not.exist: Name or service not known\n"))) ∧
    (IsPortOpen noSuchHostSys (str "invalid.host.name.that.does.not.exist") 80).2 =
      (false, some (str "dial tcp: lookup invalid.host.name.that.does.not.exist: no such host")) := by
  constructor <;> decide

set_option maxRecDepth 100000 in
/-- C18: `IsPortOpen` tells a timeout or a refused connection from the other failures by the
words "timeout" and "refused" in the message of the error. The name lookup that fails for the
host "refused.invalid" is neither a timeout nor a refused connection, yet its message carries
the host name and the function returns closed without an error, as it does for every host
whose name contains "refused" and cannot be looked up; a connect that the operating system
gives up ("connection timed out") is a timeout, yet it is returned as an error. The rest holds:
open exactly when the connect succeeds, never open with an error, an invalid port is an
error, and an "i/o timeout" or "connection refused" is closed without error. -/
theorem IsPortOpen_misclassifies :
    IsPortOpen refusedNameSys (str "refused.invalid") 80 =
      ([.dialTimeout (str "refused.invalid:80")], (false, none)) ∧
    IsPortOpen osTimeoutSys (str "10.255.255.1") 80 =
      ([.dialTimeout (str "10.255.255.1:80")],
        (false, some (str "dial tcp 10.255.255.1:80: connect: connection timed out"))) ∧
    (∀ (sys : Sys) (host : Bytes) (port : Int),
      sys.DialTimeout (host ++ str ":" ++ fmtInt port) =
        some (str "dial tcp: lookup " ++ host ++ str ": no such host") →
      str "refused" <:+: host →
      IsPortOpen sys host port =
        ([.dialTimeout (host ++ str ":" ++ fmtInt port)], (false, none))) ∧
    (∀ (sys : Sys) (host : Bytes) (port : Int),
      ((IsPortOpen sys host port).2 = (true, none) ↔
        sys.DialTimeout (host ++ str ":" ++ fmtInt port) = none) ∧
      ((IsPortOpen sys host port).2.1 = true ↔
        sys.DialTimeout (host ++ str ":" ++ fmtInt port) = none) ∧
      ¬((IsPortOpen sys host port).2.1 = true ∧ (IsPortOpen sys host port).2.2 ≠ none)) ∧
    IsPortOpen invalidPortSys (str "127.0.0.1") (-1) =
      ([.dialTimeout (str "127.0.0.1:-1")],
        (false, some (str "dial tcp: address -1: invalid port"))) ∧
    IsPortOpen sampleSys (str "127.0.0.1") 22 =
      ([.dialTimeout (str "127.0.0.1:22")], (false, none)) ∧
    IsPortOpen unreachableSys (str "10.255.255.1") 80 =
      ([.dialTimeout (str "10.255.255.1:80")], (false, none)) := by
  refine ⟨by decide, by decide, ?_, ?_, by decide, by decide, by decide⟩
  · intro sys host port hd hinfix
    have hmsg : str "refused" <:+: str "dial tcp: lookup " ++ host ++ str ": no such host" :=
      hinfix.trans ⟨str "dial tcp: lookup ", str ": no such host", rfl⟩
    have hc : stringsContains (str "dial tcp: lookup " ++ host ++ str ": no such host")
        (str "refused") = true := by
      simp only [stringsContains, decide_eq_true_eq]
      exact hmsg
    simp only [IsPortOpen, hd, hc, Bool.or_true, if_true]
  · intro sys host port
    simp only [IsPortOpen]
    cases hd : sys.DialTimeout (host ++ str ":" ++ fmtInt port) with
    | none => simp
    | some e => dsimp only; split_ifs <;> simp

theorem wrapInt64_of_range (x : Int) (h0 : -2 ^ 63 ≤ x) (h1 : x < 2 ^ 63) : wrapInt64 x = x := by
  unfold wrapInt64
  omega

/-- C19: for every configured `StatusInterval` (zero, negative, small, or so large that the
product with one second wraps around in 64 bits) the interval given to the ticker is at least
five seconds. -/
theorem tickerInterval_ge_five :
    (∀ s : Int, 5 * Second ≤ tickerInterval s) ∧
    tickerInterval 0 = 5 * Second ∧ tickerInterval (-3) = 5 * Second ∧
    tickerInterval 2 = 5 * Second ∧ tickerInterval 9223372037 = 5 * Second ∧
    tickerInterval (2 ^ 63 - 1) = 5 * Second ∧
    tickerInterval (-9223372037) = 9223372036709551616 := by
  refine ⟨?_, by decide, by decide, by decide, by decide, by decide, by decide⟩
  intro s
  unfold tickerInterval
  dsimp only
  split_ifs with h
  · exact le_refl _
  · omega

/-- C20, counterexample: for `StatusInterval = 9223372037` the product with one second exceeds
the 64-bit range and wraps to a negative duration, so the interval is five seconds and not
9223372037 seconds. -/
theorem tickerInterval_overflow :
    ¬(tickerInterval 9223372037 = max 9223372037 5 * Second) := by
  decide

/-- C20 (amended): for every `StatusInterval` `s` whose product with one second fits in 64
bits (-9223372036 ≤ s ≤ 9223372036) the ticker interval is `max s 5` seconds: `s` seconds
when `s` is at least 5, five seconds when it is below. -/
theorem tickerInterval_eq_max (s : Int) (h0 : -9223372036 ≤ s) (h1 : s ≤ 9223372036) :
    tickerInterval s = max s 5 * Second ∧
    (5 ≤ s → tickerInterval s = s * Second) ∧
    (s < 5 → tickerInterval s = 5 * Second) := by
  have hw : wrapInt64 (s * Second) = s * Second := by
    apply wrapInt64_of_range <;> simp only [Second] <;> omega
  have key : tickerInterval s = if s < 5 then 5 * Second else s * Second := by
    unfold tickerInterval
    rw [hw]
    dsimp only
    simp only [Second]
    split_ifs <;> omega
  refine ⟨?_, ?_, ?_⟩
  · rw [key]
    split_ifs with h
    · rw [max_eq_right (by omega)]
    · rw [max_eq_left (by omega)]
  · intro h
    rw [key, if_neg (by omega)]
  · intro h
    rw [key, if_pos h]

/-- C20 (amended), witness: an interval of 2 gives five seconds, one of 60 gives sixty. -/
theorem tickerInterval_eq_max_witness :
    (-9223372036 : Int) ≤ 2 ∧ (2 : Int) ≤ 9223372036 ∧
    tickerInterval 60 = 60 * Second ∧
    (tickerInterval 2 = max 2 5 * Second ∧
    ((5 : Int) ≤ 2 → tickerInterval 2 = 2 * Second) ∧
    ((2 : Int) < 5 → tickerInterval 2 = 5 * Second)) :=
  ⟨by decide, by decide, by decide, tickerInterval_eq_max 2 (by decide) (by decide)⟩

theorem untilPanic_eq_self (l : List Effect) (h : Effect.panic ∉ l) : untilPanic l = l := by
  induction l with
  | nil => rfl
  | cons e rest ih =>
    have hrest : Effect.panic ∉ rest := fun hm => h (List.mem_cons_of_mem _ hm)
    have he : e ≠ Effect.panic := fun heq => h (heq ▸ List.mem_cons_self _ _)
    cases e <;> first | exact absurd rfl he | simp only [untilPanic, ih hrest]

theorem publishCalls_append (l1 l2 : List Effect) :
    publishCalls (l1 ++ l2) = publishCalls l1 ++ publishCalls l2 := by
  induction l1 with
  | nil => rfl
  | cons e rest ih => cases e <;> simp [publishCalls, ih]

theorem publishCalls_of_isQuiet (l : List Effect) (h : ∀ e ∈ l, e.isQuiet = true) :
    publishCalls l = [] := by
  induction l with
  | nil => rfl
  | cons e rest ih =>
    have he := h e (List.mem_cons_self _ _)
    have hrest := ih (fun x hx => h x (List.mem_cons_of_mem _ hx))
    cases e <;> simp_all [publishCalls, Effect.isQuiet]

theorem not_panic_of_isQuiet (l : List Effect) (h : ∀ e ∈ l, e.isQuiet = true) :
    Effect.panic ∉ l := by
  intro hp
  have := h _ hp
  simp [Effect.isQuiet] at this

theorem statusDiskBlock_isQuiet (h : Host) (status : StatusInfo) :
    ∀ e ∈ (statusDiskBlock h status).1, e.isQuiet = true := by
  unfold statusDiskBlock
  dsimp only
  split <;> (try split_ifs) <;> (try split) <;> simp [Effect.isQuiet]

theorem deviceDiskBlock_isQuiet (h : Host) (info : DeviceInfo) :
    ∀ e ∈ (deviceDiskBlock h info).1, e.isQuiet = true := by
  unfold deviceDiskBlock
  dsimp only
  split <;> (try split_ifs) <;> (try split) <;> simp [Effect.isQuiet]

theorem collectStatusInfo_isQuiet (h : Host) :
    ∀ e ∈ (collectStatusInfo h).1, e.isQuiet = true := by
  intro e he
  simp only [collectStatusInfo, List.mem_append, List.mem_singleton] at he
  rcases he with (((rfl | he) | he) | he) | he
  · rfl
  · split at he <;> simp at he <;> rcases he with rfl | rfl <;> rfl
  · split at he <;> simp at he <;> rcases he with rfl | rfl <;> rfl
  · split at he <;> simp at he <;> rcases he with rfl | rfl <;> rfl
  · exact statusDiskBlock_isQuiet _ _ e he

theorem collectStatusInfo_ok (h : Host) : ∃ s, (collectStatusInfo h).2 = .ok s :=
  ⟨_, rfl⟩

theorem untilPanic_append (a b : List Effect) (h : Effect.panic ∉ a) :
    untilPanic (a ++ b) = a ++ untilPanic b := by
  induction a with
  | nil => rfl
  | cons e rest ih =>
    have hrest : Effect.panic ∉ rest := fun hm => h (List.mem_cons_of_mem _ hm)
    have he : e ≠ Effect.panic := fun heq => h (heq ▸ List.mem_cons_self _ _)
    cases e <;> first | exact absurd rfl he | simp [untilPanic, ih hrest]

theorem publishCalls_untilPanic_nil (l : List Effect) (h : publishCalls l = []) :
    publishCalls (untilPanic l) = [] := by
  induction l with
  | nil => rfl
  | cons e rest ih => cases e <;> simp_all [publishCalls, untilPanic]

theorem Client_Publish_cases (m : Client) (topic : Bytes) (qos : Nat) (retained : Bool)
    (payload : Bytes) :
    (m.isConnected = false ∧ m.Publish topic qos retained payload =
        ([], some (str "mqtt client not connected"))) ∨
    (m.isConnected = true ∧ m.client = none ∧
      m.Publish topic qos retained payload = ([.panic], none)) ∨
    (m.isConnected = true ∧ m.client.isSome = true ∧
      ∃ r, m.Publish topic qos retained payload = ([.publish topic qos retained payload], r)) := by
  unfold Client.Publish
  cases hc : m.isConnected with
  | false => simp
  | true =>
    cases hp : m.client with
    | none => simp
    | some p =>
      simp only [Bool.not_true, Bool.false_eq_true, if_false]
      cases p.Publish topic qos retained payload <;> simp

theorem sendStatusReport_ok (c : Controlled) (enc : JSONEnc) (h : Host) (js : Bytes)
    (hjs : statusJSON enc h = .ok js) :
    ∃ msg, c.sendStatusReport enc h =
      (collectStatusInfo h).1 ++
        (.callPublish c.config.Controlled.StatusTopic (byteOfInt c.config.MQTT.QoS) false js ::
          ((c.mqtt.Publish c.config.Controlled.StatusTopic (byteOfInt c.config.MQTT.QoS) false
            js).1 ++ [.log msg])) := by
  unfold statusJSON at hjs
  unfold Controlled.sendStatusReport
  cases hcol : collectStatusInfo h with
  | mk t r =>
    rw [hcol] at hjs
    cases r with
    | error err => simp at hjs
    | ok status =>
      simp only at hjs
      simp only [hjs]
      cases hp : c.mqtt.Publish c.config.Controlled.StatusTopic (byteOfInt c.config.MQTT.QoS)
          false js with
      | mk tp r2 =>
        cases r2 with
        | none => exact ⟨str "Status published to " ++ c.config.Controlled.StatusTopic, by simp⟩
        | some e => exact ⟨str "Failed to publish status: " ++ e, by simp⟩

theorem sendStatusReport_error (c : Controlled) (enc : JSONEnc) (h : Host) (err : GoError)
    (hjs : statusJSON enc h = .error err) :
    ∃ msg, c.sendStatusReport enc h = (collectStatusInfo h).1 ++ [.log msg] := by
  unfold statusJSON at hjs
  unfold Controlled.sendStatusReport
  cases hcol : collectStatusInfo h with
  | mk t r =>
    rw [hcol] at hjs
    cases r with
    | error e => exact ⟨_, rfl⟩
    | ok status =>
      simp only at hjs
      simp only [hjs]
      exact ⟨_, rfl⟩

theorem sendDeviceInfo_eq (c : Controlled) (enc : JSONEnc) :
    ∃ msg, c.sendDeviceInfo enc =
      .callPublish (c.config.Controlled.StatusTopic ++ str "/info") (byteOfInt c.config.MQTT.QoS)
          true (deviceJSON enc c) ::
        ((c.mqtt.Publish (c.config.Controlled.StatusTopic ++ str "/info")
          (byteOfInt c.config.MQTT.QoS) true (deviceJSON enc c)).1 ++ [.log msg]) := by
  simp only [Controlled.sendDeviceInfo, jsonMarshalDeviceInfo, deviceJSON]
  cases hp : c.mqtt.Publish (c.config.Controlled.StatusTopic ++ str "/info")
      (byteOfInt c.config.MQTT.QoS) true (jsonObject (c.deviceInfo.jsonFields enc)) with
  | mk tp r2 => cases r2 <;> exact ⟨_, rfl⟩

theorem publishCalls_cons_call (topic : Bytes) (qos : Nat) (retained : Bool) (payload : Bytes)
    (l : List Effect) :
    publishCalls (.callPublish topic qos retained payload :: l) =
      (topic, qos, retained, payload) :: publishCalls l := rfl

theorem publishCalls_cons_log (msg : Bytes) (l : List Effect) :
    publishCalls (.log msg :: l) = publishCalls l := rfl

theorem publishCalls_Client_Publish (m : Client) (topic : Bytes) (qos : Nat) (retained : Bool)
    (payload : Bytes) : publishCalls (m.Publish topic qos retained payload).1 = [] := by
  rcases Client_Publish_cases m topic qos retained payload with ⟨_, h⟩ | ⟨_, _, h⟩ | ⟨_, _, r, h⟩ <;>
    rw [h] <;> rfl

theorem publishCalls_sendStatusReport_ok (c : Controlled) (enc : JSONEnc) (h : Host)
    (js : Bytes) (hjs : statusJSON enc h = .ok js) :
    publishCalls (c.sendStatusReport enc h) =
      [(c.config.Controlled.StatusTopic, byteOfInt c.config.MQTT.QoS, false, js)] := by
  obtain ⟨msg, hm⟩ := sendStatusReport_ok c enc h js hjs
  rw [hm, publishCalls_append, publishCalls_of_isQuiet _ (collectStatusInfo_isQuiet h),
    List.nil_append, publishCalls_cons_call, publishCalls_append, publishCalls_Client_Publish]
  rfl

theorem publishCalls_sendStatusReport_error (c : Controlled) (enc : JSONEnc) (h : Host)
    (err : GoError) (hjs : statusJSON enc h = .error err) :
    publishCalls (c.sendStatusReport enc h) = [] := by
  obtain ⟨msg, hm⟩ := sendStatusReport_error c enc h err hjs
  rw [hm, publishCalls_append, publishCalls_of_isQuiet _ (collectStatusInfo_isQuiet h)]
  rfl

theorem publishCalls_sendDeviceInfo (c : Controlled) (enc : JSONEnc) :
    publishCalls (c.sendDeviceInfo enc) =
      [(c.config.Controlled.StatusTopic ++ str "/info", byteOfInt c.config.MQTT.QoS, true,
        deviceJSON enc c)] := by
  obtain ⟨msg, hm⟩ := sendDeviceInfo_eq c enc
  rw [hm, publishCalls_cons_call, publishCalls_append, publishCalls_Client_Publish]
  rfl

theorem publishCalls_untilPanic_quiet (pre rest : List Effect)
    (h : ∀ e ∈ pre, e.isQuiet = true) :
    publishCalls (untilPanic (pre ++ rest)) = publishCalls (untilPanic rest) := by
  rw [untilPanic_append pre rest (not_panic_of_isQuiet pre h), publishCalls_append,
    publishCalls_of_isQuiet pre h, List.nil_append]

theorem publishCalls_block (m : Client) (topic : Bytes) (qos : Nat) (retained : Bool)
    (payload msg : Bytes) :
    publishCalls (untilPanic (.callPublish topic qos retained payload ::
      ((m.Publish topic qos retained payload).1 ++ [.log msg]))) =
      [(topic, qos, retained, payload)] := by
  have h : publishCalls ((m.Publish topic qos retained payload).1 ++ [.log msg]) = [] := by
    rw [publishCalls_append, publishCalls_Client_Publish]
    rfl
  simp only [untilPanic, publishCalls_cons_call, publishCalls_untilPanic_nil _ h]

theorem agent_handleMessage_status_ok (c : Controlled) (enc : JSONEnc) (h : Host)
    (topic js : Bytes) (hjs : statusJSON enc h = .ok js) :
    publishCalls (c.handleMessage enc h topic (str "status")) =
      [(c.config.Controlled.StatusTopic, byteOfInt c.config.MQTT.QoS, false, js)] := by
  obtain ⟨msg, hm⟩ := sendStatusReport_ok c enc h js hjs
  simp only [Controlled.handleMessage, Controlled.handleMessageSteps, if_true, hm]
  rw [← List.singleton_append, ← List.append_assoc,
    publishCalls_untilPanic_quiet _ _ (by
      intro e he
      simp only [List.mem_append, List.mem_singleton] at he
      rcases he with rfl | he
      · rfl
      · exact collectStatusInfo_isQuiet h e he)]
  exact publishCalls_block _ _ _ _ _ _

theorem agent_handleMessage_status_error (c : Controlled) (enc : JSONEnc) (h : Host)
    (topic : Bytes) (err : GoError) (hjs : statusJSON enc h = .error err) :
    publishCalls (c.handleMessage enc h topic (str "status")) = [] := by
  obtain ⟨msg, hm⟩ := sendStatusReport_error c enc h err hjs
  simp only [Controlled.handleMessage, Controlled.handleMessageSteps, if_true, hm]
  apply publishCalls_untilPanic_nil
  rw [publishCalls_cons_log, publishCalls_append,
    publishCalls_of_isQuiet _ (collectStatusInfo_isQuiet h)]
  rfl

theorem agent_handleMessage_info (c : Controlled) (enc : JSONEnc) (h : Host) (topic : Bytes) :
    publishCalls (c.handleMessage enc h topic (str "info")) =
      [(c.config.Controlled.StatusTopic ++ str "/info", byteOfInt c.config.MQTT.QoS, true,
        deviceJSON enc c)] := by
  obtain ⟨msg, hm⟩ := sendDeviceInfo_eq c enc
  have hne : str "info" ≠ str "status" := by decide
  simp only [Controlled.handleMessage, Controlled.handleMessageSteps, hne, if_false, if_true, hm]
  rw [← List.singleton_append, publishCalls_untilPanic_quiet _ _ (by simp [Effect.isQuiet])]
  exact publishCalls_block _ _ _ _ _ _

theorem agent_handleMessage_other (c : Controlled) (enc : JSONEnc) (h : Host)
    (topic payload : Bytes) (h1 : payload ≠ str "status") (h2 : payload ≠ str "info") :
    c.handleMessage enc h topic payload =
      [.log (str "Received message on topic " ++ topic ++ str ": " ++ payload),
        .log (str "Unknown command: " ++ payload)] := by
  simp only [Controlled.handleMessage, Controlled.handleMessageSteps, h1, h2, if_false]
  rfl

/-- C22, counterexample: on a host whose memory report has a used percentage that is not a
number, the StatusInfo cannot be encoded and the payload "status" causes no publish. -/
theorem agent_status_nan_no_publish :
    publishCalls (sampleAgent.handleMessage sampleEnc nanHost (str "home/nas1") (str "status")) =
      [] ∧
    (publishCalls
      (sampleAgent.handleMessage sampleEnc nanHost (str "home/nas1") (str "status"))).length ≠ 1 := by
  constructor <;> decide

/-- C22 (amended): the handler of the controlled agent maps a payload to calls of `Publish` as
follows. "status": when the StatusInfo collected at that moment can be JSON-encoded, exactly
one, of that StatusInfo, to the status topic, not retained; when it cannot (a percentage that
is NaN or infinite), none. "info": exactly one, of the stored DeviceInfo, to the status topic
followed by "/info", retained. Every other payload: none. -/
theorem agent_handleMessage_publishes :
    (∀ (c : Controlled) (enc : JSONEnc) (h : Host) (topic js : Bytes),
      statusJSON enc h = .ok js →
      publishCalls (c.handleMessage enc h topic (str "status")) =
        [(c.config.Controlled.StatusTopic, byteOfInt c.config.MQTT.QoS, false, js)]) ∧
    (∀ (c : Controlled) (enc : JSONEnc) (h : Host) (topic : Bytes) (err : GoError),
      statusJSON enc h = .error err →
      publishCalls (c.handleMessage enc h topic (str "status")) = []) ∧
    (∀ (c : Controlled) (enc : JSONEnc) (h : Host) (topic : Bytes),
      publishCalls (c.handleMessage enc h topic (str "info")) =
        [(c.config.Controlled.StatusTopic ++ str "/info", byteOfInt c.config.MQTT.QoS, true,
          deviceJSON enc c)]) ∧
    (∀ (c : Controlled) (enc : JSONEnc) (h : Host) (topic payload : Bytes),
      payload ≠ str "status" → payload ≠ str "info" →
      publishCalls (c.handleMessage enc h topic payload) = [] ∧
      publishes (c.handleMessage enc h topic payload) = []) ∧
    publishCalls (sampleAgent.handleMessage sampleEnc sampleHost (str "home/nas1") (str "list")) =
      [] ∧
    publishCalls (sampleAgent.handleMessage sampleEnc sampleHost (str "home/nas1")
      (str "wake:x")) = [] ∧
    publishCalls (sampleAgent.handleMessage sampleEnc sampleHost (str "home/nas1")
      (str "STATUS")) = [] ∧
    publishCalls (sampleAgent.handleMessage sampleEnc sampleHost (str "home/nas1")
      (str "status ")) = [] ∧
    publishCalls (sampleAgent.handleMessage sampleEnc sampleHost (str "home/nas1")
      (str "status")) =
      [(str "home/nas1/status", 1, false,
        str ("\x7b\"timestamp\":1700000000,\"uptime\":3600,\"cpu_usage\":12,\"memory_usage\":50," ++
          "\"disk_usage\":40,\"memory_free\":4000000000,\"disk_free\":60000000000\x7d"))] := by
  refine ⟨agent_handleMessage_status_ok, agent_handleMessage_status_error,
    agent_handleMessage_info, ?_, by decide, by decide, by decide, by decide, by decide⟩
  intro c enc h topic payload h1 h2
  rw [agent_handleMessage_other c enc h topic payload h1 h2]
  exact ⟨rfl, rfl⟩

theorem Client_Publish_wf (m : Client) (hwf : m.isConnected = true → m.client.isSome = true)
    (topic : Bytes) (qos : Nat) (retained : Bool) (payload : Bytes) :
    Effect.panic ∉ (m.Publish topic qos retained payload).1 ∧
    publishes (m.Publish topic qos retained payload).1 =
      if m.isConnected = true then [(topic, qos, retained, payload)] else [] := by
  rcases Client_Publish_cases m topic qos retained payload with
    ⟨hc, h⟩ | ⟨hc, hn, h⟩ | ⟨hc, _, r, h⟩
  · rw [h, hc]
    exact ⟨by simp, rfl⟩
  · have := hwf hc
    rw [hn] at this
    cases this
  · rw [h, hc]
    exact ⟨by simp, rfl⟩

theorem publishes_of_isQuiet (l : List Effect) (h : ∀ e ∈ l, e.isQuiet = true) :
    publishes l = [] := by
  unfold publishes
  rw [List.filterMap_eq_nil_iff]
  intro e he
  have := h e he
  cases e <;> simp_all [Effect.isQuiet, Effect.published]

theorem publishes_append (l1 l2 : List Effect) :
    publishes (l1 ++ l2) = publishes l1 ++ publishes l2 := by
  simp only [publishes, List.filterMap_append]

theorem block_wf (m : Client) (hwf : m.isConnected = true → m.client.isSome = true)
    (topic : Bytes) (qos : Nat) (retained : Bool) (payload msg : Bytes) :
    Effect.panic ∉ Effect.callPublish topic qos retained payload ::
        ((m.Publish topic qos retained payload).1 ++ [.log msg]) ∧
    publishes (Effect.callPublish topic qos retained payload ::
        ((m.Publish topic qos retained payload).1 ++ [.log msg])) =
      if m.isConnected = true then [(topic, qos, retained, payload)] else [] := by
  obtain ⟨hp, hpub⟩ := Client_Publish_wf m hwf topic qos retained payload
  constructor
  · simp only [List.mem_cons, List.mem_append, List.mem_singleton, not_or]
    exact ⟨by simp, hp, by simp⟩
  · have h1 : publishes (Effect.callPublish topic qos retained payload ::
        ((m.Publish topic qos retained payload).1 ++ [.log msg])) =
        publishes ((m.Publish topic qos retained payload).1 ++ [.log msg]) := rfl
    rw [h1, publishes_append, hpub]
    split_ifs <;> rfl

/-- What one report contributes, on a well-formed wrapper: no panic, the calls of `Publish`,
and the publishes that reach the underlying client. -/
theorem sendStatusReport_wf (c : Controlled) (enc : JSONEnc) (h : Host)
    (hwf : c.mqtt.isConnected = true → c.mqtt.client.isSome = true) (js : Bytes)
    (hjs : statusJSON enc h = .ok js) :
    Effect.panic ∉ c.sendStatusReport enc h ∧
    publishes (c.sendStatusReport enc h) =
      if c.mqtt.isConnected = true then
        [(c.config.Controlled.StatusTopic, byteOfInt c.config.MQTT.QoS, false, js)]
      else [] := by
  obtain ⟨msg, hm⟩ := sendStatusReport_ok c enc h js hjs
  obtain ⟨hp, hpub⟩ := block_wf c.mqtt hwf c.config.Controlled.StatusTopic
    (byteOfInt c.config.MQTT.QoS) false js msg
  have hq := collectStatusInfo_isQuiet h
  rw [hm]
  constructor
  · simp only [List.mem_append, not_or]
    exact ⟨not_panic_of_isQuiet _ hq, hp⟩
  · rw [publishes_append, publishes_of_isQuiet _ hq, List.nil_append, hpub]

theorem sendDeviceInfo_wf (c : Controlled) (enc : JSONEnc)
    (hwf : c.mqtt.isConnected = true → c.mqtt.client.isSome = true) :
    Effect.panic ∉ c.sendDeviceInfo enc ∧
    publishes (c.sendDeviceInfo enc) =
      if c.mqtt.isConnected = true then
        [(c.config.Controlled.StatusTopic ++ str "/info", byteOfInt c.config.MQTT.QoS, true,
          deviceJSON enc c)]
      else [] := by
  obtain ⟨msg, hm⟩ := sendDeviceInfo_eq c enc
  rw [hm]
  exact block_wf c.mqtt hwf _ _ _ _ _

/-- The calls of `Publish` that one event causes. -/
theorem publishCalls_handleMessageSteps (c : Controlled) (enc : JSONEnc) (h : Host)
    (topic payload js : Bytes) (hjs : statusJSON enc h = .ok js) :
    publishCalls (c.handleMessageSteps enc h topic payload) =
      if payload = str "status" then
        [(c.config.Controlled.StatusTopic, byteOfInt c.config.MQTT.QoS, false, js)]
      else if payload = str "info" then
        [(c.config.Controlled.StatusTopic ++ str "/info", byteOfInt c.config.MQTT.QoS, true,
          deviceJSON enc c)]
      else [] := by
  unfold Controlled.handleMessageSteps
  rw [publishCalls_cons_log]
  split_ifs with h1 h2
  · exact publishCalls_sendStatusReport_ok c enc h js hjs
  · exact publishCalls_sendDeviceInfo c enc
  · rfl

theorem handleMessageSteps_wf (c : Controlled) (enc : JSONEnc) (h : Host)
    (hwf : c.mqtt.isConnected = true → c.mqtt.client.isSome = true)
    (topic payload js : Bytes) (hjs : statusJSON enc h = .ok js) :
    Effect.panic ∉ c.handleMessageSteps enc h topic payload ∧
    publishes (c.handleMessageSteps enc h topic payload) =
      if c.mqtt.isConnected = true then publishCalls (c.handleMessageSteps enc h topic payload)
      else [] := by
  rw [publishCalls_handleMessageSteps c enc h topic payload js hjs]
  unfold Controlled.handleMessageSteps
  have hcons : ∀ (m : Bytes) (l : List Effect),
      (Effect.panic ∉ Effect.log m :: l ↔ Effect.panic ∉ l) ∧
      publishes (Effect.log m :: l) = publishes l := by
    intro m l
    exact ⟨by simp, rfl⟩
  rw [(hcons _ _).1, (hcons _ _).2]
  split_ifs with h1 h2 h3 h4 h5
  · exact ⟨(sendStatusReport_wf c enc h hwf js hjs).1, by
      rw [(sendStatusReport_wf c enc h hwf js hjs).2, if_pos h2]⟩
  · exact ⟨(sendStatusReport_wf c enc h hwf js hjs).1, by
      rw [(sendStatusReport_wf c enc h hwf js hjs).2, if_neg h2]⟩
  · exact ⟨(sendDeviceInfo_wf c enc hwf).1, by rw [(sendDeviceInfo_wf c enc hwf).2, if_pos h4]⟩
  · exact ⟨(sendDeviceInfo_wf c enc hwf).1, by rw [(sendDeviceInfo_wf c enc hwf).2, if_neg h4]⟩
  · exact ⟨by simp, rfl⟩
  · exact ⟨by simp, rfl⟩

theorem isStatusCall_status (c : Controlled) (q : Nat) (js : Bytes) :
    isStatusCall c (c.config.Controlled.StatusTopic, q, false, js) = true ∧
    isInfoCall c (c.config.Controlled.StatusTopic, q, false, js) = false := by
  simp [isStatusCall, isInfoCall]

theorem isInfoCall_info (c : Controlled) (q : Nat) (js : Bytes) :
    isStatusCall c (c.config.Controlled.StatusTopic ++ str "/info", q, true, js) = false ∧
    isInfoCall c (c.config.Controlled.StatusTopic ++ str "/info", q, true, js) = true := by
  simp [isStatusCall, isInfoCall]

theorem loopSteps_wf (c : Controlled) (enc : JSONEnc) (hosts : Nat → Host)
    (hwf : c.mqtt.isConnected = true → c.mqtt.client.isSome = true)
    (henc : ∀ n, ∃ js, statusJSON enc (hosts n) = .ok js) (events : List AgentEvent) :
    ∀ n, Effect.panic ∉ c.loopSteps enc hosts n events ∧
      (publishCalls (c.loopSteps enc hosts n events)).countP (isStatusCall c) =
        events.countP AgentEvent.isTick + events.countP (AgentEvent.isCommand (str "status")) ∧
      (publishCalls (c.loopSteps enc hosts n events)).countP (isInfoCall c) =
        events.countP (AgentEvent.isCommand (str "info")) ∧
      publishes (c.loopSteps enc hosts n events) =
        if c.mqtt.isConnected = true then publishCalls (c.loopSteps enc hosts n events)
        else [] := by
  induction events with
  | nil =>
    intro n
    refine ⟨by simp [Controlled.loopSteps], rfl, rfl, ?_⟩
    simp only [Controlled.loopSteps]
    split_ifs <;> rfl
  | cons ev rest ih =>
    intro n
    obtain ⟨ihp, ihs, ihi, ihu⟩ := ih (n + 1)
    obtain ⟨js, hjs⟩ := henc n
    cases ev with
    | tick =>
      obtain ⟨hp, hu⟩ := sendStatusReport_wf c enc (hosts n) hwf js hjs
      have hc := publishCalls_sendStatusReport_ok c enc (hosts n) js hjs
      simp only [Controlled.loopSteps, publishCalls_append, publishes_append, hc, hu, ihu,
        List.mem_append, not_or]
      refine ⟨⟨hp, ihp⟩, ?_, ?_, ?_⟩
      · simp only [List.singleton_append, List.countP_cons, ihs, (isStatusCall_status c _ _).1,
          AgentEvent.isTick, AgentEvent.isCommand, if_true, Bool.false_eq_true, if_false]
        omega
      · simp only [List.singleton_append, List.countP_cons, ihi, (isStatusCall_status c _ _).2,
          AgentEvent.isCommand, Bool.false_eq_true, if_false]
      · split_ifs <;> rfl
    | message topic payload =>
      obtain ⟨hp, hu⟩ := handleMessageSteps_wf c enc (hosts n) hwf topic payload js hjs
      have hc := publishCalls_handleMessageSteps c enc (hosts n) topic payload js hjs
      simp only [Controlled.loopSteps, publishCalls_append, publishes_append, hu, ihu,
        List.mem_append, not_or, List.countP_append, ihs, ihi]
      refine ⟨⟨hp, ihp⟩, ?_, ?_, ?_⟩
      · rw [hc]
        simp only [List.countP_cons, AgentEvent.isTick, AgentEvent.isCommand,
          Bool.false_eq_true, if_false, beq_iff_eq]
        have hne : str "info" ≠ str "status" := by decide
        by_cases h1 : payload = str "status"
        · simp [h1, (isStatusCall_status c _ _).1]
          omega
        · by_cases h2 : payload = str "info"
          · simp [h2, hne, (isInfoCall_info c _ _).1]
          · simp [h1, h2]
      · rw [hc]
        simp only [List.countP_cons, AgentEvent.isCommand, beq_iff_eq]
        have hne : str "status" ≠ str "info" := by decide
        by_cases h1 : payload = str "status"
        · simp [h1, hne, (isStatusCall_status c _ _).2]
        · by_cases h2 : payload = str "info"
          · simp [h2, hne.symm, (isInfoCall_info c _ _).2]
            omega
          · simp [h1, h2]
      · split_ifs <;> simp
/-- C21, counterexample: the timer fires once, on a host whose memory report has by then a
used percentage that is not a number; the StatusInfo of the tick cannot be encoded, and the run
issues one StatusInfo publish (the initial one) instead of two. -/
theorem agent_run_nan_tick :
    (publishCalls (sampleAgent.run sampleEnc (fun n => if n = 1 then nanHost else sampleHost)
      [.tick])).countP (isStatusCall sampleAgent) = 1 ∧
    ¬((publishCalls (sampleAgent.run sampleEnc (fun n => if n = 1 then nanHost else sampleHost)
        [.tick])).countP (isStatusCall sampleAgent) =
      1 + [AgentEvent.tick].countP AgentEvent.isTick +
        [AgentEvent.tick].countP (AgentEvent.isCommand (str "status"))) := by
  constructor <;> decide

/-- C21 (amended): in a run in which every StatusInfo collected can be JSON-encoded, the agent
calls `Publish` for a StatusInfo (status topic, not retained) exactly once at the start, once
per tick and once per "status" command, and for the DeviceInfo (status topic followed by
"/info", retained) exactly once at the start and once per "info" command; the first two calls
are the initial StatusInfo and then the DeviceInfo; a report on a tick never carries the
DeviceInfo; and the calls reach the underlying client when the connected flag is set and none
of them does when it is cleared. -/
theorem agent_run_publishes (c : Controlled) (enc : JSONEnc) (hosts : Nat → Host)
    (events : List AgentEvent)
    (hwf : c.mqtt.isConnected = true → c.mqtt.client.isSome = true)
    (henc : ∀ n, ∃ js, statusJSON enc (hosts n) = .ok js) :
    (publishCalls (c.run enc hosts events)).countP (isStatusCall c) =
      1 + events.countP AgentEvent.isTick +
        events.countP (AgentEvent.isCommand (str "status")) ∧
    (publishCalls (c.run enc hosts events)).countP (isInfoCall c) =
      1 + events.countP (AgentEvent.isCommand (str "info")) ∧
    (∃ js rest, statusJSON enc (hosts 0) = .ok js ∧
      publishCalls (c.run enc hosts events) =
        (c.config.Controlled.StatusTopic, byteOfInt c.config.MQTT.QoS, false, js) ::
          (c.config.Controlled.StatusTopic ++ str "/info", byteOfInt c.config.MQTT.QoS, true,
            deviceJSON enc c) :: rest) ∧
    (∀ h, (publishCalls (c.sendStatusReport enc h)).countP (isInfoCall c) = 0) ∧
    publishes (c.run enc hosts events) =
      if c.mqtt.isConnected = true then publishCalls (c.run enc hosts events) else [] := by
  obtain ⟨js, hjs⟩ := henc 0
  obtain ⟨hp0, hu0⟩ := sendStatusReport_wf c enc (hosts 0) hwf js hjs
  have hc0 := publishCalls_sendStatusReport_ok c enc (hosts 0) js hjs
  obtain ⟨hpd, hud⟩ := sendDeviceInfo_wf c enc hwf
  have hcd := publishCalls_sendDeviceInfo c enc
  obtain ⟨hpl, hls, hli, hlu⟩ := loopSteps_wf c enc hosts hwf henc events 1
  have hrun : c.run enc hosts events =
      c.sendStatusReport enc (hosts 0) ++ c.sendDeviceInfo enc ++
        c.loopSteps enc hosts 1 events := by
    unfold Controlled.run
    apply untilPanic_eq_self
    simp only [List.mem_append, not_or]
    exact ⟨⟨hp0, hpd⟩, hpl⟩
  have hcalls : publishCalls (c.run enc hosts events) =
      (c.config.Controlled.StatusTopic, byteOfInt c.config.MQTT.QoS, false, js) ::
        (c.config.Controlled.StatusTopic ++ str "/info", byteOfInt c.config.MQTT.QoS, true,
          deviceJSON enc c) :: publishCalls (c.loopSteps enc hosts 1 events) := by
    rw [hrun, publishCalls_append, publishCalls_append, hc0, hcd]
    rfl
  refine ⟨?_, ?_, ⟨js, _, hjs, hcalls⟩, ?_, ?_⟩
  · rw [hcalls]
    simp only [List.countP_cons, (isStatusCall_status c _ _).1, (isInfoCall_info c _ _).1, hls,
      if_true, Bool.false_eq_true, if_false]
    omega
  · rw [hcalls]
    simp only [List.countP_cons, (isStatusCall_status c _ _).2, (isInfoCall_info c _ _).2, hli,
      if_true, Bool.false_eq_true, if_false]
    omega
  · intro h
    cases hs : statusJSON enc h with
    | ok js2 =>
      rw [publishCalls_sendStatusReport_ok c enc h js2 hs]
      simp only [List.countP_cons, (isStatusCall_status c _ _).2, Bool.false_eq_true, if_false,
        List.countP_nil]
    | error err =>
      rw [publishCalls_sendStatusReport_error c enc h err hs]
      rfl
  · rw [hcalls, hrun, publishes_append, publishes_append, hu0, hud, hlu]
    split_ifs <;> rfl

/-- C21 (amended), witness: two ticks, one "status", one "info" and one unknown command on
the sample agent. -/
theorem agent_run_publishes_witness :
    (sampleAgent.mqtt.isConnected = true → sampleAgent.mqtt.client.isSome = true) ∧
    (∀ n : Nat, ∃ js, statusJSON sampleEnc ((fun _ => sampleHost) n) = .ok js) ∧
    ((publishCalls (sampleAgent.run sampleEnc (fun _ => sampleHost)
        [.tick, .message (str "home/nas1") (str "status"),
          .message (str "home/nas1") (str "info"), .tick,
          .message (str "home/nas1") (str "reboot")])).countP (isStatusCall sampleAgent) =
      1 + [AgentEvent.tick, .message (str "home/nas1") (str "status"),
          .message (str "home/nas1") (str "info"), .tick,
          .message (str "home/nas1") (str "reboot")].countP AgentEvent.isTick +
        [AgentEvent.tick, .message (str "home/nas1") (str "status"),
          .message (str "home/nas1") (str "info"), .tick,
          .message (str "home/nas1") (str "reboot")].countP
            (AgentEvent.isCommand (str "status")) ∧
    (publishCalls (sampleAgent.run sampleEnc (fun _ => sampleHost)
        [.tick, .message (str "home/nas1") (str "status"),
          .message (str "home/nas1") (str "info"), .tick,
          .message (str "home/nas1") (str "reboot")])).countP (isInfoCall sampleAgent) =
      1 + [AgentEvent.tick, .message (str "home/nas1") (str "status"),
          .message (str "home/nas1") (str "info"), .tick,
          .message (str "home/nas1") (str "reboot")].countP
            (AgentEvent.isCommand (str "info")) ∧
    (∃ js rest, statusJSON sampleEnc ((fun _ => sampleHost) 0) = .ok js ∧
      publishCalls (sampleAgent.run sampleEnc (fun _ => sampleHost)
        [.tick, .message (str "home/nas1") (str "status"),
          .message (str "home/nas1") (str "info"), .tick,
          .message (str "home/nas1") (str "reboot")]) =
        (sampleAgent.config.Controlled.StatusTopic, byteOfInt sampleAgent.config.MQTT.QoS,
            false, js) ::
          (sampleAgent.config.Controlled.StatusTopic ++ str "/info",
            byteOfInt sampleAgent.config.MQTT.QoS, true, deviceJSON sampleEnc sampleAgent) ::
          rest) ∧
    (∀ h, (publishCalls (sampleAgent.sendStatusReport sampleEnc h)).countP
      (isInfoCall sampleAgent) = 0) ∧
    publishes (sampleAgent.run sampleEnc (fun _ => sampleHost)
        [.tick, .message (str "home/nas1") (str "status"),
          .message (str "home/nas1") (str "info"), .tick,
          .message (str "home/nas1") (str "reboot")]) =
      if sampleAgent.mqtt.isConnected = true then
        publishCalls (sampleAgent.run sampleEnc (fun _ => sampleHost)
          [.tick, .message (str "home/nas1") (str "status"),
            .message (str "home/nas1") (str "info"), .tick,
            .message (str "home/nas1") (str "reboot")])
      else []) :=
  ⟨fun _ => rfl, fun _ => ⟨_, rfl⟩,
    agent_run_publishes sampleAgent sampleEnc (fun _ => sampleHost)
      [.tick, .message (str "home/nas1") (str "status"),
        .message (str "home/nas1") (str "info"), .tick,
        .message (str "home/nas1") (str "reboot")]
      (fun _ => rfl) (fun _ => ⟨_, rfl⟩)⟩

theorem statusDiskBlock_Timestamp (h : Host) (status : StatusInfo) :
    (statusDiskBlock h status).2.Timestamp = status.Timestamp := by
  unfold statusDiskBlock
  dsimp only
  split <;> (try split_ifs) <;> (try split) <;> rfl

theorem collectStatusInfo_Timestamp (h : Host) (status : StatusInfo)
    (hs : (collectStatusInfo h).2 = .ok status) : status.Timestamp = h.NowUnix := by
  unfold collectStatusInfo at hs
  dsimp only at hs
  injection hs with hs
  rw [← hs, statusDiskBlock_Timestamp]
  split <;> split <;> split <;> rfl

theorem jsonMarshalStatusInfo_ok (enc : JSONEnc) (s : StatusInfo) (js : Bytes)
    (hjs : jsonMarshalStatusInfo enc s = .ok js) :
    ∃ cpu mem disk, jsonFloat enc s.CPUUsage = .ok cpu ∧ jsonFloat enc s.MemoryUsage = .ok mem ∧
      jsonFloat enc s.DiskUsage = .ok disk ∧
      js = jsonObject
        [(str "timestamp", fmtInt s.Timestamp), (str "uptime", fmtInt s.Uptime),
         (str "cpu_usage", cpu), (str "memory_usage", mem), (str "disk_usage", disk),
         (str "memory_free", fmtInt s.MemoryFree), (str "disk_free", fmtInt s.DiskFree)] := by
  unfold jsonMarshalStatusInfo at hjs
  cases hc : jsonFloat enc s.CPUUsage with
  | error e => rw [hc] at hjs; cases hjs
  | ok cpu =>
    cases hm : jsonFloat enc s.MemoryUsage with
    | error e => rw [hc, hm] at hjs; cases hjs
    | ok mem =>
      cases hd : jsonFloat enc s.DiskUsage with
      | error e => rw [hc, hm, hd] at hjs; cases hjs
      | ok disk =>
        rw [hc, hm, hd] at hjs
        injection hjs with hjs
        exact ⟨cpu, mem, disk, rfl, rfl, rfl, hjs.symm⟩

set_option maxRecDepth 100000 in
/-- C23, counterexample: the objects that the sample agent publishes have the keys of the
`json` tags of the two structs; none of the names `timestampUnix`, `uptimeSeconds`,
`cpuUsagePercent`, `memoryUsagePercent`, `memoryFreeBytes`, `diskUsagePercent`,
`diskFreeBytes` occurs in the status object, and none of `ipAddress`, `cpuCores`,
`totalRamBytes`, `totalDiskBytes` in the object published on the info topic. -/
theorem agent_payload_not_camelCase :
    publishCalls (sampleAgent.sendStatusReport sampleEnc sampleHost) =
      [(str "home/nas1/status", 1, false,
        str ("\x7b\"timestamp\":1700000000,\"uptime\":3600,\"cpu_usage\":12,\"memory_usage\":50," ++
          "\"disk_usage\":40,\"memory_free\":4000000000,\"disk_free\":60000000000\x7d"))] ∧
    (∀ p ∈ publishCalls (sampleAgent.sendStatusReport sampleEnc sampleHost),
      ∀ k ∈ [str "timestampUnix", str "uptimeSeconds", str "cpuUsagePercent",
        str "memoryUsagePercent", str "memoryFreeBytes", str "diskUsagePercent",
        str "diskFreeBytes"], stringsContains p.2.2.2 k = false) ∧
    publishCalls (sampleAgent.sendDeviceInfo sampleEnc) =
      [(str "home/nas1/status/info", 1, true,
        str ("\x7b\"name\":\"nas1\",\"hostname\":\"nas1\",\"ip_address\":\"192.168.1.100\"," ++
          "\"os\":\"linux\",\"cpu_cores\":4,\"total_ram\":8000000000," ++
          "\"total_disk\":100000000000\x7d"))] ∧
    (∀ p ∈ publishCalls (sampleAgent.sendDeviceInfo sampleEnc),
      ∀ k ∈ [str "ipAddress", str "cpuCores", str "totalRamBytes", str "totalDiskBytes"],
        stringsContains p.2.2.2 k = false) := by
  refine ⟨by decide, ?_, by decide, ?_⟩
  · decide
  · decide

/-- C23 (amended): the JSON object of a StatusInfo has, in this order, the keys `timestamp`,
`uptime`, `cpu_usage`, `memory_usage`, `disk_usage`, `memory_free` and `disk_free`, the
timestamp being the decimal integer of the Unix time of the collection; the JSON object of a
DeviceInfo has the keys `name`, `hostname`, `ip_address`, `os`, `cpu_cores`, `total_ram` and
`total_disk`; and these objects are the payloads of the calls to `Publish` on the status topic
and on the status topic followed by "/info". -/
theorem agent_payload_keys (c : Controlled) (enc : JSONEnc) (h : Host) :
    (∀ js, statusJSON enc h = .ok js →
      ∃ status cpu mem disk, (collectStatusInfo h).2 = .ok status ∧
        jsonFloat enc status.CPUUsage = .ok cpu ∧ jsonFloat enc status.MemoryUsage = .ok mem ∧
        jsonFloat enc status.DiskUsage = .ok disk ∧
        js = jsonObject
          [(str "timestamp", fmtInt h.NowUnix), (str "uptime", fmtInt status.Uptime),
           (str "cpu_usage", cpu), (str "memory_usage", mem), (str "disk_usage", disk),
           (str "memory_free", fmtInt status.MemoryFree),
           (str "disk_free", fmtInt status.DiskFree)] ∧
        publishCalls (c.sendStatusReport enc h) =
          [(c.config.Controlled.StatusTopic, byteOfInt c.config.MQTT.QoS, false, js)]) ∧
    publishCalls (c.sendDeviceInfo enc) =
      [(c.config.Controlled.StatusTopic ++ str "/info", byteOfInt c.config.MQTT.QoS, true,
        jsonObject
          [(str "name", enc.String c.deviceInfo.Name),
           (str "hostname", enc.String c.deviceInfo.Hostname),
           (str "ip_address", enc.String c.deviceInfo.IPAddress),
           (str "os", enc.String c.deviceInfo.OS),
           (str "cpu_cores", fmtInt c.deviceInfo.CPUCores),
           (str "total_ram", fmtInt c.deviceInfo.TotalRAM),
           (str "total_disk", fmtInt c.deviceInfo.TotalDisk)])] ∧
    (∀ d, jsonMarshalDeviceInfo enc d = .ok (jsonObject
          [(str "name", enc.String d.Name), (str "hostname", enc.String d.Hostname),
           (str "ip_address", enc.String d.IPAddress), (str "os", enc.String d.OS),
           (str "cpu_cores", fmtInt d.CPUCores), (str "total_ram", fmtInt d.TotalRAM),
           (str "total_disk", fmtInt d.TotalDisk)])) ∧
    statusJSON sampleEnc sampleHost = .ok (str
      ("\x7b\"timestamp\":1700000000,\"uptime\":3600,\"cpu_usage\":12,\"memory_usage\":50," ++
        "\"disk_usage\":40,\"memory_free\":4000000000,\"disk_free\":60000000000\x7d")) := by
  refine ⟨?_, ?_, fun d => rfl, by decide⟩
  · intro js hjs
    obtain ⟨status, hs⟩ := collectStatusInfo_ok h
    have hjs2 : jsonMarshalStatusInfo enc status = .ok js := by
      unfold statusJSON at hjs
      rw [hs] at hjs
      exact hjs
    obtain ⟨cpu, mem, disk, hc, hm, hd, hj⟩ := jsonMarshalStatusInfo_ok enc status js hjs2
    refine ⟨status, cpu, mem, disk, hs, hc, hm, hd, ?_,
      publishCalls_sendStatusReport_ok c enc h js hjs⟩
    rw [← collectStatusInfo_Timestamp h status hs]
    exact hj
  · rw [publishCalls_sendDeviceInfo]
    rfl

theorem str_controller_ne_controlled : str "controller" ≠ str "controlled" := by decide

/-- C24: `validateConfig` returns nil exactly when the mode is "controller" or "controlled",
the broker is not empty, a controller has at least one device, the MQTT version is 3, 4 or 5
and the QoS is between 0 and 2; otherwise it returns the error of the first check that fails,
in the order mode, broker, devices, version, QoS. A controller without broker and version
reports the empty broker, one with a broker but neither devices nor version reports the
missing devices, and QoS 3 gives "invalid QoS level: 3, must be 0, 1, or 2". -/
theorem validateConfig_checks (config : Config) :
    (validateConfig config = none ↔
      (config.Mode = str "controller" ∨ config.Mode = str "controlled") ∧
      config.MQTT.Broker ≠ [] ∧
      (config.Mode = str "controller" → config.Devices ≠ []) ∧
      (config.MQTT.Version = 3 ∨ config.MQTT.Version = 4 ∨ config.MQTT.Version = 5) ∧
      0 ≤ config.MQTT.QoS ∧ config.MQTT.QoS ≤ 2) ∧
    (¬(config.Mode = str "controller" ∨ config.Mode = str "controlled") →
      validateConfig config =
        some (str "invalid mode: " ++ config.Mode ++
          str ", must be 'controller' or 'controlled'")) ∧
    ((config.Mode = str "controller" ∨ config.Mode = str "controlled") →
      config.MQTT.Broker = [] →
      validateConfig config = some (str "MQTT broker cannot be empty")) ∧
    (config.Mode = str "controller" → config.MQTT.Broker ≠ [] → config.Devices = [] →
      validateConfig config = some (str "no devices configured for controller mode")) ∧
    ((config.Mode = str "controller" ∨ config.Mode = str "controlled") →
      config.MQTT.Broker ≠ [] → (config.Mode = str "controller" → config.Devices ≠ []) →
      ¬(config.MQTT.Version = 3 ∨ config.MQTT.Version = 4 ∨ config.MQTT.Version = 5) →
      validateConfig config =
        some (str "invalid MQTT version: " ++ fmtInt config.MQTT.Version ++
          str ", must be 3, 4, or 5")) ∧
    ((config.Mode = str "controller" ∨ config.Mode = str "controlled") →
      config.MQTT.Broker ≠ [] → (config.Mode = str "controller" → config.Devices ≠ []) →
      (config.MQTT.Version = 3 ∨ config.MQTT.Version = 4 ∨ config.MQTT.Version = 5) →
      ¬(0 ≤ config.MQTT.QoS ∧ config.MQTT.QoS ≤ 2) →
      validateConfig config =
        some (str "invalid QoS level: " ++ fmtInt config.MQTT.QoS ++
          str ", must be 0, 1, or 2")) ∧
    validateConfig validControllerConfig = none ∧
    validateConfig validControlledConfig = none ∧
    validateConfig missingBrokerConfig = some (str "MQTT broker cannot be empty") ∧
    validateConfig noDevicesConfig = some (str "no devices configured for controller mode") ∧
    validateConfig invalidQoSConfig = some (str "invalid QoS level: 3, must be 0, 1, or 2") := by
  have hne := str_controller_ne_controlled
  have hlen : config.Devices.length = 0 ↔ config.Devices = [] := List.length_eq_zero
  refine ⟨?_, ?_, ?_, ?_, ?_, ?_, by decide, by decide, by decide, by decide, by decide⟩
  · unfold validateConfig
    split_ifs with h1 h2 h3 h4 h5
    · simp only [reduceCtorEq, false_iff]
      rintro ⟨hm, -⟩
      rcases hm with hm | hm
      · exact h1.1 hm
      · exact h1.2 hm
    · simp only [reduceCtorEq, false_iff]
      rintro ⟨-, hb, -⟩
      exact hb h2
    · simp only [reduceCtorEq, false_iff]
      rintro ⟨-, -, hd, -⟩
      exact hd h3.1 (hlen.1 h3.2)
    · simp only [reduceCtorEq, false_iff]
      rintro ⟨-, -, -, hv, -⟩
      rcases hv with hv | hv | hv
      · exact h4.1 hv
      · exact h4.2.1 hv
      · exact h4.2.2 hv
    · simp only [reduceCtorEq, false_iff]
      rintro ⟨-, -, -, -, hq1, hq2⟩
      omega
    · simp only [true_iff]
      refine ⟨?_, h2, ?_, ?_, ?_, ?_⟩
      · by_contra hm
        exact h1 ⟨fun h => hm (Or.inl h), fun h => hm (Or.inr h)⟩
      · intro hm hd
        exact h3 ⟨hm, hlen.2 hd⟩
      · by_contra hv
        exact h4 ⟨fun h => hv (Or.inl h), fun h => hv (Or.inr (Or.inl h)),
          fun h => hv (Or.inr (Or.inr h))⟩
      · omega
      · omega
  · intro hm
    unfold validateConfig
    rw [if_pos ⟨fun h => hm (Or.inl h), fun h => hm (Or.inr h)⟩]
  · intro hm hb
    unfold validateConfig
    rw [if_neg (by tauto), if_pos hb]
  · intro hm hb hd
    unfold validateConfig
    rw [if_neg (by tauto), if_neg hb, if_pos ⟨hm, hlen.2 hd⟩]
  · intro hm hb hd hv
    unfold validateConfig
    rw [if_neg (by tauto), if_neg hb, if_neg (fun h => hd h.1 (hlen.1 h.2)), if_pos (by tauto)]
  · intro hm hb hd hv hq
    unfold validateConfig
    rw [if_neg (by tauto), if_neg hb, if_neg (fun h => hd h.1 (hlen.1 h.2)), if_neg (by tauto),
      if_pos (by omega)]

set_option maxRecDepth 100000 in
/-- C25, counterexample: the configuration `badMACConfig`, whose only device has the
five-group address "00:11:22:33:44", is accepted by `validateConfig`, although
`parseMACAddress` rejects that address; the fault is first met when the wake command for the
device is executed, which logs and publishes the error of `WakeOnLAN`. -/
theorem validateConfig_accepts_bad_mac :
    validateConfig badMACConfig = none ∧
    badMACConfig.Devices.map (fun d => parseMACAddress d.MAC) =
      [.error (str "invalid MAC address length: 0011223344")] ∧
    badMACController.handleMessage sampleSys (str "smartwaker/test") (str "wake:test-device") =
      [.log (str "Received message on topic smartwaker/test: wake:test-device"),
       .log (str "Waking up device: test-device (MAC: 00:11:22:33:44)"),
       .callWakeOnLAN (str "00:11:22:33:44") (str "192.168.1.100") 9,
       .log (str ("Failed to wake device test-device: invalid MAC address: " ++
          "invalid MAC address length: 0011223344")),
       .publish (str "smartwaker/test/response") 1 false
         (str ("Error waking device test-device: invalid MAC address: " ++
          "invalid MAC address length: 0011223344"))] := by
  refine ⟨by decide, by decide, by decide⟩

/-- C25 (amended): configuration validation does not look at the hardware addresses: the
result of `validateConfig` is the same whatever the MAC strings of the devices are, so a
configuration with a malformed address can be accepted. An address that `parseMACAddress`
accepts decodes to exactly 6 bytes; a malformed one is detected when the wake command for its
device is executed: `WakeOnLAN` is called, fails with "invalid MAC address: " and the parser's
message before any network effect, and the failure is logged and reported on the bus. -/
theorem validateConfig_ignores_mac :
    (∀ (config : Config) (f : DeviceConfig → Bytes),
      validateConfig
        { config with Devices := config.Devices.map (fun d => { d with MAC := f d }) } =
      validateConfig config) ∧
    (∀ s mac, parseMACAddress s = .ok mac → mac.length = 6) ∧
    (∀ (c : Controller) (sys : Sys) (name : Bytes) (d : DeviceConfig) (e : GoError),
      findDevice name c.config.Devices = some d → parseMACAddress d.MAC = .error e →
      c.wakeDevice sys name =
        [.log (str "Waking up device: " ++ d.Name ++ str " (MAC: " ++ d.MAC ++ str ")"),
         .callWakeOnLAN d.MAC d.IP d.Port,
         .log (str "Failed to wake device " ++ d.Name ++ str ": " ++
           (str "invalid MAC address: " ++ e))] ++
        c.publishResponse (str "Error waking device " ++ d.Name ++ str ": " ++
           (str "invalid MAC address: " ++ e))) ∧
    validateConfig badMACConfig = none := by
  refine ⟨?_, parseMACAddress_length, ?_, by decide⟩
  · intro config f
    simp only [validateConfig, List.length_map]
  · intro c sys name d e hf he
    simp only [Controller.wakeDevice, hf, WakeOnLAN, he, List.nil_append, List.cons_append]

theorem hexDecodeString_first_bad :
    ∀ s : Bytes, s.length % 2 = 0 → (∃ c ∈ s, isHexDigit c = false) →
      ∃ pre b post, s = pre ++ b :: post ∧ (∀ c ∈ pre, isHexDigit c = true) ∧
        isHexDigit b = false ∧ (hexDecodeString s).2 = some (.InvalidByteError b)
  | [], _, h => by simp at h
  | [p], hl, _ => by simp at hl
  | p :: q :: rest, hl, h => by
    cases hp : fromHexChar p with
    | none =>
      exact ⟨[], p, q :: rest, rfl, by simp, (fromHexChar_eq_none p).1 hp, by
        simp only [hexDecodeString, hp]⟩
    | some a =>
      have hpx : isHexDigit p = true := by
        cases hx : isHexDigit p with
        | true => rfl
        | false => rw [(fromHexChar_eq_none p).2 hx] at hp; cases hp
      cases hq : fromHexChar q with
      | none =>
        refine ⟨[p], q, rest, rfl, ?_, (fromHexChar_eq_none q).1 hq, by
          simp only [hexDecodeString, hp, hq]⟩
        intro c hc
        simp only [List.mem_singleton] at hc
        rw [hc]
        exact hpx
      | some b =>
        have hqx : isHexDigit q = true := by
          cases hx : isHexDigit q with
          | true => rfl
          | false => rw [(fromHexChar_eq_none q).2 hx] at hq; cases hq
        have hrest : ∃ c ∈ rest, isHexDigit c = false := by
          obtain ⟨c, hc, hcx⟩ := h
          simp only [List.mem_cons] at hc
          rcases hc with rfl | rfl | hc
          · rw [hpx] at hcx; cases hcx
          · rw [hqx] at hcx; cases hcx
          · exact ⟨c, hc, hcx⟩
        obtain ⟨pre, bad, post, hs, hpre, hbad, herr⟩ :=
          hexDecodeString_first_bad rest (by simp only [List.length_cons] at hl; omega) hrest
        refine ⟨p :: q :: pre, bad, post, by rw [hs]; rfl, ?_, hbad, by
          simp only [hexDecodeString, hp, hq, herr]⟩
        intro c hc
        simp only [List.mem_cons] at hc
        rcases hc with rfl | rfl | hc
        · exact hpx
        · exact hqx
        · exact hpre c hc

theorem removeSeparators_of_no_separator (s : Bytes) (h : ∀ c ∈ s, isSeparator c = false) :
    removeSeparators s = s := by
  unfold removeSeparators
  rw [List.filter_eq_self]
  intro c hc
  simp [h c hc]

/-- C26, counterexample: for the five-group address "00:11:22:33:44" the message carries the
digits without the colons, and for "00:11:22:33:44:ZZ" it names only the byte 'Z'; in neither
case does the address as it was given occur in the message. -/
theorem parseMACAddress_error_not_quoting :
    parseMACAddress (str "00:11:22:33:44") =
      .error (str "invalid MAC address length: 0011223344") ∧
    stringsContains (str "invalid MAC address length: 0011223344") (str "00:11:22:33:44") =
      false ∧
    parseMACAddress (str "00:11:22:33:44:ZZ") =
      .error (str "failed to decode MAC address: encoding/hex: invalid byte: U+005A 'Z'") ∧
    stringsContains (str "failed to decode MAC address: encoding/hex: invalid byte: U+005A 'Z'")
      (str "00:11:22:33:44:ZZ") = false := by
  refine ⟨by decide, by decide, by decide, by decide⟩

/-- C26 (amended): when `parseMACAddress` fails because of the length, the message is
"invalid MAC address length: " followed by the address with every ':', '-' and '.' removed
(the address as given only when it has no separator); when it fails because of a byte that is
not a hexadecimal digit, the message is "failed to decode MAC address: encoding/hex: invalid
byte: " followed by the first such byte in the `%#U` format, and does not contain the
address. -/
theorem parseMACAddress_error_message :
    (∀ s e, parseMACAddress s = .error e →
      ((removeSeparators s).length ≠ 12 ∧
        e = str "invalid MAC address length: " ++ removeSeparators s) ∨
      ((removeSeparators s).length = 12 ∧
        ∃ pre b post, removeSeparators s = pre ++ b :: post ∧
          (∀ c ∈ pre, isHexDigit c = true) ∧ isHexDigit b = false ∧
          e = str "failed to decode MAC address: encoding/hex: invalid byte: " ++
            fmtSharpU b)) ∧
    (∀ s, (removeSeparators s).length ≠ 12 →
      parseMACAddress s = .error (str "invalid MAC address length: " ++ removeSeparators s)) ∧
    (∀ s, (∀ c ∈ s, isSeparator c = false) → s.length ≠ 12 →
      parseMACAddress s = .error (str "invalid MAC address length: " ++ s)) ∧
    (∀ s pre b post, (removeSeparators s).length = 12 → removeSeparators s = pre ++ b :: post →
      (∀ c ∈ pre, isHexDigit c = true) → isHexDigit b = false →
      parseMACAddress s =
        .error (str "failed to decode MAC address: encoding/hex: invalid byte: " ++
          fmtSharpU b)) ∧
    parseMACAddress (str "00:11:22:33:44") =
      .error (str "invalid MAC address length: 0011223344") ∧
    parseMACAddress (str "0011223344") =
      .error (str "invalid MAC address length: 0011223344") ∧
    parseMACAddress (str "00:11:22:33:44:ZZ") =
      .error (str "failed to decode MAC address: encoding/hex: invalid byte: U+005A 'Z'") := by
  have hdecode : ∀ s, (removeSeparators s).length = 12 →
      (∃ c ∈ removeSeparators s, isHexDigit c = false) →
      ∃ pre b post, removeSeparators s = pre ++ b :: post ∧
        (∀ c ∈ pre, isHexDigit c = true) ∧ isHexDigit b = false ∧
        parseMACAddress s =
          .error (str "failed to decode MAC address: encoding/hex: invalid byte: " ++
            fmtSharpU b) := by
    intro s hlen hbad
    obtain ⟨pre, b, post, hs, hpre, hb, herr⟩ :=
      hexDecodeString_first_bad (removeSeparators s) (by omega) hbad
    refine ⟨pre, b, post, hs, hpre, hb, ?_⟩
    rw [parseMACAddress_eq, if_neg (by simp [hlen])]
    cases hd : hexDecodeString (removeSeparators s) with
    | mk mac r =>
      rw [hd] at herr
      simp only at herr
      rw [herr]
      simp only [HexError.Error, List.append_assoc]
      rfl
  have hlength : ∀ s, (removeSeparators s).length ≠ 12 →
      parseMACAddress s = .error (str "invalid MAC address length: " ++ removeSeparators s) := by
    intro s hlen
    rw [parseMACAddress_eq, if_pos hlen]
  refine ⟨?_, hlength, ?_, ?_, by decide, by decide, by decide⟩
  · intro s e he
    by_cases hlen : (removeSeparators s).length = 12
    · right
      refine ⟨hlen, ?_⟩
      by_cases hhex : ∀ c ∈ removeSeparators s, isHexDigit c = true
      · rw [parseMACAddress_eq, if_neg (by simp [hlen]),
          hexDecodeString_ok _ hhex (by omega)] at he
        cases he
      · have hbad : ∃ c ∈ removeSeparators s, isHexDigit c = false := by
          by_contra hcon
          apply hhex
          intro c hc
          cases hx : isHexDigit c with
          | true => rfl
          | false => exact absurd ⟨c, hc, hx⟩ hcon
        obtain ⟨pre, b, post, hs, hpre, hb, hp⟩ := hdecode s hlen hbad
        rw [hp] at he
        injection he with he
        exact ⟨pre, b, post, hs, hpre, hb, he.symm⟩
    · left
      rw [hlength s hlen] at he
      injection he with he
      exact ⟨hlen, he.symm⟩
  · intro s hs hlen
    have hrs := removeSeparators_of_no_separator s hs
    have := hlength s (by rw [hrs]; exact hlen)
    rw [hrs] at this
    exact this
  · intro s pre b post hlen hs hpre hb
    obtain ⟨pre2, b2, post2, hs2, hpre2, hb2, hp⟩ :=
      hdecode s hlen ⟨b, by rw [hs]; simp, hb⟩
    have hbb : b2 = b := by
      rw [hs] at hs2
      clear hp hlen hs
      induction pre generalizing pre2 with
      | nil =>
        cases pre2 with
        | nil => simp only [List.nil_append, List.cons.injEq] at hs2; exact hs2.1.symm
        | cons x xs =>
          simp only [List.nil_append, List.cons_append, List.cons.injEq] at hs2
          have := hpre2 x (by simp)
          rw [← hs2.1, hb] at this
          cases this
      | cons y ys ih =>
        cases pre2 with
        | nil =>
          simp only [List.nil_append, List.cons_append, List.cons.injEq] at hs2
          have := hpre y (by simp)
          rw [hs2.1, hb2] at this
          cases this
        | cons x xs =>
          simp only [List.cons_append, List.cons.injEq] at hs2
          exact ih (fun c hc => hpre c (List.mem_cons_of_mem _ hc)) xs hs2.2
            (fun c hc => hpre2 c (List.mem_cons_of_mem _ hc))
    rw [hp, hbb]

theorem Client_step_wf (cfg : MQTTConfig) (c : Client) (op : ClientOp)
    (hwf : c.isConnected = true → c.client.isSome = true) :
    (Client.step cfg c op).isConnected = true → (Client.step cfg c op).client.isSome = true := by
  cases op with
  | connect fresh =>
    simp only [Client.step, Client.Connect]
    cases fresh.Connect with
    | none => intro _; rfl
    | some e => exact hwf
  | disconnect =>
    simp only [Client.step, Client.Disconnect]
    split_ifs
    · intro h; cases h
    · exact hwf
  | connectionLost err => intro h; cases h
  | onConnect => exact hwf
  | publish _ _ _ _ => exact hwf
  | subscribe _ _ => exact hwf

theorem Client_step_flag (cfg : MQTTConfig) (c : Client) (op : ClientOp)
    (hwf : c.isConnected = true → c.client.isSome = true) :
    (Client.step cfg c op).isConnected =
      if op.isConnectOK = true then true
      else if op.isDrop = true then false else c.isConnected := by
  cases op with
  | connect fresh =>
    simp only [Client.step, Client.Connect, ClientOp.isConnectOK, ClientOp.isDrop]
    cases fresh.Connect with
    | none => rfl
    | some e => rfl
  | disconnect =>
    simp only [Client.step, Client.Disconnect, ClientOp.isConnectOK, ClientOp.isDrop]
    cases hc : c.isConnected with
    | false => simp [hc]
    | true => simp [hwf hc]
  | connectionLost err => rfl
  | onConnect => rfl
  | publish _ _ _ _ => rfl
  | subscribe _ _ => rfl

theorem Client_after_concat (cfg : MQTTConfig) (ops : List ClientOp) (op : ClientOp) :
    Client.after cfg (ops ++ [op]) = Client.step cfg (Client.after cfg ops) op := by
  simp only [Client.after, List.foldl_append, List.foldl_cons, List.foldl_nil]

theorem Client_after_wf (cfg : MQTTConfig) (ops : List ClientOp) :
    (Client.after cfg ops).isConnected = true → (Client.after cfg ops).client.isSome = true := by
  induction ops using List.reverseRecOn with
  | nil => intro h; cases h
  | append_singleton ops op ih =>
    rw [Client_after_concat]
    exact Client_step_wf cfg _ op ih

theorem isDrop_of_isConnectOK (op : ClientOp) (h : op.isConnectOK = true) :
    op.isDrop = false := by
  cases op <;> first | rfl | cases h

theorem Client_after_flag (cfg : MQTTConfig) (ops : List ClientOp) :
    (Client.after cfg ops).isConnected = true ↔
      ∃ pre op post, ops = pre ++ op :: post ∧ op.isConnectOK = true ∧
        ∀ o ∈ post, o.isDrop = false := by
  induction ops using List.reverseRecOn with
  | nil =>
    constructor
    · intro h; cases h
    · rintro ⟨pre, op, post, h, -⟩
      simp at h
  | append_singleton ops op ih =>
    rw [Client_after_concat, Client_step_flag cfg _ op (Client_after_wf cfg ops)]
    have hsplit : ∀ pre o post, ops ++ [op] = pre ++ o :: post →
        (post = [] ∧ ops = pre ∧ op = o) ∨
        ∃ post2, post = post2 ++ [op] ∧ ops = pre ++ o :: post2 := by
      intro pre o post h
      rcases List.eq_nil_or_concat post with rfl | ⟨post2, x, rfl⟩
      · left
        have := List.append_inj' h rfl
        simp only [List.cons.injEq, and_true] at this
        exact ⟨rfl, this.1, this.2⟩
      · right
        have h2 : ops ++ [op] = (pre ++ o :: post2) ++ [x] := by
          rw [h]; simp
        have := List.append_inj' h2 rfl
        simp only [List.cons.injEq, and_true] at this
        refine ⟨post2, ?_, this.1⟩
        rw [this.2]
        simp
    by_cases hok : op.isConnectOK = true
    · rw [if_pos hok]
      simp only [true_iff]
      exact ⟨ops, op, [], rfl, hok, by simp⟩
    · rw [if_neg hok]
      by_cases hdrop : op.isDrop = true
      · rw [if_pos hdrop]
        simp only [Bool.false_eq_true, false_iff]
        rintro ⟨pre, o, post, h, ho, hpost⟩
        rcases hsplit pre o post h with ⟨-, -, rfl⟩ | ⟨post2, rfl, -⟩
        · exact hok ho
        · have := hpost op (by simp)
          rw [hdrop] at this
          cases this
      · rw [if_neg hdrop, ih]
        constructor
        · rintro ⟨pre, o, post, h, ho, hpost⟩
          refine ⟨pre, o, post ++ [op], by rw [h]; simp, ho, ?_⟩
          intro x hx
          simp only [List.mem_append, List.mem_singleton] at hx
          rcases hx with hx | rfl
          · exact hpost x hx
          · simpa using hdrop
        · rintro ⟨pre, o, post, h, ho, hpost⟩
          rcases hsplit pre o post h with ⟨-, -, rfl⟩ | ⟨post2, rfl, h2⟩
          · exact absurd ho hok
          · exact ⟨pre, o, post2, h2, ho, fun x hx => hpost x (by simp [hx])⟩

/-- C27: on the MQTT wrapper, after any sequence of operations on a new client, the connected
flag is set exactly when a successful `Connect` has been followed by no `Disconnect` and no
connection-lost notification. While the flag is cleared (on a new client, after `Disconnect`,
after a connection-lost notification), `IsConnected` returns false and `Publish` and
`Subscribe` return "mqtt client not connected" without any call of the underlying client.
The on-connect callback leaves the wrapper as it is, and a second `Disconnect` does nothing. -/
theorem Client_flag_lifecycle (cfg : MQTTConfig) :
    (∀ ops, (Client.after cfg ops).isConnected = true ↔
      ∃ pre op post, ops = pre ++ op :: post ∧ op.isConnectOK = true ∧
        ∀ o ∈ post, o.isDrop = false) ∧
    (∀ c : Client, c.isConnected = false →
      c.IsConnected = some false ∧
      (∀ topic qos retained payload,
        c.Publish topic qos retained payload = ([], some (str "mqtt client not connected"))) ∧
      (∀ topic qos, c.Subscribe topic qos = ([], some (str "mqtt client not connected")))) ∧
    NewClient.isConnected = false ∧
    (∀ ops, (Client.after cfg ops).Disconnect.2.isConnected = false) ∧
    (∀ (c : Client) err, (c.onConnectionLost err).2.isConnected = false) ∧
    (∀ c : Client, c.onConnect.2 = c) ∧
    (∀ c : Client, c.Disconnect.2.Disconnect = ([], c.Disconnect.2)) ∧
    (∀ c : Client, c.isConnected = false → c.Disconnect = ([], c)) ∧
    (Client.after cfg [.connect samplePaho, .onConnect]).IsConnected = some true ∧
    (Client.after cfg [.connect samplePaho, .disconnect, .onConnect]).IsConnected = some false ∧
    (Client.after cfg [.connect samplePaho, .connectionLost (str "EOF"), .onConnect]).Publish
      (str "home/wake/response") 1 false (str "x") =
        ([], some (str "mqtt client not connected")) := by
  refine ⟨Client_after_flag cfg, ?_, rfl, ?_, fun _ _ => rfl, fun _ => rfl, ?_, ?_, rfl, rfl,
    rfl⟩
  · intro c hc
    refine ⟨?_, ?_, ?_⟩
    · simp [Client.IsConnected, hc]
    · intro topic qos retained payload
      simp [Client.Publish, hc]
    · intro topic qos
      simp [Client.Subscribe, hc]
  · intro ops
    have hwf := Client_after_wf cfg ops
    simp only [Client.Disconnect]
    cases hc : (Client.after cfg ops).isConnected with
    | false => simp [hc]
    | true => simp [hwf hc]
  · intro c
    by_cases h : (c.client.isSome && c.isConnected) = true
    · have h1 : c.Disconnect.2 = ⟨c.client, false⟩ := by simp [Client.Disconnect, h]
      rw [h1]
      simp [Client.Disconnect]
    · have h1 : c.Disconnect.2 = c := by simp [Client.Disconnect, h]
      rw [h1]
      simp [Client.Disconnect, h]
  · intro c hc
    simp [Client.Disconnect, hc]

theorem not_prefix_of_take_ne (p a x : Bytes) (k : Nat) (hka : k ≤ a.length)
    (hkp : k ≤ p.length) (hne : p.take k ≠ a.take k) : ¬ p <+: a ++ x := by
  intro h
  apply hne
  have h1 : p = (a ++ x).take p.length := List.prefix_iff_eq_take.1 h
  have h2 : p.take k = ((a ++ x).take p.length).take k := congrArg (List.take k) h1
  rw [List.take_take, Nat.min_eq_left hkp, List.take_append_of_le_length hka] at h2
  exact h2

theorem createMagicPacket_of_parse (s mac : Bytes) (h : parseMACAddress s = .ok mac) :
    ∃ mp, createMagicPacket mac = .ok mp := by
  obtain ⟨a, b, c, d, e, f, rfl⟩ := length_eq_six mac (parseMACAddress_length s mac h)
  exact ⟨_, createMagicPacket_six a b c d e f⟩

/-- C28: every byte sequence that `parseMACAddress` returns has length exactly 6, so the
`createMagicPacket` call that follows in `WakeOnLAN` succeeds; whatever the MAC string, ip,
port and the behaviour of the network are, an error returned by `WakeOnLAN` is one of the
four other errors ("invalid MAC address: ", "failed to resolve target address: ", "failed to
create UDP connection: ", "failed to send magic packet: ") and never begins with "failed to
create magic packet". -/
theorem WakeOnLAN_no_packet_error (sys : Sys) (macAddr ipAddr : Bytes) (port : Int) :
    (∀ mac, parseMACAddress macAddr = .ok mac →
      mac.length = 6 ∧ (∃ mp, createMagicPacket mac = .ok mp) ∧
      ∀ e, createMagicPacket mac ≠ .error e) ∧
    (∀ err, (WakeOnLAN sys macAddr ipAddr port).2 = some err →
      ((∃ e, err = str "invalid MAC address: " ++ e) ∨
        (∃ e, err = str "failed to resolve target address: " ++ e) ∨
        (∃ e, err = str "failed to create UDP connection: " ++ e) ∨
        (∃ e, err = str "failed to send magic packet: " ++ e)) ∧
      ¬ (str "failed to create magic packet" <+: err)) ∧
    (∀ e, (WakeOnLAN sys macAddr ipAddr port).2 ≠
      some (str "failed to create magic packet: " ++ e)) := by
  have hmain : ∀ err, (WakeOnLAN sys macAddr ipAddr port).2 = some err →
      ((∃ e, err = str "invalid MAC address: " ++ e) ∨
        (∃ e, err = str "failed to resolve target address: " ++ e) ∨
        (∃ e, err = str "failed to create UDP connection: " ++ e) ∨
        (∃ e, err = str "failed to send magic packet: " ++ e)) := by
    intro err herr
    cases hp : parseMACAddress macAddr with
    | error e =>
      simp only [WakeOnLAN, hp, Option.some.injEq] at herr
      exact Or.inl ⟨e, herr.symm⟩
    | ok mac =>
      obtain ⟨mp, hmp⟩ := createMagicPacket_of_parse macAddr mac hp
      rw [WakeOnLAN_of_ok sys macAddr ipAddr port mac mp hp hmp] at herr
      cases hr : sys.ResolveUDPAddr (wakeTarget ipAddr port) with
      | error e =>
        simp only [hr, Option.some.injEq] at herr
        exact Or.inr (Or.inl ⟨e, herr.symm⟩)
      | ok addr =>
        cases hd : sys.DialUDP addr with
        | some e =>
          simp only [hr, hd, Option.some.injEq] at herr
          exact Or.inr (Or.inr (Or.inl ⟨e, herr.symm⟩))
        | none =>
          cases hw : sys.Write addr mp with
          | some e =>
            simp only [hr, hd, hw, Option.map_some', Option.some.injEq] at herr
            exact Or.inr (Or.inr (Or.inr ⟨e, herr.symm⟩))
          | none =>
            simp only [hr, hd, hw, Option.map_none'] at herr
            cases herr
  have hpre : ∀ err, (WakeOnLAN sys macAddr ipAddr port).2 = some err →
      ¬ (str "failed to create magic packet" <+: err) := by
    intro err herr
    rcases hmain err herr with ⟨e, rfl⟩ | ⟨e, rfl⟩ | ⟨e, rfl⟩ | ⟨e, rfl⟩
    · exact not_prefix_of_take_ne _ _ e 1 (by decide) (by decide) (by decide)
    · exact not_prefix_of_take_ne _ _ e 11 (by decide) (by decide) (by decide)
    · exact not_prefix_of_take_ne _ _ e 18 (by decide) (by decide) (by decide)
    · exact not_prefix_of_take_ne _ _ e 11 (by decide) (by decide) (by decide)
  refine ⟨?_, fun err herr => ⟨hmain err herr, hpre err herr⟩, ?_⟩
  · intro mac hp
    obtain ⟨mp, hmp⟩ := createMagicPacket_of_parse macAddr mac hp
    refine ⟨parseMACAddress_length macAddr mac hp, ⟨mp, hmp⟩, ?_⟩
    intro e he
    rw [hmp] at he
    cases he
  · intro e he
    apply hpre _ he
    exact ⟨str ": " ++ e, by simp [str]⟩

theorem rootPath_ne_nil (goos : Bytes) : rootPath goos ≠ [] := by
  unfold rootPath
  split_ifs <;> decide

theorem usedPartition_eq (goos : Bytes) (parts : List PartitionStat) :
    usedPartition goos parts =
      if rootLoop (rootPath goos) parts = [] ∧ parts.length > 0 then
        match parts with
        | part :: _ => part.Mountpoint
        | [] => rootLoop (rootPath goos) parts
      else rootLoop (rootPath goos) parts := rfl

theorem rootLoop_of_mem (root : Bytes) (parts : List PartitionStat)
    (h : ∃ p ∈ parts, p.Mountpoint = root) : rootLoop root parts = root := by
  induction parts with
  | nil => simp at h
  | cons part rest ih =>
    simp only [rootLoop]
    split_ifs with hp
    · exact hp
    · apply ih
      obtain ⟨p, hp1, hp2⟩ := h
      simp only [List.mem_cons] at hp1
      rcases hp1 with rfl | hp1
      · exact absurd hp2 hp
      · exact ⟨p, hp1, hp2⟩

theorem rootLoop_of_not_mem (root : Bytes) (parts : List PartitionStat)
    (h : ∀ p ∈ parts, p.Mountpoint ≠ root) : rootLoop root parts = [] := by
  induction parts with
  | nil => rfl
  | cons part rest ih =>
    simp only [rootLoop]
    rw [if_neg (h part (by simp))]
    exact ih (fun p hp => h p (by simp [hp]))

theorem usedPartition_root (goos : Bytes) (parts : List PartitionStat)
    (h : ∃ p ∈ parts, p.Mountpoint = rootPath goos) :
    usedPartition goos parts = rootPath goos := by
  rw [usedPartition_eq, rootLoop_of_mem _ _ h, if_neg]
  intro hc
  exact rootPath_ne_nil goos hc.1

theorem usedPartition_first (goos : Bytes) (first : PartitionStat) (rest : List PartitionStat)
    (h : ∀ p ∈ first :: rest, p.Mountpoint ≠ rootPath goos) :
    usedPartition goos (first :: rest) = first.Mountpoint := by
  rw [usedPartition_eq, rootLoop_of_not_mem _ _ h, if_pos]
  exact ⟨rfl, by simp⟩

theorem diskQueries_append (a b : List Effect) :
    diskQueries (a ++ b) = diskQueries a ++ diskQueries b := by
  induction a with
  | nil => rfl
  | cons e rest ih => cases e <;> simp [diskQueries, ih]

theorem statusDiskBlock_cases (h : Host) (status : StatusInfo) :
    ((h.Partitions = .ok [] ∨ ∃ e, h.Partitions = .error e) →
      diskQueries (statusDiskBlock h status).1 = [] ∧ (statusDiskBlock h status).2 = status) ∧
    (∀ parts, h.Partitions = .ok parts → parts ≠ [] →
      (∀ p ∈ diskQueries (statusDiskBlock h status).1, p = usedPartition h.GOOS parts) ∧
      (∀ u, usedPartition h.GOOS parts ≠ [] → h.Usage (usedPartition h.GOOS parts) = .ok u →
        diskQueries (statusDiskBlock h status).1 = [usedPartition h.GOOS parts] ∧
        (statusDiskBlock h status).2 =
          { status with DiskUsage := u.UsedPercent, DiskFree := u.Free })) := by
  constructor
  · rintro (hp | ⟨e, hp⟩)
    · simp [statusDiskBlock, hp, diskQueries]
    · simp [statusDiskBlock, hp, diskQueries]
  · intro parts hp hne
    have hlen : parts.length > 0 := List.length_pos.2 hne
    constructor
    · intro p
      simp only [statusDiskBlock, hp, hlen, if_true]
      split_ifs
      · split <;> simp [diskQueries]
      · simp [diskQueries]
    · intro u hu hus
      simp only [statusDiskBlock, hp, hlen, if_true, hu, ne_eq, not_false_eq_true, hus]
      exact ⟨rfl, trivial⟩

theorem deviceDiskBlock_cases (h : Host) (info : DeviceInfo) :
    ((h.Partitions = .ok [] ∨ ∃ e, h.Partitions = .error e) →
      diskQueries (deviceDiskBlock h info).1 = [] ∧ (deviceDiskBlock h info).2 = info) ∧
    (∀ parts, h.Partitions = .ok parts → parts ≠ [] →
      (∀ p ∈ diskQueries (deviceDiskBlock h info).1, p = usedPartition h.GOOS parts) ∧
      (∀ u, usedPartition h.GOOS parts ≠ [] → h.Usage (usedPartition h.GOOS parts) = .ok u →
        diskQueries (deviceDiskBlock h info).1 = [usedPartition h.GOOS parts] ∧
        (deviceDiskBlock h info).2 = { info with TotalDisk := u.Total })) := by
  constructor
  · rintro (hp | ⟨e, hp⟩)
    · simp [deviceDiskBlock, hp, diskQueries]
    · simp [deviceDiskBlock, hp, diskQueries]
  · intro parts hp hne
    have hlen : parts.length > 0 := List.length_pos.2 hne
    constructor
    · intro p
      simp only [deviceDiskBlock, hp, hlen, if_true]
      split_ifs
      · split <;> simp [diskQueries]
      · simp [diskQueries]
    · intro u hu hus
      simp only [deviceDiskBlock, hp, hlen, if_true, hu, ne_eq, not_false_eq_true, hus]
      exact ⟨rfl, trivial⟩

theorem collectStatusInfo_disk (h : Host) :
    ∃ m : StatusInfo, m.DiskUsage = .finite 0 ∧ m.DiskFree = 0 ∧
      diskQueries (collectStatusInfo h).1 = diskQueries (statusDiskBlock h m).1 ∧
      (collectStatusInfo h).2 = .ok (statusDiskBlock h m).2 := by
  unfold collectStatusInfo
  dsimp only
  refine ⟨_, ?_, ?_, ?_, rfl⟩
  · split <;> split <;> split <;> rfl
  · split <;> split <;> split <;> rfl
  · simp only [diskQueries_append]
    split <;> split <;> split <;> simp [diskQueries]

theorem collectDeviceInfo_disk (c : Controlled) (h : Host) :
    (∀ e, h.Hostname = .error e →
      diskQueries (c.collectDeviceInfo h).1 = [] ∧
      (c.collectDeviceInfo h).2 = .error (str "failed to get hostname: " ++ e)) ∧
    (∀ hostname, h.Hostname = .ok hostname →
      ∃ m : DeviceInfo, m.TotalDisk = 0 ∧
        diskQueries (c.collectDeviceInfo h).1 = diskQueries (deviceDiskBlock h m).1 ∧
        (c.collectDeviceInfo h).2 = .ok (deviceDiskBlock h m).2) := by
  constructor
  · intro e he
    simp [Controlled.collectDeviceInfo, he, diskQueries]
  · intro hostname hh
    have hip : ∃ r, getLocalIPAddress h = ([.hostQuery (str "net.Interfaces")], r) := by
      unfold getLocalIPAddress
      split <;> exact ⟨_, rfl⟩
    obtain ⟨r, hr⟩ := hip
    unfold Controlled.collectDeviceInfo
    rw [hh, hr]
    rcases r with e | _ | ⟨first, rest⟩ <;> dsimp only <;> refine ⟨_, ?_, ?_, rfl⟩ <;>
      (try simp only [diskQueries_append]) <;> split <;> simp [diskQueries]

/-- C29: when the enumeration of the partitions returns a non-empty list, the only path for
which `collectDeviceInfo` and `collectStatusInfo` query the disk usage, and of which they
report the figures, is the root path of the operating system ("/", or "C:" and a backslash on
windows) when some enumerated partition is mounted there, and the mount point of the first
enumerated partition otherwise; when the list is empty or the enumeration fails, no disk usage
is queried and the disk fields keep their zero values. -/
theorem disk_figures_mount (c : Controlled) (h : Host) :
    (∀ parts, h.Partitions = .ok parts → parts ≠ [] →
      ((∃ p ∈ parts, p.Mountpoint = rootPath h.GOOS) →
        usedPartition h.GOOS parts = rootPath h.GOOS) ∧
      (∀ first rest, parts = first :: rest → (∀ p ∈ parts, p.Mountpoint ≠ rootPath h.GOOS) →
        usedPartition h.GOOS parts = first.Mountpoint) ∧
      (∀ p ∈ diskQueries (c.collectDeviceInfo h).1, p = usedPartition h.GOOS parts) ∧
      (∀ p ∈ diskQueries (collectStatusInfo h).1, p = usedPartition h.GOOS parts) ∧
      (∀ u, usedPartition h.GOOS parts ≠ [] → h.Usage (usedPartition h.GOOS parts) = .ok u →
        diskQueries (collectStatusInfo h).1 = [usedPartition h.GOOS parts] ∧
        (∃ s, (collectStatusInfo h).2 = .ok s ∧ s.DiskUsage = u.UsedPercent ∧
          s.DiskFree = u.Free) ∧
        (∀ hostname, h.Hostname = .ok hostname →
          diskQueries (c.collectDeviceInfo h).1 = [usedPartition h.GOOS parts] ∧
          ∃ d, (c.collectDeviceInfo h).2 = .ok d ∧ d.TotalDisk = u.Total))) ∧
    ((h.Partitions = .ok [] ∨ ∃ e, h.Partitions = .error e) →
      diskQueries (collectStatusInfo h).1 = [] ∧
      diskQueries (c.collectDeviceInfo h).1 = [] ∧
      (∃ s, (collectStatusInfo h).2 = .ok s ∧ s.DiskUsage = .finite 0 ∧ s.DiskFree = 0) ∧
      (∀ d, (c.collectDeviceInfo h).2 = .ok d → d.TotalDisk = 0)) ∧
    rootPath (str "linux") = str "/" ∧ rootPath (str "windows") = str "C:" ++ [92] ∧
    diskQueries (collectStatusInfo twoDiskHost).1 = [str "/"] ∧
    (collectStatusInfo twoDiskHost).2 =
      .ok ⟨1700000000, 3600, .finite 12, .finite 50, .finite 40, 4000000000, 60000000000⟩ ∧
    diskQueries (collectStatusInfo noRootHost).1 = [str "/boot"] ∧
    (collectStatusInfo noRootHost).2 =
      .ok ⟨1700000000, 3600, .finite 12, .finite 50, .finite 50, 4000000000, 500000000⟩ ∧
    diskQueries (sampleAgent.collectDeviceInfo twoDiskHost).1 = [str "/"] ∧
    (sampleAgent.collectDeviceInfo twoDiskHost).2 =
      .ok ⟨str "nas1", str "nas1", str "192.168.1.100", str "linux", 4, 8000000000,
        100000000000⟩ ∧
    diskQueries (sampleAgent.collectDeviceInfo noRootHost).1 = [str "/boot"] ∧
    (sampleAgent.collectDeviceInfo noRootHost).2 =
      .ok ⟨str "nas1", str "nas1", str "192.168.1.100", str "linux", 4, 8000000000,
        1000000000⟩ := by
  obtain ⟨m, hm1, hm2, hmq, hmr⟩ := collectStatusInfo_disk h
  obtain ⟨hderr, hdok⟩ := collectDeviceInfo_disk c h
  refine ⟨?_, ?_, by decide, by decide, by decide, by decide, by decide, by decide, by decide,
    by decide, by decide, by decide⟩
  · intro parts hp hne
    obtain ⟨hsq, hsu⟩ := (statusDiskBlock_cases h m).2 parts hp hne
    refine ⟨usedPartition_root h.GOOS parts, ?_, ?_, ?_, ?_⟩
    · intro first rest hpr hall
      subst hpr
      exact usedPartition_first h.GOOS first rest hall
    · intro p hpq
      cases hh : h.Hostname with
      | error e =>
        rw [(hderr e hh).1] at hpq
        cases hpq
      | ok hostname =>
        obtain ⟨d, -, hdq, -⟩ := hdok hostname hh
        rw [hdq] at hpq
        exact ((deviceDiskBlock_cases h d).2 parts hp hne).1 p hpq
    · intro p hpq
      rw [hmq] at hpq
      exact hsq p hpq
    · intro u hu hus
      obtain ⟨hq, hr⟩ := hsu u hu hus
      refine ⟨by rw [hmq, hq], ⟨_, hmr, by rw [hr], by rw [hr]⟩, ?_⟩
      intro hostname hh
      obtain ⟨d, -, hdq, hdr⟩ := hdok hostname hh
      obtain ⟨hq2, hr2⟩ := ((deviceDiskBlock_cases h d).2 parts hp hne).2 u hu hus
      exact ⟨by rw [hdq, hq2], _, hdr, by rw [hr2]⟩
  · intro hp
    obtain ⟨hq, hr⟩ := (statusDiskBlock_cases h m).1 hp
    refine ⟨by rw [hmq, hq], ?_, ⟨_, hmr, by rw [hr]; exact hm1, by rw [hr]; exact hm2⟩, ?_⟩
    · cases hh : h.Hostname with
      | error e => exact (hderr e hh).1
      | ok hostname =>
        obtain ⟨d, -, hdq, -⟩ := hdok hostname hh
        rw [hdq]
        exact ((deviceDiskBlock_cases h d).1 hp).1
    · intro d0 hd0
      cases hh : h.Hostname with
      | error e =>
        rw [(hderr e hh).2] at hd0
        cases hd0
      | ok hostname =>
        obtain ⟨d, hd1, -, hdr⟩ := hdok hostname hh
        rw [hdr] at hd0
        injection hd0 with hd0
        rw [← hd0, ((deviceDiskBlock_cases h d).1 hp).2]
        exact hd1


end SmartWaker
